import Mathlib

/-!
# go-fastly: request/response plumbing of the Fastly API client

A shallow embedding of the operations in `fastly/purge.go`, `fastly/vcl_condition.go`,
`fastly/vcl_custom.go`, `fastly/vcl_gzip.go`, `fastly/vcl_settings.go`,
`fastly/domains/v1/tools/status/api_get.go` and
`fastly/objectstorage/accesskeys/api_list_access_keys.go`.

Every operation is a function of the client, its input and the log of effects so far; it
returns the Go result (`Except.error err` stands for `return nil, err`) and the new log.
Pointers are `Option`s, Go maps are association lists with one entry per key, Go `int`
is `Int` and `uint` is `Nat` (no arithmetic is done on them).
-/

namespace fastly

/-! ## Errors -/

/-- Modelled from the spec: the error values of `errors.go`, which is not among the sources.
The spec (section 7) lists one sentinel per missing required field (domain, key, keys, name,
service ID, service version, URL) and the dedicated "not OK" error, and keeps them apart from
the errors the collaborators produce: `transport` for the HTTP client, `decode` for the body
decoders, `parse` for `net/url`. `wrapped msg cause` is `fmt.Errorf(msg + ": %w", cause)`.
`indexOutOfRange` is the run-time panic of an index expression, which no caller handles. -/
inductive Error where
  | ErrMissingDomain
  | ErrMissingKey
  | ErrMissingKeys
  | ErrMissingName
  | ErrMissingServiceID
  | ErrMissingServiceVersion
  | ErrMissingURL
  | ErrNotOK
  | transport (detail : String)
  | decode (detail : String)
  | parse (detail : String)
  | wrapped (msg : String) (cause : Error)
  | indexOutOfRange
  deriving DecidableEq, Repr

/-- The cause of a wrapped error (`errors.Unwrap`). -/
def Error.Unwrap : Error → Option Error
  | .wrapped _ cause => some cause
  | _ => none

/-! ## Go maps with string keys -/

/-- A `map[string]string`: at most one entry per key. -/
abbrev StringMap := List (String × String)

/-- Read `m[k]`; `none` when the key is absent. -/
def StringMap.get (m : StringMap) (k : String) : Option String :=
  match m with
  | [] => none
  | (k1, v) :: rest => if k1 = k then some v else StringMap.get rest k

/-- Assign `m[k] = v`: any entry for `k` is replaced. -/
def StringMap.set (m : StringMap) (k v : String) : StringMap :=
  (k, v) :: m.filter (fun p => decide (p.1 ≠ k))

/-- The keys of a map. -/
def StringMap.keys (m : StringMap) : List String := m.map Prod.fst

/-- A `url.Values` (`map[string][]string`): the values of a key in the order they were added. -/
abbrev Values := List (String × List String)

/-- Read `v[k]`; the nil slice when the key is absent. -/
def Values.get (v : Values) (k : String) : List String :=
  match v with
  | [] => []
  | (k1, vs) :: rest => if k1 = k then vs else Values.get rest k

/-- The method `Values.Add`: `v[key] = append(v[key], value)`. -/
def Values.Add (v : Values) (key value : String) : Values :=
  match v with
  | [] => [(key, [value])]
  | (k1, vs) :: rest =>
    if k1 = key then (k1, vs ++ [value]) :: rest else (k1, vs) :: Values.Add rest key value

/-! ## Requests, responses and the log of effects -/

/-- The HTTP verbs the client uses. -/
inductive Method where
  | GET
  | POST
  | PUT
  | DELETE
  deriving DecidableEq, Repr

/-- A `context.Context` handle; the operations only pass it through. -/
abbrev Context := Nat

/-- Modelled from the spec: `RequestOptions` of `request_options.go` (not among the sources):
"a configuration-of-options (headers, query params, context, parallel-execution hint)". -/
structure RequestOptions where
  Context : Option Context
  Headers : StringMap
  Params : StringMap
  Parallel : Bool
  deriving DecidableEq, Repr

/-- Modelled from the spec: `CreateRequestOptions` (not among the sources) gives fresh options
that carry the context only: no header, no parameter (the map exists: `status.Get` writes
into it), no parallel hint. -/
def CreateRequestOptions (ctx : Option Context) : RequestOptions :=
  { Context := ctx, Headers := [], Params := [], Parallel := false }

/-- One request as the transport sees it: verb, path, query parameters, headers and, for the
form verbs, the form body as key/value pairs. -/
structure Request where
  Method : Method
  Path : String
  Params : StringMap
  Header : StringMap
  Form : Option (List (String × String))
  Context : Option Context
  Parallel : Bool
  deriving DecidableEq, Repr

/-- The method `http.Header.Set`: the header has exactly this one value afterwards. Both
header names used here are already in canonical form. -/
def Request.HeaderSet (req : Request) (key value : String) : Request :=
  { req with Header := req.Header.set key value }

/-- An HTTP response, reduced to its body. -/
structure Response where
  Body : String
  deriving DecidableEq, Repr

/-- An observable effect: a request handed to the transport, or a response body read by a
decoder. -/
inductive Event where
  | request (req : Request)
  | decode (body : String)
  deriving DecidableEq, Repr

/-- The effects so far, oldest first. -/
abbrev Log := List Event

/-- The requests of a log: the call log of the transport. -/
def calls (log : Log) : List Request :=
  log.filterMap (fun e => match e with
    | .request req => some req
    | .decode _ => none)

/-! ## Response entities -/

/-- A `time.Time`, kept as its wire text. -/
abbrev Time := String

/-- Condition represents a condition response from the Fastly API. -/
structure Condition where
  Comment : Option String
  CreatedAt : Option Time
  DeletedAt : Option Time
  Name : Option String
  Priority : Option Int
  ServiceID : Option String
  ServiceVersion : Option Int
  Statement : Option String
  Type_ : Option String
  UpdatedAt : Option Time
  deriving DecidableEq, Repr

/-- VCL represents a response about VCL from the Fastly API. -/
structure VCL where
  Content : Option String
  CreatedAt : Option Time
  DeletedAt : Option Time
  Main : Option Bool
  Name : Option String
  ServiceID : Option String
  ServiceVersion : Option Int
  UpdatedAt : Option Time
  deriving DecidableEq, Repr

/-- Gzip represents a gzip response from the Fastly API. -/
structure Gzip where
  CacheCondition : Option String
  ContentTypes : Option String
  CreatedAt : Option Time
  DeletedAt : Option Time
  Extensions : Option String
  Name : Option String
  ServiceID : Option String
  ServiceVersion : Option Int
  UpdatedAt : Option Time
  deriving DecidableEq, Repr

/-- Settings represents a backend response from the Fastly API. -/
structure Settings where
  DefaultHost : Option String
  DefaultTTL : Option Nat
  ServiceID : Option String
  ServiceVersion : Option Int
  StaleIfError : Option Bool
  StaleIfErrorTTL : Option Nat
  deriving DecidableEq, Repr

/-- Purge is a response from a purge request. -/
structure Purge where
  PurgeID : Option String
  Status : Option String
  deriving DecidableEq, Repr

/-- Modelled from the spec: `statusResp` of `client.go` (not among the sources), the decoded
status payload of a delete. Like every response entity of the spec its field may be missing. -/
structure statusResp where
  Status : Option String
  deriving DecidableEq, Repr

/-- Modelled from the spec: the method `Ok` of `statusResp` (not among the sources): the
payload "indicates ok" exactly when there is one and its status is the text `ok`. -/
def statusResp.Ok (r : Option statusResp) : Bool :=
  match r with
  | some s => decide (s.Status = some "ok")
  | none => false

/-- Modelled from the spec: the response entity of the domain status check (its declaration
is not among the sources): "domain, zone, textual status, tags, and optionally a list of sale
offers (each with a currency and price)"; the scope is the one the test file reads. -/
structure Offer where
  Currency : String
  Price : String
  deriving DecidableEq, Repr

/-- Modelled from the spec: see `Offer`. -/
structure Status where
  Domain : String
  Zone : String
  Status : String
  Tags : String
  Scope : Option String
  Offers : List Offer
  deriving DecidableEq, Repr

/-- Modelled from the spec: the access keys entity (its declaration is not among the sources);
the spec names it only as a flat record, so it is kept as its wire fields. -/
structure AccessKeys where
  Data : List (String × String)
  deriving DecidableEq, Repr

/-! ## The client and its collaborators -/

/-- Modelled from the spec: the client of `client.go` (not among the sources) together with
the collaborators the operations call: the HTTP round trip, request construction,
`net/url.Parse` and the body decoders, "external collaborators, not part of this core". Each
is a parameter and reports a failure by the detail of its error. -/
structure Client where
  /-- The HTTP round trip `checkResp(c.HTTPClient.Do(req))`. -/
  roundTrip : Request → Except String Response
  /-- The failure of `RawRequest` for a verb, path and options, if it fails. -/
  rawRequestErr : Method → String → RequestOptions → Option String
  /-- The failure of `url.Parse` for a string, if it does not parse. -/
  urlParseErr : String → Option String
  decodeConditions : String → Except String (List Condition)
  decodeCondition : String → Except String (Option Condition)
  decodeVCLs : String → Except String (List VCL)
  decodeVCL : String → Except String (Option VCL)
  decodeGzips : String → Except String (List Gzip)
  decodeGzip : String → Except String (Option Gzip)
  decodeSettings : String → Except String (Option Settings)
  decodePurge : String → Except String (Option Purge)
  decodeStringMap : String → Except String StringMap
  decodeStatusResp : String → Except String (Option statusResp)
  decodeStatus : String → Except String (Option Status)
  decodeAccessKeys : String → Except String (Option AccessKeys)

/-- Modelled from the spec: `Client.RawRequest` (`client.go` is not among the sources) builds
the request from verb, path and options without any I/O; it can fail. -/
def Client.RawRequest (c : Client) (verb : Method) (p : String) (ro : RequestOptions) :
    Except Error Request :=
  match c.rawRequestErr verb p ro with
  | some d => .error (.transport d)
  | none =>
    .ok { Method := verb, Path := p, Params := ro.Params, Header := ro.Headers, Form := none,
          Context := ro.Context, Parallel := ro.Parallel }

/-- Modelled from the spec: the call `checkResp(c.HTTPClient.Do(req))` (`checkResp` is not
among the sources): one request handed to the transport, whose failure ("network failure,
non-success status") comes back as a transport error. -/
def Client.Do (c : Client) (req : Request) (log : Log) : Except Error Response × Log :=
  match c.roundTrip req with
  | .error d => (.error (.transport d), log ++ [.request req])
  | .ok resp => (.ok resp, log ++ [.request req])

/-- Modelled from the spec: the verb methods of the client (`client.go` is not among the
sources): "verb methods (get/post/put/delete) that accept a path and a
configuration-of-options ... and return a response". Each call is one invocation of the
transport with the verb, the path, the options and, for the form verbs, the form body. -/
def Client.Request (c : Client) (verb : Method) (p : String) (form : Option (List (String × String)))
    (ro : RequestOptions) (log : Log) : Except Error Response × Log :=
  c.Do { Method := verb, Path := p, Params := ro.Params, Header := ro.Headers, Form := form,
         Context := ro.Context, Parallel := ro.Parallel } log

/-- Modelled from the spec: see `Client.Request`. -/
def Client.Get (c : Client) (p : String) (ro : RequestOptions) (log : Log) :
    Except Error Response × Log :=
  c.Request .GET p none ro log

/-- Modelled from the spec: see `Client.Request`. -/
def Client.Post (c : Client) (p : String) (ro : RequestOptions) (log : Log) :
    Except Error Response × Log :=
  c.Request .POST p none ro log

/-- Modelled from the spec: see `Client.Request`. -/
def Client.Put (c : Client) (p : String) (ro : RequestOptions) (log : Log) :
    Except Error Response × Log :=
  c.Request .PUT p none ro log

/-- Modelled from the spec: see `Client.Request`. -/
def Client.Delete (c : Client) (p : String) (ro : RequestOptions) (log : Log) :
    Except Error Response × Log :=
  c.Request .DELETE p none ro log

/-- Modelled from the spec: see `Client.Request`; `i` is the form body of the input. -/
def Client.PostForm (c : Client) (p : String) (i : List (String × String)) (ro : RequestOptions)
    (log : Log) : Except Error Response × Log :=
  c.Request .POST p (some i) ro log

/-- Modelled from the spec: see `Client.Request`; `i` is the form body of the input. -/
def Client.PutForm (c : Client) (p : String) (i : List (String × String)) (ro : RequestOptions)
    (log : Log) : Except Error Response × Log :=
  c.Request .PUT p (some i) ro log

/-- Modelled from the spec: `DecodeBodyMap` (not among the sources) reads the body and decodes
it into the target; `dec` is the decoder of the target type. -/
def DecodeBodyMap {α : Type} (dec : String → Except String α) (body : String) (log : Log) :
    Except Error α × Log :=
  match dec body with
  | .error d => (.error (.decode d), log ++ [.decode body])
  | .ok v => (.ok v, log ++ [.decode body])

/-- The call `json.NewDecoder(body).Decode(&out)`. -/
def jsonDecode {α : Type} (dec : String → Except String α) (body : String) (log : Log) :
    Except Error α × Log :=
  match dec body with
  | .error d => (.error (.decode d), log ++ [.decode body])
  | .ok v => (.ok v, log ++ [.decode body])

/-! ## Paths -/

/-- The digits of `%XX` escapes, upper case as `net/url` writes them. -/
def upperhex : List Char := "0123456789ABCDEF".toList

/-- The bytes of the UTF-8 encoding of a character. -/
def utf8Bytes (c : Char) : List Nat :=
  let n := c.toNat
  if n < 0x80 then [n]
  else if n < 0x800 then [0xC0 + n / 64, 0x80 + n % 64]
  else if n < 0x10000 then [0xE0 + n / 4096, 0x80 + n / 64 % 64, 0x80 + n % 64]
  else [0xF0 + n / 262144, 0x80 + n / 4096 % 64, 0x80 + n / 64 % 64, 0x80 + n % 64]

/-- The function `shouldEscape` of `net/url` in the path-segment mode: unreserved characters
stay, of the reserved ones `/`, `;`, `,` and `?` are escaped, everything else is escaped. -/
def shouldEscape (c : Char) : Bool :=
  if c.isAlphanum then false
  else if c = '-' ∨ c = '_' ∨ c = '.' ∨ c = '~' then false
  else if c = '$' ∨ c = '&' ∨ c = '+' ∨ c = ':' ∨ c = '=' ∨ c = '@' then false
  else true

/-- The function `url.PathEscape`: every byte of a character to escape becomes `%XX`. -/
def PathEscape (s : String) : String :=
  String.mk (s.toList.flatMap (fun c =>
    if shouldEscape c then
      (utf8Bytes c).flatMap (fun b => ['%', upperhex.getD (b / 16) '0', upperhex.getD (b % 16) '0'])
    else [c]))

/-- Modelled from the spec: `ToSafeURL` (not among the sources) "assembles a URL path by joining
static segments with interpolated identifiers ..., escaping unsafe characters": every
component is path-escaped and the results are joined with `/`. -/
def ToSafeURL (unsafeComponents : List String) : String :=
  "/".intercalate (unsafeComponents.map PathEscape)

/-- The function `strconv.Itoa`: the decimal text of an integer. -/
def Itoa (n : Int) : String := toString n

/-! ## Query strings (`net/url`) -/

/-- The value of a hexadecimal digit, if the character is one. -/
def unhex (c : Char) : Option Nat :=
  if '0' ≤ c ∧ c ≤ '9' then some (c.toNat - '0'.toNat)
  else if 'a' ≤ c ∧ c ≤ 'f' then some (c.toNat - 'a'.toNat + 10)
  else if 'A' ≤ c ∧ c ≤ 'F' then some (c.toNat - 'A'.toNat + 10)
  else none

/-- The function `url.QueryUnescape` on the characters of a string: `%XX` is the byte `XX`
(written as the character of that code), `+` is a space, and a `%` that is not followed by
two hexadecimal digits is an error (`none`). -/
def unescapeChars : List Char → Option (List Char)
  | [] => some []
  | '%' :: h :: l :: rest =>
    match unhex h, unhex l with
    | some a, some b => (unescapeChars rest).map (fun t => Char.ofNat (16 * a + b) :: t)
    | _, _ => none
  | '%' :: _ => none
  | '+' :: rest => (unescapeChars rest).map (fun t => ' ' :: t)
  | c :: rest => (unescapeChars rest).map (fun t => c :: t)

/-- The function `url.QueryUnescape`. -/
def QueryUnescape (s : String) : Option String :=
  (unescapeChars s.toList).map String.mk

/-- The text before the first `sep` and the text after it (`strings.Cut`); without a `sep` the
whole text and nothing. -/
def cutChars (sep : Char) : List Char → List Char × List Char
  | [] => ([], [])
  | c :: rest =>
    if c = sep then ([], rest)
    else ((c :: (cutChars sep rest).1), (cutChars sep rest).2)

/-- The pieces of a text between the occurrences of `sep` (`strings.Split`). -/
def splitChars (sep : Char) : List Char → List (List Char)
  | [] => [[]]
  | c :: rest =>
    if c = sep then [] :: splitChars sep rest
    else
      match splitChars sep rest with
      | [] => [[c]]
      | w :: ws => (c :: w) :: ws

/-- One round of the loop of `parseQuery` for the piece `key` (the text up to the next `&`):
a piece with a semicolon, an empty piece and a piece whose key or value does not unescape
are skipped; otherwise the value is added under the key. -/
def parseQueryPiece (m : Values) (key : List Char) : Values :=
  if ';' ∈ key then m
  else if key = [] then m
  else
    match unescapeChars (cutChars '=' key).1 with
    | none => m
    | some k =>
      match unescapeChars (cutChars '=' key).2 with
      | none => m
      | some value => m.Add (String.mk k) (String.mk value)

/-- The function `parseQuery` of `net/url`, its error dropped as `URL.Query` drops it: the
pieces of the query are handled from left to right. -/
def parseQuery (m : Values) (query : String) : Values :=
  (splitChars '&' query.toList).foldl parseQueryPiece m

/-- A parsed URL, reduced to the raw query `Purge` reads from it. -/
structure URL where
  RawQuery : String
  deriving DecidableEq, Repr

/-- The method `URL.Query`: the parsed raw query, malformed pairs silently dropped. -/
def URL.Query (u : URL) : Values := parseQuery [] u.RawQuery

/-- The function `url.Parse`: when the string parses, the raw query is the text between the
first `?` and the first `#` (the fragment is cut off first, and a scheme cannot contain a
`?`). Which strings do not parse is the client parameter `urlParseErr`. -/
def urlParse (c : Client) (rawURL : String) : Except Error URL :=
  match c.urlParseErr rawURL with
  | some d => .error (.parse d)
  | none => .ok { RawQuery := String.mk (cutChars '?' (cutChars '#' rawURL.toList).1).2 }

/-! ## Form bodies (`go-querystring`) -/

/-- The value of a struct field as the form encoder sees it: a pointer (absent or present) to
a string, `int`, `uint`, `bool` or context, or a plain string or `int`. -/
inductive FieldValue where
  | ptrString (v : Option String)
  | ptrInt (v : Option Int)
  | ptrUint (v : Option Nat)
  | ptrBool (v : Option Bool)
  | ptrContext (v : Option Context)
  | string (v : String)
  | int (v : Int)
  deriving DecidableEq, Repr

/-- One field of an input struct: its Go name, the `url` key of its struct tag (empty when the
field has no tag) and its value. -/
structure StructField where
  Name : String
  Tag : String
  Value : FieldValue
  deriving DecidableEq, Repr

namespace query

/-- The function `parseTag`: the name before the first comma and the options after it. -/
def parseTag (tag : String) : String × List String :=
  match splitChars ',' tag.toList with
  | [] => ("", [])
  | name :: opts => (String.mk name, opts.map String.mk)

/-- The function `isEmptyValue`: a nil pointer, an empty string, the number zero. -/
def isEmptyValue : FieldValue → Bool
  | .ptrString v => v.isNone
  | .ptrInt v => v.isNone
  | .ptrUint v => v.isNone
  | .ptrBool v => v.isNone
  | .ptrContext v => v.isNone
  | .string v => decide (v = "")
  | .int v => decide (v = 0)

/-- The function `valueString`: the empty text for a nil pointer, otherwise the printed value
(`fmt.Sprint`). No context is ever printed: every `Context` field is tagged `-`. -/
def valueString : FieldValue → String
  | .ptrString none => ""
  | .ptrString (some v) => v
  | .ptrInt none => ""
  | .ptrInt (some v) => toString v
  | .ptrUint none => ""
  | .ptrUint (some v) => toString v
  | .ptrBool none => ""
  | .ptrBool (some v) => if v then "true" else "false"
  | .ptrContext none => ""
  | .ptrContext (some v) => toString v
  | .string v => v
  | .int v => toString v

/-- The loop of `reflectValue` over the fields of a struct, in declaration order: a field
tagged `-` is skipped, a field without a name in its tag goes by its Go name, a field with
the option `omitempty` is skipped when its value is empty, and every other field is added. -/
def reflectValue : List StructField → List (String × String)
  | [] => []
  | sf :: rest =>
    if sf.Tag = "-" then reflectValue rest
    else
      let name := if (parseTag sf.Tag).1 = "" then sf.Name else (parseTag sf.Tag).1
      if (parseTag sf.Tag).2.contains "omitempty" && isEmptyValue sf.Value then reflectValue rest
      else (name, valueString sf.Value) :: reflectValue rest

/-- The function `query.Values`, which the form verbs apply to the input: the key/value pairs
of the form body, here in the order of the fields (the encoded body sorts them by key and
escapes them, which changes neither the keys nor the values sent). -/
def Values (fields : List StructField) : List (String × String) := reflectValue fields

end query

/-! ## Conditions (`vcl_condition.go`) -/

/-- ListConditionsInput is used as input to the ListConditions function. -/
structure ListConditionsInput where
  Context : Option Context
  ServiceID : String
  ServiceVersion : Int
  deriving DecidableEq, Repr

/-- ListConditions retrieves all resources. -/
def Client.ListConditions (c : Client) (i : ListConditionsInput) (log : Log) :
    Except Error (List Condition) × Log :=
  if i.ServiceID = "" then (.error .ErrMissingServiceID, log)
  else if i.ServiceVersion = 0 then (.error .ErrMissingServiceVersion, log)
  else
    let path := ToSafeURL ["service", i.ServiceID, "version", Itoa i.ServiceVersion, "condition"]
    match c.Get path (CreateRequestOptions i.Context) log with
    | (.error err, log) => (.error err, log)
    | (.ok resp, log) =>
      match DecodeBodyMap c.decodeConditions resp.Body log with
      | (.error err, log) => (.error err, log)
      | (.ok cs, log) => (.ok cs, log)

/-- CreateConditionInput is used as input to the CreateCondition function. -/
structure CreateConditionInput where
  Context : Option Context
  Name : Option String
  Priority : Option Int
  ServiceID : String
  ServiceVersion : Int
  Statement : Option String
  Type_ : Option String
  deriving DecidableEq, Repr

/-- The fields of CreateConditionInput with their `url` tags, in declaration order. -/
def CreateConditionInput.urlFields (i : CreateConditionInput) : List StructField :=
  [{ Name := "Context", Tag := "-", Value := .ptrContext i.Context },
   { Name := "Name", Tag := "name,omitempty", Value := .ptrString i.Name },
   { Name := "Priority", Tag := "priority,omitempty", Value := .ptrInt i.Priority },
   { Name := "ServiceID", Tag := "-", Value := .string i.ServiceID },
   { Name := "ServiceVersion", Tag := "-", Value := .int i.ServiceVersion },
   { Name := "Statement", Tag := "statement,omitempty", Value := .ptrString i.Statement },
   { Name := "Type", Tag := "type,omitempty", Value := .ptrString i.Type_ }]

/-- CreateCondition creates a new resource. -/
def Client.CreateCondition (c : Client) (i : CreateConditionInput) (log : Log) :
    Except Error (Option Condition) × Log :=
  if i.ServiceID = "" then (.error .ErrMissingServiceID, log)
  else if i.ServiceVersion = 0 then (.error .ErrMissingServiceVersion, log)
  else
    let path := ToSafeURL ["service", i.ServiceID, "version", Itoa i.ServiceVersion, "condition"]
    match c.PostForm path (query.Values i.urlFields) (CreateRequestOptions i.Context) log with
    | (.error err, log) => (.error err, log)
    | (.ok resp, log) =>
      match DecodeBodyMap c.decodeCondition resp.Body log with
      | (.error err, log) => (.error err, log)
      | (.ok co, log) => (.ok co, log)

/-- GetConditionInput is used as input to the GetCondition function. -/
structure GetConditionInput where
  Context : Option Context
  Name : String
  ServiceID : String
  ServiceVersion : Int
  deriving DecidableEq, Repr

/-- GetCondition retrieves the specified resource. -/
def Client.GetCondition (c : Client) (i : GetConditionInput) (log : Log) :
    Except Error (Option Condition) × Log :=
  if i.Name = "" then (.error .ErrMissingName, log)
  else if i.ServiceID = "" then (.error .ErrMissingServiceID, log)
  else if i.ServiceVersion = 0 then (.error .ErrMissingServiceVersion, log)
  else
    let path := ToSafeURL ["service", i.ServiceID, "version", Itoa i.ServiceVersion, "condition", i.Name]
    match c.Get path (CreateRequestOptions i.Context) log with
    | (.error err, log) => (.error err, log)
    | (.ok resp, log) =>
      match DecodeBodyMap c.decodeCondition resp.Body log with
      | (.error err, log) => (.error err, log)
      | (.ok co, log) => (.ok co, log)

/-- UpdateConditionInput is used as input to the UpdateCondition function. -/
structure UpdateConditionInput where
  Comment : Option String
  Context : Option Context
  Name : String
  Priority : Option Int
  ServiceID : String
  ServiceVersion : Int
  Statement : Option String
  Type_ : Option String
  deriving DecidableEq, Repr

/-- The fields of UpdateConditionInput with their `url` tags, in declaration order. -/
def UpdateConditionInput.urlFields (i : UpdateConditionInput) : List StructField :=
  [{ Name := "Comment", Tag := "comment,omitempty", Value := .ptrString i.Comment },
   { Name := "Context", Tag := "-", Value := .ptrContext i.Context },
   { Name := "Name", Tag := "-", Value := .string i.Name },
   { Name := "Priority", Tag := "priority,omitempty", Value := .ptrInt i.Priority },
   { Name := "ServiceID", Tag := "-", Value := .string i.ServiceID },
   { Name := "ServiceVersion", Tag := "-", Value := .int i.ServiceVersion },
   { Name := "Statement", Tag := "statement,omitempty", Value := .ptrString i.Statement },
   { Name := "Type", Tag := "type,omitempty", Value := .ptrString i.Type_ }]

/-- UpdateCondition updates the specified resource. -/
def Client.UpdateCondition (c : Client) (i : UpdateConditionInput) (log : Log) :
    Except Error (Option Condition) × Log :=
  if i.Name = "" then (.error .ErrMissingName, log)
  else if i.ServiceID = "" then (.error .ErrMissingServiceID, log)
  else if i.ServiceVersion = 0 then (.error .ErrMissingServiceVersion, log)
  else
    let path := ToSafeURL ["service", i.ServiceID, "version", Itoa i.ServiceVersion, "condition", i.Name]
    match c.PutForm path (query.Values i.urlFields) (CreateRequestOptions i.Context) log with
    | (.error err, log) => (.error err, log)
    | (.ok resp, log) =>
      match DecodeBodyMap c.decodeCondition resp.Body log with
      | (.error err, log) => (.error err, log)
      | (.ok co, log) => (.ok co, log)

/-- DeleteConditionInput is the input parameter to DeleteCondition. -/
structure DeleteConditionInput where
  Context : Option Context
  Name : String
  ServiceID : String
  ServiceVersion : Int
  deriving DecidableEq, Repr

/-- DeleteCondition deletes the specified resource. -/
def Client.DeleteCondition (c : Client) (i : DeleteConditionInput) (log : Log) :
    Except Error Unit × Log :=
  if i.Name = "" then (.error .ErrMissingName, log)
  else if i.ServiceID = "" then (.error .ErrMissingServiceID, log)
  else if i.ServiceVersion = 0 then (.error .ErrMissingServiceVersion, log)
  else
    let path := ToSafeURL ["service", i.ServiceID, "version", Itoa i.ServiceVersion, "condition", i.Name]
    match c.Delete path (CreateRequestOptions i.Context) log with
    | (.error err, log) => (.error err, log)
    | (.ok resp, log) =>
      match DecodeBodyMap c.decodeStatusResp resp.Body log with
      | (.error err, log) => (.error err, log)
      | (.ok r, log) => if !statusResp.Ok r then (.error .ErrNotOK, log) else (.ok (), log)

/-! ## Custom VCL (`vcl_custom.go`) -/

/-- ListVCLsInput is used as input to the ListVCLs function. -/
structure ListVCLsInput where
  Context : Option Context
  ServiceID : String
  ServiceVersion : Int
  deriving DecidableEq, Repr

/-- ListVCLs retrieves all resources. -/
def Client.ListVCLs (c : Client) (i : ListVCLsInput) (log : Log) :
    Except Error (List VCL) × Log :=
  if i.ServiceID = "" then (.error .ErrMissingServiceID, log)
  else if i.ServiceVersion = 0 then (.error .ErrMissingServiceVersion, log)
  else
    let path := ToSafeURL ["service", i.ServiceID, "version", Itoa i.ServiceVersion, "vcl"]
    match c.Get path (CreateRequestOptions i.Context) log with
    | (.error err, log) => (.error err, log)
    | (.ok resp, log) =>
      match DecodeBodyMap c.decodeVCLs resp.Body log with
      | (.error err, log) => (.error err, log)
      | (.ok vcls, log) => (.ok vcls, log)

/-- GetVCLInput is used as input to the GetVCL function. -/
structure GetVCLInput where
  Context : Option Context
  Name : String
  ServiceID : String
  ServiceVersion : Int
  deriving DecidableEq, Repr

/-- GetVCL retrieves the specified resource. -/
def Client.GetVCL (c : Client) (i : GetVCLInput) (log : Log) :
    Except Error (Option VCL) × Log :=
  if i.Name = "" then (.error .ErrMissingName, log)
  else if i.ServiceID = "" then (.error .ErrMissingServiceID, log)
  else if i.ServiceVersion = 0 then (.error .ErrMissingServiceVersion, log)
  else
    let path := ToSafeURL ["service", i.ServiceID, "version", Itoa i.ServiceVersion, "vcl", i.Name]
    match c.Get path (CreateRequestOptions i.Context) log with
    | (.error err, log) => (.error err, log)
    | (.ok resp, log) =>
      match DecodeBodyMap c.decodeVCL resp.Body log with
      | (.error err, log) => (.error err, log)
      | (.ok vcl, log) => (.ok vcl, log)

/-- GetGeneratedVCLInput is used as input to the GetGeneratedVCL function. -/
structure GetGeneratedVCLInput where
  Context : Option Context
  ServiceID : String
  ServiceVersion : Int
  deriving DecidableEq, Repr

/-- GetGeneratedVCL retrieves the specified resource. -/
def Client.GetGeneratedVCL (c : Client) (i : GetGeneratedVCLInput) (log : Log) :
    Except Error (Option VCL) × Log :=
  if i.ServiceID = "" then (.error .ErrMissingServiceID, log)
  else if i.ServiceVersion = 0 then (.error .ErrMissingServiceVersion, log)
  else
    let path := ToSafeURL ["service", i.ServiceID, "version", Itoa i.ServiceVersion, "generated_vcl"]
    match c.Get path (CreateRequestOptions i.Context) log with
    | (.error err, log) => (.error err, log)
    | (.ok resp, log) =>
      match DecodeBodyMap c.decodeVCL resp.Body log with
      | (.error err, log) => (.error err, log)
      | (.ok vcl, log) => (.ok vcl, log)

/-- CreateVCLInput is used as input to the CreateVCL function. -/
structure CreateVCLInput where
  Content : Option String
  Context : Option Context
  Main : Option Bool
  Name : Option String
  ServiceID : String
  ServiceVersion : Int
  deriving DecidableEq, Repr

/-- The fields of CreateVCLInput with their `url` tags, in declaration order. -/
def CreateVCLInput.urlFields (i : CreateVCLInput) : List StructField :=
  [{ Name := "Content", Tag := "content,omitempty", Value := .ptrString i.Content },
   { Name := "Context", Tag := "-", Value := .ptrContext i.Context },
   { Name := "Main", Tag := "main,omitempty", Value := .ptrBool i.Main },
   { Name := "Name", Tag := "name,omitempty", Value := .ptrString i.Name },
   { Name := "ServiceID", Tag := "-", Value := .string i.ServiceID },
   { Name := "ServiceVersion", Tag := "-", Value := .int i.ServiceVersion }]

/-- CreateVCL creates a new resource. -/
def Client.CreateVCL (c : Client) (i : CreateVCLInput) (log : Log) :
    Except Error (Option VCL) × Log :=
  if i.ServiceID = "" then (.error .ErrMissingServiceID, log)
  else if i.ServiceVersion = 0 then (.error .ErrMissingServiceVersion, log)
  else
    let path := ToSafeURL ["service", i.ServiceID, "version", Itoa i.ServiceVersion, "vcl"]
    match c.PostForm path (query.Values i.urlFields) (CreateRequestOptions i.Context) log with
    | (.error err, log) => (.error err, log)
    | (.ok resp, log) =>
      match DecodeBodyMap c.decodeVCL resp.Body log with
      | (.error err, log) => (.error err, log)
      | (.ok vcl, log) => (.ok vcl, log)

/-- UpdateVCLInput is used as input to the UpdateVCL function. -/
structure UpdateVCLInput where
  Content : Option String
  Context : Option Context
  Name : String
  NewName : Option String
  ServiceID : String
  ServiceVersion : Int
  deriving DecidableEq, Repr

/-- The fields of UpdateVCLInput with their `url` tags, in declaration order. -/
def UpdateVCLInput.urlFields (i : UpdateVCLInput) : List StructField :=
  [{ Name := "Content", Tag := "content,omitempty", Value := .ptrString i.Content },
   { Name := "Context", Tag := "-", Value := .ptrContext i.Context },
   { Name := "Name", Tag := "-", Value := .string i.Name },
   { Name := "NewName", Tag := "name,omitempty", Value := .ptrString i.NewName },
   { Name := "ServiceID", Tag := "-", Value := .string i.ServiceID },
   { Name := "ServiceVersion", Tag := "-", Value := .int i.ServiceVersion }]

/-- UpdateVCL updates the specified resource. -/
def Client.UpdateVCL (c : Client) (i : UpdateVCLInput) (log : Log) :
    Except Error (Option VCL) × Log :=
  if i.Name = "" then (.error .ErrMissingName, log)
  else if i.ServiceID = "" then (.error .ErrMissingServiceID, log)
  else if i.ServiceVersion = 0 then (.error .ErrMissingServiceVersion, log)
  else
    let path := ToSafeURL ["service", i.ServiceID, "version", Itoa i.ServiceVersion, "vcl", i.Name]
    match c.PutForm path (query.Values i.urlFields) (CreateRequestOptions i.Context) log with
    | (.error err, log) => (.error err, log)
    | (.ok resp, log) =>
      match DecodeBodyMap c.decodeVCL resp.Body log with
      | (.error err, log) => (.error err, log)
      | (.ok vcl, log) => (.ok vcl, log)

/-- ActivateVCLInput is used as input to the ActivateVCL function. -/
structure ActivateVCLInput where
  Context : Option Context
  Name : String
  ServiceID : String
  ServiceVersion : Int
  deriving DecidableEq, Repr

/-- ActivateVCL marks the named VCL as the main one. -/
def Client.ActivateVCL (c : Client) (i : ActivateVCLInput) (log : Log) :
    Except Error (Option VCL) × Log :=
  if i.Name = "" then (.error .ErrMissingName, log)
  else if i.ServiceID = "" then (.error .ErrMissingServiceID, log)
  else if i.ServiceVersion = 0 then (.error .ErrMissingServiceVersion, log)
  else
    let path := ToSafeURL ["service", i.ServiceID, "version", Itoa i.ServiceVersion, "vcl", i.Name, "main"]
    match c.Put path (CreateRequestOptions i.Context) log with
    | (.error err, log) => (.error err, log)
    | (.ok resp, log) =>
      match DecodeBodyMap c.decodeVCL resp.Body log with
      | (.error err, log) => (.error err, log)
      | (.ok vcl, log) => (.ok vcl, log)

/-- DeleteVCLInput is the input parameter to DeleteVCL. -/
structure DeleteVCLInput where
  Context : Option Context
  Name : String
  ServiceID : String
  ServiceVersion : Int
  deriving DecidableEq, Repr

/-- DeleteVCL deletes the specified resource. -/
def Client.DeleteVCL (c : Client) (i : DeleteVCLInput) (log : Log) :
    Except Error Unit × Log :=
  if i.Name = "" then (.error .ErrMissingName, log)
  else if i.ServiceID = "" then (.error .ErrMissingServiceID, log)
  else if i.ServiceVersion = 0 then (.error .ErrMissingServiceVersion, log)
  else
    let path := ToSafeURL ["service", i.ServiceID, "version", Itoa i.ServiceVersion, "vcl", i.Name]
    match c.Delete path (CreateRequestOptions i.Context) log with
    | (.error err, log) => (.error err, log)
    | (.ok resp, log) =>
      match DecodeBodyMap c.decodeStatusResp resp.Body log with
      | (.error err, log) => (.error err, log)
      | (.ok r, log) => if !statusResp.Ok r then (.error .ErrNotOK, log) else (.ok (), log)

/-! ## Gzip configurations (`vcl_gzip.go`) -/

/-- ListGzipsInput is used as input to the ListGzips function. -/
structure ListGzipsInput where
  Context : Option Context
  ServiceID : String
  ServiceVersion : Int
  deriving DecidableEq, Repr

/-- ListGzips retrieves all resources. -/
def Client.ListGzips (c : Client) (i : ListGzipsInput) (log : Log) :
    Except Error (List Gzip) × Log :=
  if i.ServiceID = "" then (.error .ErrMissingServiceID, log)
  else if i.ServiceVersion = 0 then (.error .ErrMissingServiceVersion, log)
  else
    let path := ToSafeURL ["service", i.ServiceID, "version", Itoa i.ServiceVersion, "gzip"]
    match c.Get path (CreateRequestOptions i.Context) log with
    | (.error err, log) => (.error err, log)
    | (.ok resp, log) =>
      match DecodeBodyMap c.decodeGzips resp.Body log with
      | (.error err, log) => (.error err, log)
      | (.ok gzips, log) => (.ok gzips, log)

/-- CreateGzipInput is used as input to the CreateGzip function. -/
structure CreateGzipInput where
  CacheCondition : Option String
  ContentTypes : Option String
  Context : Option Context
  Extensions : Option String
  Name : Option String
  ServiceID : String
  ServiceVersion : Int
  deriving DecidableEq, Repr

/-- The fields of CreateGzipInput with their `url` tags, in declaration order. -/
def CreateGzipInput.urlFields (i : CreateGzipInput) : List StructField :=
  [{ Name := "CacheCondition", Tag := "cache_condition,omitempty", Value := .ptrString i.CacheCondition },
   { Name := "ContentTypes", Tag := "content_types,omitempty", Value := .ptrString i.ContentTypes },
   { Name := "Context", Tag := "-", Value := .ptrContext i.Context },
   { Name := "Extensions", Tag := "extensions,omitempty", Value := .ptrString i.Extensions },
   { Name := "Name", Tag := "name,omitempty", Value := .ptrString i.Name },
   { Name := "ServiceID", Tag := "-", Value := .string i.ServiceID },
   { Name := "ServiceVersion", Tag := "-", Value := .int i.ServiceVersion }]

/-- CreateGzip creates a new resource. -/
def Client.CreateGzip (c : Client) (i : CreateGzipInput) (log : Log) :
    Except Error (Option Gzip) × Log :=
  if i.ServiceID = "" then (.error .ErrMissingServiceID, log)
  else if i.ServiceVersion = 0 then (.error .ErrMissingServiceVersion, log)
  else
    let path := ToSafeURL ["service", i.ServiceID, "version", Itoa i.ServiceVersion, "gzip"]
    match c.PostForm path (query.Values i.urlFields) (CreateRequestOptions i.Context) log with
    | (.error err, log) => (.error err, log)
    | (.ok resp, log) =>
      match DecodeBodyMap c.decodeGzip resp.Body log with
      | (.error err, log) => (.error err, log)
      | (.ok gzip, log) => (.ok gzip, log)

/-- GetGzipInput is used as input to the GetGzip function. -/
structure GetGzipInput where
  Context : Option Context
  Name : String
  ServiceID : String
  ServiceVersion : Int
  deriving DecidableEq, Repr

/-- GetGzip retrieves the specified resource. -/
def Client.GetGzip (c : Client) (i : GetGzipInput) (log : Log) :
    Except Error (Option Gzip) × Log :=
  if i.Name = "" then (.error .ErrMissingName, log)
  else if i.ServiceID = "" then (.error .ErrMissingServiceID, log)
  else if i.ServiceVersion = 0 then (.error .ErrMissingServiceVersion, log)
  else
    let path := ToSafeURL ["service", i.ServiceID, "version", Itoa i.ServiceVersion, "gzip", i.Name]
    match c.Get path (CreateRequestOptions i.Context) log with
    | (.error err, log) => (.error err, log)
    | (.ok resp, log) =>
      match DecodeBodyMap c.decodeGzip resp.Body log with
      | (.error err, log) => (.error err, log)
      | (.ok b, log) => (.ok b, log)

/-- UpdateGzipInput is used as input to the UpdateGzip function. -/
structure UpdateGzipInput where
  CacheCondition : Option String
  ContentTypes : Option String
  Context : Option Context
  Extensions : Option String
  Name : String
  NewName : Option String
  ServiceID : String
  ServiceVersion : Int
  deriving DecidableEq, Repr

/-- The fields of UpdateGzipInput with their `url` tags, in declaration order. -/
def UpdateGzipInput.urlFields (i : UpdateGzipInput) : List StructField :=
  [{ Name := "CacheCondition", Tag := "cache_condition,omitempty", Value := .ptrString i.CacheCondition },
   { Name := "ContentTypes", Tag := "content_types,omitempty", Value := .ptrString i.ContentTypes },
   { Name := "Context", Tag := "-", Value := .ptrContext i.Context },
   { Name := "Extensions", Tag := "extensions,omitempty", Value := .ptrString i.Extensions },
   { Name := "Name", Tag := "-", Value := .string i.Name },
   { Name := "NewName", Tag := "name,omitempty", Value := .ptrString i.NewName },
   { Name := "ServiceID", Tag := "-", Value := .string i.ServiceID },
   { Name := "ServiceVersion", Tag := "-", Value := .int i.ServiceVersion }]

/-- UpdateGzip updates the specified resource. -/
def Client.UpdateGzip (c : Client) (i : UpdateGzipInput) (log : Log) :
    Except Error (Option Gzip) × Log :=
  if i.Name = "" then (.error .ErrMissingName, log)
  else if i.ServiceID = "" then (.error .ErrMissingServiceID, log)
  else if i.ServiceVersion = 0 then (.error .ErrMissingServiceVersion, log)
  else
    let path := ToSafeURL ["service", i.ServiceID, "version", Itoa i.ServiceVersion, "gzip", i.Name]
    match c.PutForm path (query.Values i.urlFields) (CreateRequestOptions i.Context) log with
    | (.error err, log) => (.error err, log)
    | (.ok resp, log) =>
      match DecodeBodyMap c.decodeGzip resp.Body log with
      | (.error err, log) => (.error err, log)
      | (.ok b, log) => (.ok b, log)

/-- DeleteGzipInput is the input parameter to DeleteGzip. -/
structure DeleteGzipInput where
  Context : Option Context
  Name : String
  ServiceID : String
  ServiceVersion : Int
  deriving DecidableEq, Repr

/-- DeleteGzip deletes the specified resource. -/
def Client.DeleteGzip (c : Client) (i : DeleteGzipInput) (log : Log) :
    Except Error Unit × Log :=
  if i.Name = "" then (.error .ErrMissingName, log)
  else if i.ServiceID = "" then (.error .ErrMissingServiceID, log)
  else if i.ServiceVersion = 0 then (.error .ErrMissingServiceVersion, log)
  else
    let path := ToSafeURL ["service", i.ServiceID, "version", Itoa i.ServiceVersion, "gzip", i.Name]
    match c.Delete path (CreateRequestOptions i.Context) log with
    | (.error err, log) => (.error err, log)
    | (.ok resp, log) =>
      match DecodeBodyMap c.decodeStatusResp resp.Body log with
      | (.error err, log) => (.error err, log)
      | (.ok r, log) => if !statusResp.Ok r then (.error .ErrNotOK, log) else (.ok (), log)

/-! ## Settings (`vcl_settings.go`) -/

/-- GetSettingsInput is used as input to the GetSettings function. -/
structure GetSettingsInput where
  Context : Option Context
  ServiceID : String
  ServiceVersion : Int
  deriving DecidableEq, Repr

/-- GetSettings retrieves the specified resource. -/
def Client.GetSettings (c : Client) (i : GetSettingsInput) (log : Log) :
    Except Error (Option Settings) × Log :=
  if i.ServiceID = "" then (.error .ErrMissingServiceID, log)
  else if i.ServiceVersion = 0 then (.error .ErrMissingServiceVersion, log)
  else
    let path := ToSafeURL ["service", i.ServiceID, "version", Itoa i.ServiceVersion, "settings"]
    match c.Get path (CreateRequestOptions i.Context) log with
    | (.error err, log) => (.error err, log)
    | (.ok resp, log) =>
      match DecodeBodyMap c.decodeSettings resp.Body log with
      | (.error err, log) => (.error err, log)
      | (.ok b, log) => (.ok b, log)

/-- UpdateSettingsInput is used as input to the UpdateSettings function. -/
structure UpdateSettingsInput where
  Context : Option Context
  DefaultHost : Option String
  DefaultTTL : Option Nat
  ServiceID : String
  ServiceVersion : Int
  StaleIfError : Option Bool
  StaleIfErrorTTL : Option Nat
  deriving DecidableEq, Repr

/-- The fields of UpdateSettingsInput with their `url` tags, in declaration order. -/
def UpdateSettingsInput.urlFields (i : UpdateSettingsInput) : List StructField :=
  [{ Name := "Context", Tag := "-", Value := .ptrContext i.Context },
   { Name := "DefaultHost", Tag := "general.default_host,omitempty", Value := .ptrString i.DefaultHost },
   { Name := "DefaultTTL", Tag := "general.default_ttl", Value := .ptrUint i.DefaultTTL },
   { Name := "ServiceID", Tag := "", Value := .string i.ServiceID },
   { Name := "ServiceVersion", Tag := "", Value := .int i.ServiceVersion },
   { Name := "StaleIfError", Tag := "general.stale_if_error,omitempty", Value := .ptrBool i.StaleIfError },
   { Name := "StaleIfErrorTTL", Tag := "general.stale_if_error_ttl,omitempty", Value := .ptrUint i.StaleIfErrorTTL }]

/-- UpdateSettings updates the specified resource. -/
def Client.UpdateSettings (c : Client) (i : UpdateSettingsInput) (log : Log) :
    Except Error (Option Settings) × Log :=
  if i.ServiceID = "" then (.error .ErrMissingServiceID, log)
  else if i.ServiceVersion = 0 then (.error .ErrMissingServiceVersion, log)
  else
    let path := ToSafeURL ["service", i.ServiceID, "version", Itoa i.ServiceVersion, "settings"]
    match c.PutForm path (query.Values i.urlFields) (CreateRequestOptions i.Context) log with
    | (.error err, log) => (.error err, log)
    | (.ok resp, log) =>
      match DecodeBodyMap c.decodeSettings resp.Body log with
      | (.error err, log) => (.error err, log)
      | (.ok b, log) => (.ok b, log)

/-! ## Purging (`purge.go`) -/

/-- PurgeInput is used as input to the Purge function. -/
structure PurgeInput where
  Context : Option Context
  Soft : Bool
  URL : String
  deriving DecidableEq, Repr

/-- The loop of `constructRequestOptionsParam` over the entries of the parsed query:
`m[k] = v[0]` for every key; indexing an empty slice panics. -/
def copyFirstValues (m : StringMap) : Values → Except Error StringMap
  | [] => .ok m
  | (k, v) :: rest =>
    match v with
    | [] => .error .indexOutOfRange
    | v0 :: _ => copyFirstValues (m.set k v0) rest

/-- The function constructRequestOptionsParam prevents Client.RawRequest from incorrectly
clearing the URL query string, by manually constructing a ro.Params. -/
def constructRequestOptionsParam (c : Client) (us : String) : Except Error StringMap :=
  let m : StringMap := []
  match urlParse c us with
  | .error err => .error err
  | .ok u =>
    let v := u.Query
    copyFirstValues m v

/-- Purge instantly purges an individual URL. -/
def Client.Purge (c : Client) (i : PurgeInput) (log : Log) :
    Except Error (Option fastly.Purge) × Log :=
  if i.URL = "" then (.error .ErrMissingURL, log)
  else
    let requestOptions := CreateRequestOptions i.Context
    let requestOptions := { requestOptions with Parallel := true }
    let requestOptions :=
      if i.Soft then { requestOptions with Headers := [("Fastly-Soft-Purge", "1")] }
      else requestOptions
    match constructRequestOptionsParam c i.URL with
    | .error err => (.error err, log)
    | .ok params =>
      let requestOptions := { requestOptions with Params := params }
      match c.Post ("purge/" ++ i.URL) requestOptions log with
      | (.error err, log) => (.error err, log)
      | (.ok resp, log) =>
        match DecodeBodyMap c.decodePurge resp.Body log with
        | (.error err, log) => (.error err, log)
        | (.ok r, log) => (.ok r, log)

/-- PurgeKeyInput is used as input to the PurgeKey function. -/
structure PurgeKeyInput where
  Context : Option Context
  Key : String
  ServiceID : String
  Soft : Bool
  deriving DecidableEq, Repr

/-- PurgeKey instantly purges a particular service of items tagged with a key. -/
def Client.PurgeKey (c : Client) (i : PurgeKeyInput) (log : Log) :
    Except Error (Option fastly.Purge) × Log :=
  if i.ServiceID = "" then (.error .ErrMissingServiceID, log)
  else if i.Key = "" then (.error .ErrMissingKey, log)
  else
    let path := ToSafeURL ["service", i.ServiceID, "purge", i.Key]
    let requestOptions := CreateRequestOptions i.Context
    let requestOptions := { requestOptions with Parallel := true }
    match c.RawRequest .POST path requestOptions with
    | .error err => (.error err, log)
    | .ok req =>
      let req := if i.Soft then req.HeaderSet "Fastly-Soft-Purge" "1" else req
      match c.Do req log with
      | (.error err, log) => (.error err, log)
      | (.ok resp, log) =>
        match DecodeBodyMap c.decodePurge resp.Body log with
        | (.error err, log) => (.error err, log)
        | (.ok r, log) => (.ok r, log)

/-- PurgeKeysInput is used as input to the PurgeKeys function. -/
structure PurgeKeysInput where
  Context : Option Context
  Keys : List String
  ServiceID : String
  Soft : Bool
  deriving DecidableEq, Repr

/-- PurgeKeys instantly purges a particular service of items tagged with a key. -/
def Client.PurgeKeys (c : Client) (i : PurgeKeysInput) (log : Log) :
    Except Error StringMap × Log :=
  if i.ServiceID = "" then (.error .ErrMissingServiceID, log)
  else if i.Keys.length = 0 then (.error .ErrMissingKeys, log)
  else
    let path := ToSafeURL ["service", i.ServiceID, "purge"]
    let requestOptions := CreateRequestOptions i.Context
    let requestOptions := { requestOptions with Parallel := true }
    match c.RawRequest .POST path requestOptions with
    | .error err => (.error err, log)
    | .ok req =>
      let req := if i.Soft then req.HeaderSet "Fastly-Soft-Purge" "1" else req
      let req := req.HeaderSet "Surrogate-Key" (" ".intercalate i.Keys)
      match c.Do req log with
      | (.error err, log) => (.error err, log)
      | (.ok resp, log) =>
        match DecodeBodyMap c.decodeStringMap resp.Body log with
        | (.error err, log) => (.error err, log)
        | (.ok r, log) => (.ok r, log)

/-- PurgeAllInput is used as input to the PurgeAll function. -/
structure PurgeAllInput where
  Context : Option Context
  ServiceID : String
  deriving DecidableEq, Repr

/-- PurgeAll instantly purges everything from a service. -/
def Client.PurgeAll (c : Client) (i : PurgeAllInput) (log : Log) :
    Except Error (Option fastly.Purge) × Log :=
  if i.ServiceID = "" then (.error .ErrMissingServiceID, log)
  else
    let path := ToSafeURL ["service", i.ServiceID, "purge_all"]
    match c.RawRequest .POST path (CreateRequestOptions i.Context) with
    | .error err => (.error err, log)
    | .ok req =>
      match c.Do req log with
      | (.error err, log) => (.error err, log)
      | (.ok resp, log) =>
        match DecodeBodyMap c.decodePurge resp.Body log with
        | (.error err, log) => (.error err, log)
        | (.ok r, log) => (.ok r, log)

end fastly

/-! ## Domain status (`domains/v1/tools/status/api_get.go`) -/

namespace status

open fastly

/-- Scope determines the depth of availability checking. -/
abbrev Scope := String

/-- ScopeEstimate checks DNS and aftermarket level availability. -/
def ScopeEstimate : Scope := "estimate"

/-- GetInput specifies the parameters for a domain status check request. -/
structure GetInput where
  Context : Option Context
  Domain : String
  Scope : Option Scope
  deriving DecidableEq, Repr

/-- Get performs a domain status check for a given domain. -/
def Get (c : Client) (g : GetInput) (log : Log) : Except Error (Option Status) × Log :=
  if g.Domain = "" then (.error .ErrMissingDomain, log)
  else
    let ro := CreateRequestOptions g.Context
    let ro := { ro with Params := ro.Params.set "domain" g.Domain }
    let ro :=
      match g.Scope with
      | some scope => { ro with Params := ro.Params.set "scope" scope }
      | none => ro
    let path := ToSafeURL ["domains", "v1", "tools", "status"]
    match c.Get path ro log with
    | (.error err, log) => (.error err, log)
    | (.ok resp, log) =>
      match jsonDecode c.decodeStatus resp.Body log with
      | (.error err, log) => (.error (.wrapped "error decoding response" err), log)
      | (.ok status, log) => (.ok status, log)

end status

/-! ## Object storage access keys (`objectstorage/accesskeys/api_list_access_keys.go`) -/

namespace accesskeys

open fastly

/-- ListAccessKeys retrieves all access keys within object storage. -/
def ListAccessKeys (c : Client) (log : Log) : Except Error (Option AccessKeys) × Log :=
  match c.Get "/resources/object-storage/access-keys" (CreateRequestOptions none) log with
  | (.error err, log) => (.error err, log)
  | (.ok resp, log) =>
    match jsonDecode c.decodeAccessKeys resp.Body log with
    | (.error err, log) => (.error (.wrapped "failed to decode json response" err), log)
    | (.ok accessKeys, log) => (.ok accessKeys, log)

end accesskeys

/-! ## Vocabulary of the specification

The definitions below are not code of the repository: they name the notions the properties are
stated with. -/

namespace fastly

/-- The request of an operation that sets neither parameters nor headers: verb, path, form
body and context. -/
def plainRequest (verb : Method) (path : String) (form : Option (List (String × String)))
    (ctx : Option Context) : Request :=
  { Method := verb, Path := path, Params := [], Header := [], Form := form, Context := ctx,
    Parallel := false }

/-- The tail every operation shares once its request is built: the request goes to the
transport; a transport error is returned as it is; otherwise the body is decoded and a decode
error is returned through `wrap`. -/
def exchange {α : Type} (c : Client) (req : Request) (dec : String → Except String α)
    (wrap : Error → Error) (log : Log) : Except Error α × Log :=
  match c.roundTrip req with
  | .error d => (.error (.transport d), log ++ [.request req])
  | .ok resp =>
    match dec resp.Body with
    | .error d => (.error (wrap (.decode d)), log ++ [.request req, .decode resp.Body])
    | .ok v => (.ok v, log ++ [.request req, .decode resp.Body])

/-- The last step of a delete: the decoded status payload decides between success and the
"not OK" error. -/
def checkStatus (r : Except Error (Option statusResp) × Log) : Except Error Unit × Log :=
  match r with
  | (.error err, log) => (.error err, log)
  | (.ok s, log) => if statusResp.Ok s then (.ok (), log) else (.error .ErrNotOK, log)

/-- The requests an operation added to the log `before`, read off the log it returned. -/
def newCalls (before after : Log) : List Request := calls (after.drop before.length)

/-- A client whose collaborators answer the same way whatever they are asked: the transport
gives `reply`, every decoder fails with `decodeErr` when there is one and otherwise yields the
empty entity (`st` for a status payload), request construction and URL parsing succeed. -/
def stubClient (reply : Except String Response) (decodeErr : Option String)
    (st : Option statusResp) : Client :=
  { roundTrip := fun _ => reply
    rawRequestErr := fun _ _ _ => none
    urlParseErr := fun _ => none
    decodeConditions := fun _ => match decodeErr with | some d => .error d | none => .ok []
    decodeCondition := fun _ => match decodeErr with | some d => .error d | none => .ok none
    decodeVCLs := fun _ => match decodeErr with | some d => .error d | none => .ok []
    decodeVCL := fun _ => match decodeErr with | some d => .error d | none => .ok none
    decodeGzips := fun _ => match decodeErr with | some d => .error d | none => .ok []
    decodeGzip := fun _ => match decodeErr with | some d => .error d | none => .ok none
    decodeSettings := fun _ => match decodeErr with | some d => .error d | none => .ok none
    decodePurge := fun _ => match decodeErr with | some d => .error d | none => .ok none
    decodeStringMap := fun _ => match decodeErr with | some d => .error d | none => .ok []
    decodeStatusResp := fun _ => match decodeErr with | some d => .error d | none => .ok st
    decodeStatus := fun _ => match decodeErr with | some d => .error d | none => .ok none
    decodeAccessKeys := fun _ => match decodeErr with | some d => .error d | none => .ok none }

/-- A client whose transport answers every request with the body `ok` and whose decoders
succeed. -/
def okClient : Client := stubClient (.ok { Body := "ok" }) none (some { Status := some "ok" })

/-- The three validation errors of a version-scoped operation. -/
def isVersionValidationError (e : Error) : Bool :=
  decide (e = .ErrMissingName ∨ e = .ErrMissingServiceID ∨ e = .ErrMissingServiceVersion)

/-- What an operation does once validation has passed: it hands one request to the transport,
and what it returns is not one of the three validation errors. -/
def IssuesRequest {α : Type} (r : Except Error α × Log) (log : Log) : Prop :=
  (∃ req, calls r.2 = calls log ++ [req]) ∧
  ∀ e, r.1 = .error e → isVersionValidationError e = false

/-- The validation contract of an operation on a named resource of a service version: an empty
name, else an empty service ID, else a zero version is rejected with its own error and the
log is left as it was; any other input issues a request. -/
def ValidatesNamed {α : Type} (r : Except Error α × Log) (log : Log) (name serviceID : String)
    (serviceVersion : Int) : Prop :=
  (name = "" → r = (.error .ErrMissingName, log)) ∧
  (name ≠ "" → serviceID = "" → r = (.error .ErrMissingServiceID, log)) ∧
  (name ≠ "" → serviceID ≠ "" → serviceVersion = 0 →
    r = (.error .ErrMissingServiceVersion, log)) ∧
  (name ≠ "" → serviceID ≠ "" → serviceVersion ≠ 0 → IssuesRequest r log)

/-- The validation contract of an operation on a service version that names no resource. -/
def ValidatesVersion {α : Type} (r : Except Error α × Log) (log : Log) (serviceID : String)
    (serviceVersion : Int) : Prop :=
  (serviceID = "" → r = (.error .ErrMissingServiceID, log)) ∧
  (serviceID ≠ "" → serviceVersion = 0 → r = (.error .ErrMissingServiceVersion, log)) ∧
  (serviceID ≠ "" → serviceVersion ≠ 0 → IssuesRequest r log)

/-- The required fields of the inputs. -/
inductive RequiredField where
  | Domain
  | Key
  | Keys
  | Name
  | ServiceID
  | ServiceVersion
  | URL
  deriving DecidableEq, Repr

/-- The sentinel error of a missing required field. -/
def RequiredField.missingError : RequiredField → Error
  | .Domain => .ErrMissingDomain
  | .Key => .ErrMissingKey
  | .Keys => .ErrMissingKeys
  | .Name => .ErrMissingName
  | .ServiceID => .ErrMissingServiceID
  | .ServiceVersion => .ErrMissingServiceVersion
  | .URL => .ErrMissingURL

/-- The first required field at its zero value, the fields given in the order the input struct
declares them, each with whether it is at its zero value. -/
def firstMissing : List (RequiredField × Bool) → Option RequiredField
  | [] => none
  | (f, isZero) :: rest => if isZero then some f else firstMissing rest

/-- The required fields of an input on a named resource of a service version, in the order
every such input struct declares them: Name, ServiceID, ServiceVersion. -/
def declaredNamed (name serviceID : String) (serviceVersion : Int) :
    List (RequiredField × Bool) :=
  [(.Name, decide (name = "")), (.ServiceID, decide (serviceID = "")),
   (.ServiceVersion, decide (serviceVersion = 0))]

/-- The required fields of an input on a service version, in declaration order: ServiceID,
ServiceVersion. -/
def declaredVersion (serviceID : String) (serviceVersion : Int) : List (RequiredField × Bool) :=
  [(.ServiceID, decide (serviceID = "")), (.ServiceVersion, decide (serviceVersion = 0))]

/-- The required fields of PurgeKeyInput in declaration order: Key, ServiceID. -/
def PurgeKeyInput.declared (i : PurgeKeyInput) : List (RequiredField × Bool) :=
  [(.Key, decide (i.Key = "")), (.ServiceID, decide (i.ServiceID = ""))]

/-- The required fields of PurgeKeysInput in declaration order: Keys, ServiceID. -/
def PurgeKeysInput.declared (i : PurgeKeysInput) : List (RequiredField × Bool) :=
  [(.Keys, decide (i.Keys = [])), (.ServiceID, decide (i.ServiceID = ""))]

/-- Validation in declaration order: when a required field is missing, the result is the
error of the first missing one and the log is left as it was. -/
def FollowsDeclarationOrder {α : Type} (r : Except Error α × Log) (log : Log)
    (declared : List (RequiredField × Bool)) : Prop :=
  ∀ f, firstMissing declared = some f → r = (.error f.missingError, log)

/-- The key/value pairs of a parsed query, every value of a repeated key included. -/
def Values.pairs (v : Values) : List (String × String) :=
  v.flatMap (fun kv => kv.2.map (fun value => (kv.1, value)))

/-- A request carries the soft-purge marker: the header `Fastly-Soft-Purge` with value `1`. -/
def carriesSoftPurge (req : Request) : Prop := req.Header.get "Fastly-Soft-Purge" = some "1"

/-- A purge operation supports soft purge when some input makes it issue a request that
carries the marker. -/
def SupportsSoftPurge {I α : Type} (op : Client → I → Log → Except Error α × Log) : Prop :=
  ∃ (c : Client) (i : I) (log : Log) (req : Request),
    req ∈ newCalls log (op c i log).2 ∧ carriesSoftPurge req

/-- The number of values a request carries for a header. -/
def headerCount (req : Request) (key : String) : Nat :=
  (req.Header.filter (fun kv => decide (kv.1 = key))).length

/-- What a delete returns once its input is valid: it issues one request; a transport error
and a decode error are returned as they are; a decoded payload with status `ok` gives
success, and a payload with any other status or with none gives the "not OK" error. -/
def DeleteChecksStatus (c : Client) (r : Except Error Unit × Log) (log : Log) : Prop :=
  ∃ req, newCalls log r.2 = [req] ∧
    (∀ d, c.roundTrip req = .error d → r.1 = .error (.transport d)) ∧
    ∀ resp, c.roundTrip req = .ok resp →
      (∀ d, c.decodeStatusResp resp.Body = .error d → r.1 = .error (.decode d)) ∧
      ∀ s, c.decodeStatusResp resp.Body = .ok (some s) →
        (s.Status = some "ok" → r.1 = .ok ()) ∧
        (s.Status = some "fail" → r.1 = .error .ErrNotOK) ∧
        (s.Status = none → r.1 = .error .ErrNotOK) ∧
        (s.Status ≠ some "ok" → r.1 = .error .ErrNotOK)

/-- What an operation returns when decoding fails: it issued one request, the transport
answered, and the decoder `dec` failed on the body with detail `d`; the result is then the
decode error passed through `wrap`. -/
def ReturnsDecodeError {α β : Type} (c : Client) (dec : String → Except String β)
    (wrap : Error → Error) (r : Except Error α × Log) (log : Log) : Prop :=
  ∃ req, newCalls log r.2 = [req] ∧
    ∀ resp d, c.roundTrip req = .ok resp → dec resp.Body = .error d →
      r.1 = .error (wrap (.decode d))

/-- What an operation returns when the transport fails: it issued one request, and when the
transport fails on it with detail `d` the result is that very error, the log holds the request
and nothing after it (no body was decoded). -/
def ReturnsTransportError {α : Type} (c : Client) (r : Except Error α × Log) (log : Log) :
    Prop :=
  ∃ req, newCalls log r.2 = [req] ∧
    ∀ d, c.roundTrip req = .error d → r = (.error (.transport d), log ++ [.request req])

/-- The entry of a form body for an optional field: the key with the printed value when the
field is present, nothing when it is absent. -/
def formEntry (key : String) (value : Option String) : List (String × String) :=
  match value with
  | some v => [(key, v)]
  | none => []

/-- The shape every parsed query has: no key twice and no key without a value. -/
def Values.WellFormed (v : Values) : Prop :=
  (v.map Prod.fst).Nodup ∧ ∀ kv ∈ v, kv.2 ≠ []

/-- The parameters of a domain status check: the domain, and the scope when one is given. -/
def statusParams (g : status.GetInput) : StringMap :=
  match g.Scope with
  | some scope => [("scope", scope), ("domain", g.Domain)]
  | none => [("domain", g.Domain)]

/-- An operation issued exactly one request, and that request satisfies `P`. -/
def IssuesOne {α : Type} (r : Except Error α × Log) (log : Log) (P : Request → Prop) : Prop :=
  ∃ req, newCalls log r.2 = [req] ∧ P req

/-- An operation appended exactly one request to the log: the log it returns is the old log,
then the request, then events that are no requests. -/
def AppendsOneRequest {α : Type} (r : Except Error α × Log) (log : Log) : Prop :=
  ∃ req rest, r.2 = log ++ Event.request req :: rest ∧ calls rest = []

/-- A client like `okClient` whose `url.Parse` rejects a string that starts with a colon
("missing protocol scheme"), as `net/url` does. -/
def schemeCheckingClient : Client :=
  { okClient with
    urlParseErr := fun s =>
      match s.toList with
      | ':' :: _ => some "missing protocol scheme"
      | _ => none }

/-- The key under which the form encoder writes a field that it serializes: the name in the
tag, or the Go name of the field when the tag names none (as in `query.reflectValue`). -/
def query.fieldKey (sf : StructField) : String :=
  if (query.parseTag sf.Tag).1 = "" then sf.Name else (query.parseTag sf.Tag).1

/-- An optional attribute of an input: a pointer to a string, `int`, `uint` or `bool`. The
context and the plain (required) strings and numbers are none. -/
def FieldValue.isAttribute : FieldValue → Bool
  | .ptrString _ => true
  | .ptrInt _ => true
  | .ptrUint _ => true
  | .ptrBool _ => true
  | .ptrContext _ => false
  | .string _ => false
  | .int _ => false

/-- The wire keys of the optional attribute fields of an input. -/
def attributeKeys (fields : List StructField) : List String :=
  (fields.filter (fun sf => sf.Value.isAttribute)).map query.fieldKey

/-- The keys of the form body of an input. -/
def bodyKeys (fields : List StructField) : List String :=
  (query.Values fields).map Prod.fst

/-- The fields of Condition with the key of their `mapstructure` tag, in declaration order. -/
def Condition.wireKeys : StringMap :=
  [("Comment", "comment"), ("CreatedAt", "created_at"), ("DeletedAt", "deleted_at"),
   ("Name", "name"), ("Priority", "priority"), ("ServiceID", "service_id"),
   ("ServiceVersion", "version"), ("Statement", "statement"), ("Type", "type"),
   ("UpdatedAt", "updated_at")]

/-- The fields of VCL with the key of their `mapstructure` tag, in declaration order. -/
def VCL.wireKeys : StringMap :=
  [("Content", "content"), ("CreatedAt", "created_at"), ("DeletedAt", "deleted_at"),
   ("Main", "main"), ("Name", "name"), ("ServiceID", "service_id"),
   ("ServiceVersion", "version"), ("UpdatedAt", "updated_at")]

/-- The fields of Gzip with the key of their `mapstructure` tag, in declaration order. -/
def Gzip.wireKeys : StringMap :=
  [("CacheCondition", "cache_condition"), ("ContentTypes", "content_types"),
   ("CreatedAt", "created_at"), ("DeletedAt", "deleted_at"), ("Extensions", "extensions"),
   ("Name", "name"), ("ServiceID", "service_id"), ("ServiceVersion", "version"),
   ("UpdatedAt", "updated_at")]

/-- The fields of Settings with the key of their `mapstructure` tag, in declaration order. -/
def Settings.wireKeys : StringMap :=
  [("DefaultHost", "general.default_host"), ("DefaultTTL", "general.default_ttl"),
   ("ServiceID", "service_id"), ("ServiceVersion", "version"),
   ("StaleIfError", "general.stale_if_error"),
   ("StaleIfErrorTTL", "general.stale_if_error_ttl")]

/-- The response field an input field corresponds to: the field of the same name, and Name for
the NewName of an update. -/
def responseFieldName (inputField : String) : String :=
  if inputField = "NewName" then "Name" else inputField

/-- The keys of request and response agree: every field of the input that the encoder
serializes (every field not tagged `-`) is written under the key from which the corresponding
field of the response entity is decoded. -/
def KeysAgree (fields : List StructField) (wireKeys : StringMap) : Prop :=
  ∀ sf ∈ fields, sf.Tag ≠ "-" →
    StringMap.get wireKeys (responseFieldName sf.Name) = some (query.fieldKey sf)

/-- The parameters the encoder serializes, each key with the value of its field in place of
the printed text: what a server that echoes the parameters sends back. -/
def query.echo : List StructField → List (String × FieldValue)
  | [] => []
  | sf :: rest =>
    if sf.Tag = "-" then query.echo rest
    else if (query.parseTag sf.Tag).2.contains "omitempty" && query.isEmptyValue sf.Value then
      query.echo rest
    else (query.fieldKey sf, sf.Value) :: query.echo rest

/-- The value echoed under a key, if any. -/
def echoed (e : List (String × FieldValue)) (key : String) : Option FieldValue :=
  match e with
  | [] => none
  | (k, v) :: rest => if k = key then some v else echoed rest key

/-- Decode an echoed value into a `*string` field. -/
def echoedString (e : List (String × FieldValue)) (key : String) : Option String :=
  match echoed e key with
  | some (.ptrString v) => v
  | some (.string v) => some v
  | _ => none

/-- Decode an echoed value into a `*int` field. -/
def echoedInt (e : List (String × FieldValue)) (key : String) : Option Int :=
  match echoed e key with
  | some (.ptrInt v) => v
  | some (.int v) => some v
  | _ => none

/-- Decode an echoed value into a `*uint` field. -/
def echoedUint (e : List (String × FieldValue)) (key : String) : Option Nat :=
  match echoed e key with
  | some (.ptrUint v) => v
  | _ => none

/-- Decode an echoed value into a `*bool` field. -/
def echoedBool (e : List (String × FieldValue)) (key : String) : Option Bool :=
  match echoed e key with
  | some (.ptrBool v) => v
  | _ => none

/-- Modelled from the spec: decoding an echo into a Condition: "decoding a server echo of
those parameters back into the same field set"; every field is read from the key of its
`mapstructure` tag, the timestamps are not part of an echo. -/
def Condition.ofEcho (e : List (String × FieldValue)) : Condition :=
  { Comment := echoedString e "comment", CreatedAt := none, DeletedAt := none,
    Name := echoedString e "name", Priority := echoedInt e "priority",
    ServiceID := echoedString e "service_id", ServiceVersion := echoedInt e "version",
    Statement := echoedString e "statement", Type_ := echoedString e "type",
    UpdatedAt := none }

/-- Modelled from the spec: decoding an echo into a VCL, see `Condition.ofEcho`. -/
def VCL.ofEcho (e : List (String × FieldValue)) : VCL :=
  { Content := echoedString e "content", CreatedAt := none, DeletedAt := none,
    Main := echoedBool e "main", Name := echoedString e "name",
    ServiceID := echoedString e "service_id", ServiceVersion := echoedInt e "version",
    UpdatedAt := none }

/-- Modelled from the spec: decoding an echo into a Gzip, see `Condition.ofEcho`. -/
def Gzip.ofEcho (e : List (String × FieldValue)) : Gzip :=
  { CacheCondition := echoedString e "cache_condition",
    ContentTypes := echoedString e "content_types", CreatedAt := none, DeletedAt := none,
    Extensions := echoedString e "extensions", Name := echoedString e "name",
    ServiceID := echoedString e "service_id", ServiceVersion := echoedInt e "version",
    UpdatedAt := none }

/-- Modelled from the spec: decoding an echo into a Settings, see `Condition.ofEcho`. -/
def Settings.ofEcho (e : List (String × FieldValue)) : Settings :=
  { DefaultHost := echoedString e "general.default_host",
    DefaultTTL := echoedUint e "general.default_ttl",
    ServiceID := echoedString e "service_id", ServiceVersion := echoedInt e "version",
    StaleIfError := echoedBool e "general.stale_if_error",
    StaleIfErrorTTL := echoedUint e "general.stale_if_error_ttl" }

end fastly

/-! # Theorems -/

namespace fastly

/-! ## Every operation with valid input is one exchange -/

/-- With valid input, ListConditions is one exchange with the transport. -/
theorem ListConditions_valid (c : Client) (i : ListConditionsInput) (log : Log)
    (h2 : i.ServiceID ≠ "") (h3 : i.ServiceVersion ≠ 0) :
    c.ListConditions i log =
      exchange c (plainRequest .GET (ToSafeURL ["service", i.ServiceID, "version", Itoa i.ServiceVersion, "condition"])
        none i.Context) c.decodeConditions id log := by
  simp only [Client.ListConditions, h2, h3, if_false, Client.Get, Client.Request, Client.Do,
    DecodeBodyMap, exchange, plainRequest, CreateRequestOptions]
  rcases hrt : c.roundTrip _ with d | resp
  · rfl
  · rcases hd : c.decodeConditions resp.Body with d | v <;> simp [hd]

/-- With valid input, CreateCondition is one exchange with the transport. -/
theorem CreateCondition_valid (c : Client) (i : CreateConditionInput) (log : Log)
    (h2 : i.ServiceID ≠ "") (h3 : i.ServiceVersion ≠ 0) :
    c.CreateCondition i log =
      exchange c (plainRequest .POST (ToSafeURL ["service", i.ServiceID, "version", Itoa i.ServiceVersion, "condition"])
        (some (query.Values i.urlFields)) i.Context) c.decodeCondition id log := by
  simp only [Client.CreateCondition, h2, h3, if_false, Client.PostForm, Client.Request, Client.Do,
    DecodeBodyMap, exchange, plainRequest, CreateRequestOptions]
  rcases hrt : c.roundTrip _ with d | resp
  · rfl
  · rcases hd : c.decodeCondition resp.Body with d | v <;> simp [hd]

/-- With valid input, GetCondition is one exchange with the transport. -/
theorem GetCondition_valid (c : Client) (i : GetConditionInput) (log : Log)
    (h1 : i.Name ≠ "") (h2 : i.ServiceID ≠ "") (h3 : i.ServiceVersion ≠ 0) :
    c.GetCondition i log =
      exchange c (plainRequest .GET (ToSafeURL ["service", i.ServiceID, "version", Itoa i.ServiceVersion, "condition", i.Name])
        none i.Context) c.decodeCondition id log := by
  simp only [Client.GetCondition, h1, h2, h3, if_false, Client.Get, Client.Request, Client.Do,
    DecodeBodyMap, exchange, plainRequest, CreateRequestOptions]
  rcases hrt : c.roundTrip _ with d | resp
  · rfl
  · rcases hd : c.decodeCondition resp.Body with d | v <;> simp [hd]

/-- With valid input, UpdateCondition is one exchange with the transport. -/
theorem UpdateCondition_valid (c : Client) (i : UpdateConditionInput) (log : Log)
    (h1 : i.Name ≠ "") (h2 : i.ServiceID ≠ "") (h3 : i.ServiceVersion ≠ 0) :
    c.UpdateCondition i log =
      exchange c (plainRequest .PUT (ToSafeURL ["service", i.ServiceID, "version", Itoa i.ServiceVersion, "condition", i.Name])
        (some (query.Values i.urlFields)) i.Context) c.decodeCondition id log := by
  simp only [Client.UpdateCondition, h1, h2, h3, if_false, Client.PutForm, Client.Request, Client.Do,
    DecodeBodyMap, exchange, plainRequest, CreateRequestOptions]
  rcases hrt : c.roundTrip _ with d | resp
  · rfl
  · rcases hd : c.decodeCondition resp.Body with d | v <;> simp [hd]

/-- With valid input, DeleteCondition is one exchange with the transport. -/
theorem DeleteCondition_valid (c : Client) (i : DeleteConditionInput) (log : Log)
    (h1 : i.Name ≠ "") (h2 : i.ServiceID ≠ "") (h3 : i.ServiceVersion ≠ 0) :
    c.DeleteCondition i log =
      checkStatus (exchange c (plainRequest .DELETE (ToSafeURL ["service", i.ServiceID, "version", Itoa i.ServiceVersion, "condition", i.Name])
        none i.Context) c.decodeStatusResp id log) := by
  simp only [Client.DeleteCondition, h1, h2, h3, if_false, Client.Delete, Client.Request, Client.Do,
    DecodeBodyMap, exchange, plainRequest, CreateRequestOptions, checkStatus]
  rcases hrt : c.roundTrip _ with d | resp
  · rfl
  · rcases hd : c.decodeStatusResp resp.Body with d | v
    · simp [hd]
    · cases hok : statusResp.Ok v <;> simp [hd, hok]

/-- With valid input, ListVCLs is one exchange with the transport. -/
theorem ListVCLs_valid (c : Client) (i : ListVCLsInput) (log : Log)
    (h2 : i.ServiceID ≠ "") (h3 : i.ServiceVersion ≠ 0) :
    c.ListVCLs i log =
      exchange c (plainRequest .GET (ToSafeURL ["service", i.ServiceID, "version", Itoa i.ServiceVersion, "vcl"])
        none i.Context) c.decodeVCLs id log := by
  simp only [Client.ListVCLs, h2, h3, if_false, Client.Get, Client.Request, Client.Do,
    DecodeBodyMap, exchange, plainRequest, CreateRequestOptions]
  rcases hrt : c.roundTrip _ with d | resp
  · rfl
  · rcases hd : c.decodeVCLs resp.Body with d | v <;> simp [hd]

/-- With valid input, GetVCL is one exchange with the transport. -/
theorem GetVCL_valid (c : Client) (i : GetVCLInput) (log : Log)
    (h1 : i.Name ≠ "") (h2 : i.ServiceID ≠ "") (h3 : i.ServiceVersion ≠ 0) :
    c.GetVCL i log =
      exchange c (plainRequest .GET (ToSafeURL ["service", i.ServiceID, "version", Itoa i.ServiceVersion, "vcl", i.Name])
        none i.Context) c.decodeVCL id log := by
  simp only [Client.GetVCL, h1, h2, h3, if_false, Client.Get, Client.Request, Client.Do,
    DecodeBodyMap, exchange, plainRequest, CreateRequestOptions]
  rcases hrt : c.roundTrip _ with d | resp
  · rfl
  · rcases hd : c.decodeVCL resp.Body with d | v <;> simp [hd]

/-- With valid input, GetGeneratedVCL is one exchange with the transport. -/
theorem GetGeneratedVCL_valid (c : Client) (i : GetGeneratedVCLInput) (log : Log)
    (h2 : i.ServiceID ≠ "") (h3 : i.ServiceVersion ≠ 0) :
    c.GetGeneratedVCL i log =
      exchange c (plainRequest .GET (ToSafeURL ["service", i.ServiceID, "version", Itoa i.ServiceVersion, "generated_vcl"])
        none i.Context) c.decodeVCL id log := by
  simp only [Client.GetGeneratedVCL, h2, h3, if_false, Client.Get, Client.Request, Client.Do,
    DecodeBodyMap, exchange, plainRequest, CreateRequestOptions]
  rcases hrt : c.roundTrip _ with d | resp
  · rfl
  · rcases hd : c.decodeVCL resp.Body with d | v <;> simp [hd]

/-- With valid input, CreateVCL is one exchange with the transport. -/
theorem CreateVCL_valid (c : Client) (i : CreateVCLInput) (log : Log)
    (h2 : i.ServiceID ≠ "") (h3 : i.ServiceVersion ≠ 0) :
    c.CreateVCL i log =
      exchange c (plainRequest .POST (ToSafeURL ["service", i.ServiceID, "version", Itoa i.ServiceVersion, "vcl"])
        (some (query.Values i.urlFields)) i.Context) c.decodeVCL id log := by
  simp only [Client.CreateVCL, h2, h3, if_false, Client.PostForm, Client.Request, Client.Do,
    DecodeBodyMap, exchange, plainRequest, CreateRequestOptions]
  rcases hrt : c.roundTrip _ with d | resp
  · rfl
  · rcases hd : c.decodeVCL resp.Body with d | v <;> simp [hd]

/-- With valid input, UpdateVCL is one exchange with the transport. -/
theorem UpdateVCL_valid (c : Client) (i : UpdateVCLInput) (log : Log)
    (h1 : i.Name ≠ "") (h2 : i.ServiceID ≠ "") (h3 : i.ServiceVersion ≠ 0) :
    c.UpdateVCL i log =
      exchange c (plainRequest .PUT (ToSafeURL ["service", i.ServiceID, "version", Itoa i.ServiceVersion, "vcl", i.Name])
        (some (query.Values i.urlFields)) i.Context) c.decodeVCL id log := by
  simp only [Client.UpdateVCL, h1, h2, h3, if_false, Client.PutForm, Client.Request, Client.Do,
    DecodeBodyMap, exchange, plainRequest, CreateRequestOptions]
  rcases hrt : c.roundTrip _ with d | resp
  · rfl
  · rcases hd : c.decodeVCL resp.Body with d | v <;> simp [hd]

/-- With valid input, ActivateVCL is one exchange with the transport. -/
theorem ActivateVCL_valid (c : Client) (i : ActivateVCLInput) (log : Log)
    (h1 : i.Name ≠ "") (h2 : i.ServiceID ≠ "") (h3 : i.ServiceVersion ≠ 0) :
    c.ActivateVCL i log =
      exchange c (plainRequest .PUT (ToSafeURL ["service", i.ServiceID, "version", Itoa i.ServiceVersion, "vcl", i.Name, "main"])
        none i.Context) c.decodeVCL id log := by
  simp only [Client.ActivateVCL, h1, h2, h3, if_false, Client.Put, Client.Request, Client.Do,
    DecodeBodyMap, exchange, plainRequest, CreateRequestOptions]
  rcases hrt : c.roundTrip _ with d | resp
  · rfl
  · rcases hd : c.decodeVCL resp.Body with d | v <;> simp [hd]

/-- With valid input, DeleteVCL is one exchange with the transport. -/
theorem DeleteVCL_valid (c : Client) (i : DeleteVCLInput) (log : Log)
    (h1 : i.Name ≠ "") (h2 : i.ServiceID ≠ "") (h3 : i.ServiceVersion ≠ 0) :
    c.DeleteVCL i log =
      checkStatus (exchange c (plainRequest .DELETE (ToSafeURL ["service", i.ServiceID, "version", Itoa i.ServiceVersion, "vcl", i.Name])
        none i.Context) c.decodeStatusResp id log) := by
  simp only [Client.DeleteVCL, h1, h2, h3, if_false, Client.Delete, Client.Request, Client.Do,
    DecodeBodyMap, exchange, plainRequest, CreateRequestOptions, checkStatus]
  rcases hrt : c.roundTrip _ with d | resp
  · rfl
  · rcases hd : c.decodeStatusResp resp.Body with d | v
    · simp [hd]
    · cases hok : statusResp.Ok v <;> simp [hd, hok]

/-- With valid input, ListGzips is one exchange with the transport. -/
theorem ListGzips_valid (c : Client) (i : ListGzipsInput) (log : Log)
    (h2 : i.ServiceID ≠ "") (h3 : i.ServiceVersion ≠ 0) :
    c.ListGzips i log =
      exchange c (plainRequest .GET (ToSafeURL ["service", i.ServiceID, "version", Itoa i.ServiceVersion, "gzip"])
        none i.Context) c.decodeGzips id log := by
  simp only [Client.ListGzips, h2, h3, if_false, Client.Get, Client.Request, Client.Do,
    DecodeBodyMap, exchange, plainRequest, CreateRequestOptions]
  rcases hrt : c.roundTrip _ with d | resp
  · rfl
  · rcases hd : c.decodeGzips resp.Body with d | v <;> simp [hd]

/-- With valid input, CreateGzip is one exchange with the transport. -/
theorem CreateGzip_valid (c : Client) (i : CreateGzipInput) (log : Log)
    (h2 : i.ServiceID ≠ "") (h3 : i.ServiceVersion ≠ 0) :
    c.CreateGzip i log =
      exchange c (plainRequest .POST (ToSafeURL ["service", i.ServiceID, "version", Itoa i.ServiceVersion, "gzip"])
        (some (query.Values i.urlFields)) i.Context) c.decodeGzip id log := by
  simp only [Client.CreateGzip, h2, h3, if_false, Client.PostForm, Client.Request, Client.Do,
    DecodeBodyMap, exchange, plainRequest, CreateRequestOptions]
  rcases hrt : c.roundTrip _ with d | resp
  · rfl
  · rcases hd : c.decodeGzip resp.Body with d | v <;> simp [hd]

/-- With valid input, GetGzip is one exchange with the transport. -/
theorem GetGzip_valid (c : Client) (i : GetGzipInput) (log : Log)
    (h1 : i.Name ≠ "") (h2 : i.ServiceID ≠ "") (h3 : i.ServiceVersion ≠ 0) :
    c.GetGzip i log =
      exchange c (plainRequest .GET (ToSafeURL ["service", i.ServiceID, "version", Itoa i.ServiceVersion, "gzip", i.Name])
        none i.Context) c.decodeGzip id log := by
  simp only [Client.GetGzip, h1, h2, h3, if_false, Client.Get, Client.Request, Client.Do,
    DecodeBodyMap, exchange, plainRequest, CreateRequestOptions]
  rcases hrt : c.roundTrip _ with d | resp
  · rfl
  · rcases hd : c.decodeGzip resp.Body with d | v <;> simp [hd]

/-- With valid input, UpdateGzip is one exchange with the transport. -/
theorem UpdateGzip_valid (c : Client) (i : UpdateGzipInput) (log : Log)
    (h1 : i.Name ≠ "") (h2 : i.ServiceID ≠ "") (h3 : i.ServiceVersion ≠ 0) :
    c.UpdateGzip i log =
      exchange c (plainRequest .PUT (ToSafeURL ["service", i.ServiceID, "version", Itoa i.ServiceVersion, "gzip", i.Name])
        (some (query.Values i.urlFields)) i.Context) c.decodeGzip id log := by
  simp only [Client.UpdateGzip, h1, h2, h3, if_false, Client.PutForm, Client.Request, Client.Do,
    DecodeBodyMap, exchange, plainRequest, CreateRequestOptions]
  rcases hrt : c.roundTrip _ with d | resp
  · rfl
  · rcases hd : c.decodeGzip resp.Body with d | v <;> simp [hd]

/-- With valid input, DeleteGzip is one exchange with the transport. -/
theorem DeleteGzip_valid (c : Client) (i : DeleteGzipInput) (log : Log)
    (h1 : i.Name ≠ "") (h2 : i.ServiceID ≠ "") (h3 : i.ServiceVersion ≠ 0) :
    c.DeleteGzip i log =
      checkStatus (exchange c (plainRequest .DELETE (ToSafeURL ["service", i.ServiceID, "version", Itoa i.ServiceVersion, "gzip", i.Name])
        none i.Context) c.decodeStatusResp id log) := by
  simp only [Client.DeleteGzip, h1, h2, h3, if_false, Client.Delete, Client.Request, Client.Do,
    DecodeBodyMap, exchange, plainRequest, CreateRequestOptions, checkStatus]
  rcases hrt : c.roundTrip _ with d | resp
  · rfl
  · rcases hd : c.decodeStatusResp resp.Body with d | v
    · simp [hd]
    · cases hok : statusResp.Ok v <;> simp [hd, hok]

/-- With valid input, GetSettings is one exchange with the transport. -/
theorem GetSettings_valid (c : Client) (i : GetSettingsInput) (log : Log)
    (h2 : i.ServiceID ≠ "") (h3 : i.ServiceVersion ≠ 0) :
    c.GetSettings i log =
      exchange c (plainRequest .GET (ToSafeURL ["service", i.ServiceID, "version", Itoa i.ServiceVersion, "settings"])
        none i.Context) c.decodeSettings id log := by
  simp only [Client.GetSettings, h2, h3, if_false, Client.Get, Client.Request, Client.Do,
    DecodeBodyMap, exchange, plainRequest, CreateRequestOptions]
  rcases hrt : c.roundTrip _ with d | resp
  · rfl
  · rcases hd : c.decodeSettings resp.Body with d | v <;> simp [hd]

/-- With valid input, UpdateSettings is one exchange with the transport. -/
theorem UpdateSettings_valid (c : Client) (i : UpdateSettingsInput) (log : Log)
    (h2 : i.ServiceID ≠ "") (h3 : i.ServiceVersion ≠ 0) :
    c.UpdateSettings i log =
      exchange c (plainRequest .PUT (ToSafeURL ["service", i.ServiceID, "version", Itoa i.ServiceVersion, "settings"])
        (some (query.Values i.urlFields)) i.Context) c.decodeSettings id log := by
  simp only [Client.UpdateSettings, h2, h3, if_false, Client.PutForm, Client.Request, Client.Do,
    DecodeBodyMap, exchange, plainRequest, CreateRequestOptions]
  rcases hrt : c.roundTrip _ with d | resp
  · rfl
  · rcases hd : c.decodeSettings resp.Body with d | v <;> simp [hd]

/-- The request Purge hands to the transport for parameters `params`. -/
theorem Purge_valid (c : Client) (i : PurgeInput) (log : Log) (params : StringMap)
    (h1 : i.URL ≠ "") (h2 : constructRequestOptionsParam c i.URL = .ok params) :
    c.Purge i log =
      exchange c { Method := .POST, Path := "purge/" ++ i.URL, Params := params,
                   Header := if i.Soft then [("Fastly-Soft-Purge", "1")] else [],
                   Form := none, Context := i.Context, Parallel := true }
        c.decodePurge id log := by
  simp only [Client.Purge, h1, h2, if_false, Client.Post, Client.Request, Client.Do,
    DecodeBodyMap, exchange, CreateRequestOptions]
  cases i.Soft <;>
  · simp only [Bool.false_eq_true, if_false, if_true]
    rcases hrt : c.roundTrip _ with d | resp
    · rfl
    · rcases hd : c.decodePurge resp.Body with d | v <;> simp [hd]

/-- When the URL does not yield parameters, Purge returns that error and does nothing else. -/
theorem Purge_noParams (c : Client) (i : PurgeInput) (log : Log) (err : Error)
    (h1 : i.URL ≠ "") (h2 : constructRequestOptionsParam c i.URL = .error err) :
    c.Purge i log = (.error err, log) := by
  simp only [Client.Purge, h1, h2, if_false]

/-- The request PurgeKey hands to the transport once it is built. -/
theorem PurgeKey_valid (c : Client) (i : PurgeKeyInput) (log : Log)
    (h1 : i.ServiceID ≠ "") (h2 : i.Key ≠ "")
    (h3 : c.rawRequestErr .POST (ToSafeURL ["service", i.ServiceID, "purge", i.Key])
      { Context := i.Context, Headers := [], Params := [], Parallel := true } = none) :
    c.PurgeKey i log =
      exchange c { Method := .POST, Path := ToSafeURL ["service", i.ServiceID, "purge", i.Key],
                   Params := [],
                   Header := if i.Soft then [("Fastly-Soft-Purge", "1")] else [],
                   Form := none, Context := i.Context, Parallel := true }
        c.decodePurge id log := by
  simp only [Client.PurgeKey, h1, h2, h3, if_false, Client.RawRequest, Client.Do,
    DecodeBodyMap, exchange, CreateRequestOptions, Request.HeaderSet, StringMap.set]
  cases i.Soft <;>
  · simp only [Bool.false_eq_true, if_false, if_true, List.filter_nil]
    rcases hrt : c.roundTrip _ with d | resp
    · rfl
    · rcases hd : c.decodePurge resp.Body with d | v <;> simp [hd]

/-- When the request cannot be built, PurgeKey returns that error and does nothing else. -/
theorem PurgeKey_noRequest (c : Client) (i : PurgeKeyInput) (log : Log) (d : String)
    (h1 : i.ServiceID ≠ "") (h2 : i.Key ≠ "")
    (h3 : c.rawRequestErr .POST (ToSafeURL ["service", i.ServiceID, "purge", i.Key])
      { Context := i.Context, Headers := [], Params := [], Parallel := true } = some d) :
    c.PurgeKey i log = (.error (.transport d), log) := by
  simp only [Client.PurgeKey, h1, h2, h3, if_false, Client.RawRequest, CreateRequestOptions]

/-- The request PurgeKeys hands to the transport once it is built. -/
theorem PurgeKeys_valid (c : Client) (i : PurgeKeysInput) (log : Log)
    (h1 : i.ServiceID ≠ "") (h2 : i.Keys ≠ [])
    (h3 : c.rawRequestErr .POST (ToSafeURL ["service", i.ServiceID, "purge"])
      { Context := i.Context, Headers := [], Params := [], Parallel := true } = none) :
    c.PurgeKeys i log =
      exchange c { Method := .POST, Path := ToSafeURL ["service", i.ServiceID, "purge"],
                   Params := [],
                   Header := ("Surrogate-Key", " ".intercalate i.Keys) ::
                     (if i.Soft then [("Fastly-Soft-Purge", "1")] else []),
                   Form := none, Context := i.Context, Parallel := true }
        c.decodeStringMap id log := by
  have hlen : i.Keys.length ≠ 0 := by
    intro h; exact h2 (List.length_eq_zero.mp h)
  have hf : List.filter (fun p : String × String => decide (p.1 ≠ "Surrogate-Key"))
      [("Fastly-Soft-Purge", "1")] = [("Fastly-Soft-Purge", "1")] := by decide
  simp only [Client.PurgeKeys, h1, hlen, h3, if_false, Client.RawRequest, Client.Do,
    DecodeBodyMap, exchange, CreateRequestOptions, Request.HeaderSet, StringMap.set]
  cases i.Soft <;>
  · simp only [Bool.false_eq_true, if_false, if_true, List.filter_nil, hf]
    rcases hrt : c.roundTrip _ with d | resp
    · simp [hrt]
    · rcases hd : c.decodeStringMap resp.Body with d | v <;> simp [hrt, hd]

/-- When the request cannot be built, PurgeKeys returns that error and does nothing else. -/
theorem PurgeKeys_noRequest (c : Client) (i : PurgeKeysInput) (log : Log) (d : String)
    (h1 : i.ServiceID ≠ "") (h2 : i.Keys ≠ [])
    (h3 : c.rawRequestErr .POST (ToSafeURL ["service", i.ServiceID, "purge"])
      { Context := i.Context, Headers := [], Params := [], Parallel := true } = some d) :
    c.PurgeKeys i log = (.error (.transport d), log) := by
  have hlen : i.Keys.length ≠ 0 := by
    intro h; exact h2 (List.length_eq_zero.mp h)
  simp only [Client.PurgeKeys, h1, hlen, h3, if_false, Client.RawRequest, CreateRequestOptions]

/-- The request PurgeAll hands to the transport once it is built. -/
theorem PurgeAll_valid (c : Client) (i : PurgeAllInput) (log : Log)
    (h1 : i.ServiceID ≠ "")
    (h3 : c.rawRequestErr .POST (ToSafeURL ["service", i.ServiceID, "purge_all"])
      { Context := i.Context, Headers := [], Params := [], Parallel := false } = none) :
    c.PurgeAll i log =
      exchange c { Method := .POST, Path := ToSafeURL ["service", i.ServiceID, "purge_all"],
                   Params := [], Header := [], Form := none, Context := i.Context,
                   Parallel := false }
        c.decodePurge id log := by
  simp only [Client.PurgeAll, h1, h3, if_false, Client.RawRequest, Client.Do,
    DecodeBodyMap, exchange, CreateRequestOptions]
  rcases hrt : c.roundTrip _ with d | resp
  · rfl
  · rcases hd : c.decodePurge resp.Body with d | v <;> simp [hd]

/-- When the request cannot be built, PurgeAll returns that error and does nothing else. -/
theorem PurgeAll_noRequest (c : Client) (i : PurgeAllInput) (log : Log) (d : String)
    (h1 : i.ServiceID ≠ "")
    (h3 : c.rawRequestErr .POST (ToSafeURL ["service", i.ServiceID, "purge_all"])
      { Context := i.Context, Headers := [], Params := [], Parallel := false } = some d) :
    c.PurgeAll i log = (.error (.transport d), log) := by
  simp only [Client.PurgeAll, h1, h3, if_false, Client.RawRequest, CreateRequestOptions]

/-- With a domain, the status check is one exchange whose decode error is wrapped. -/
theorem statusGet_valid (c : Client) (g : status.GetInput) (log : Log) (h1 : g.Domain ≠ "") :
    status.Get c g log =
      exchange c { Method := .GET, Path := ToSafeURL ["domains", "v1", "tools", "status"],
                   Params := statusParams g, Header := [], Form := none, Context := g.Context,
                   Parallel := false }
        c.decodeStatus (Error.wrapped "error decoding response") log := by
  have hf : ∀ d : String, List.filter (fun p : String × String => decide (p.1 ≠ "scope"))
      [("domain", d)] = [("domain", d)] := by
    intro d
    simp [List.filter]
  simp only [status.Get, h1, if_false, Client.Get, Client.Request, Client.Do,
    jsonDecode, exchange, CreateRequestOptions, StringMap.set, statusParams]
  cases g.Scope <;>
  · simp only [List.filter_nil, hf]
    rcases hrt : c.roundTrip _ with d | resp
    · simp [hrt]
    · rcases hd : c.decodeStatus resp.Body with d | v <;> simp [hrt, hd]

/-- Listing the access keys is one exchange whose decode error is wrapped. -/
theorem ListAccessKeys_valid (c : Client) (log : Log) :
    accesskeys.ListAccessKeys c log =
      exchange c (plainRequest .GET "/resources/object-storage/access-keys" none none)
        c.decodeAccessKeys (Error.wrapped "failed to decode json response") log := by
  simp only [accesskeys.ListAccessKeys, Client.Get, Client.Request, Client.Do,
    jsonDecode, exchange, CreateRequestOptions, plainRequest]
  rcases hrt : c.roundTrip _ with d | resp
  · rfl
  · rcases hd : c.decodeAccessKeys resp.Body with d | v <;> simp [hd]

/-! ## Facts about the shared tail -/

/-- The requests of a log that was extended are the old requests and then the new ones. -/
theorem calls_append (a b : Log) : calls (a ++ b) = calls a ++ calls b := by
  simp [calls, List.filterMap_append]

/-- An exchange adds exactly its request to the call log. -/
theorem exchange_calls {α : Type} (c : Client) (req : Request) (dec : String → Except String α)
    (wrap : Error → Error) (log : Log) :
    calls (exchange c req dec wrap log).2 = calls log ++ [req] := by
  unfold exchange
  rcases hrt : c.roundTrip req with d | resp
  · simp [calls_append, calls]
  · rcases hd : dec resp.Body with d | v <;> simp [hd, calls_append, calls]

/-- An exchange whose transport call fails returns that error after the request alone. -/
theorem exchange_transport_error {α : Type} (c : Client) (req : Request)
    (dec : String → Except String α) (wrap : Error → Error) (log : Log) (d : String)
    (h : c.roundTrip req = .error d) :
    exchange c req dec wrap log = (.error (.transport d), log ++ [.request req]) := by
  simp [exchange, h]

/-- An exchange whose decode fails returns the decode error through `wrap`. -/
theorem exchange_decode_error {α : Type} (c : Client) (req : Request)
    (dec : String → Except String α) (wrap : Error → Error) (log : Log) (resp : Response)
    (d : String) (h : c.roundTrip req = .ok resp) (hd : dec resp.Body = .error d) :
    exchange c req dec wrap log =
      (.error (wrap (.decode d)), log ++ [.request req, .decode resp.Body]) := by
  simp [exchange, h, hd]

/-- An exchange that succeeds returns the decoded value. -/
theorem exchange_ok {α : Type} (c : Client) (req : Request)
    (dec : String → Except String α) (wrap : Error → Error) (log : Log) (resp : Response)
    (v : α) (h : c.roundTrip req = .ok resp) (hd : dec resp.Body = .ok v) :
    exchange c req dec wrap log = (.ok v, log ++ [.request req, .decode resp.Body]) := by
  simp [exchange, h, hd]

/-- The error of an exchange is a transport error or the wrapped decode error. -/
theorem exchange_error_kind {α : Type} (c : Client) (req : Request)
    (dec : String → Except String α) (wrap : Error → Error) (log : Log) (e : Error)
    (h : (exchange c req dec wrap log).1 = .error e) :
    (∃ d, e = .transport d) ∨ (∃ d, e = wrap (.decode d)) := by
  unfold exchange at h
  rcases hrt : c.roundTrip req with d | resp
  · left; exact ⟨d, by simpa [hrt] using h.symm⟩
  · rcases hd : dec resp.Body with d | v
    · right; exact ⟨d, by simpa [hrt, hd] using h.symm⟩
    · simp [hrt, hd] at h

/-- The status check of a delete leaves the log as it is. -/
theorem checkStatus_log (r : Except Error (Option statusResp) × Log) :
    (checkStatus r).2 = r.2 := by
  rcases r with ⟨r | s, log⟩
  · rfl
  · cases hok : statusResp.Ok s <;> simp [checkStatus, hok]

/-- The error of a checked status is the error of the exchange or the "not OK" error. -/
theorem checkStatus_error (r : Except Error (Option statusResp) × Log) (e : Error)
    (h : (checkStatus r).1 = .error e) : r.1 = .error e ∨ e = .ErrNotOK := by
  rcases r with ⟨r | s, log⟩
  · left; simpa [checkStatus] using h
  · cases hok : statusResp.Ok s
    · right; simpa [checkStatus, hok] using h.symm
    · simp [checkStatus, hok] at h

/-- An exchange that returns its decode error unwrapped issues a request and returns no
validation error. -/
theorem exchange_issues {α : Type} (c : Client) (req : Request)
    (dec : String → Except String α) (log : Log) :
    IssuesRequest (exchange c req dec id log) log := by
  refine ⟨⟨req, exchange_calls c req dec id log⟩, ?_⟩
  intro e he
  rcases exchange_error_kind c req dec id log e he with ⟨d, rfl⟩ | ⟨d, rfl⟩ <;> rfl

/-- A delete issues a request and returns no validation error. -/
theorem checkStatus_issues (c : Client) (req : Request)
    (dec : String → Except String (Option statusResp)) (log : Log) :
    IssuesRequest (checkStatus (exchange c req dec id log)) log := by
  refine ⟨⟨req, by rw [checkStatus_log]; exact exchange_calls c req dec id log⟩, ?_⟩
  intro e he
  rcases checkStatus_error _ e he with h | rfl
  · rcases exchange_error_kind c req dec id log e h with ⟨d, rfl⟩ | ⟨d, rfl⟩ <;> rfl
  · rfl

/-- The validation contract of every version-scoped operation. -/
theorem versioned_validates (c : Client) (log : Log) :
    (∀ i : ListConditionsInput,
      ValidatesVersion (c.ListConditions i log) log i.ServiceID i.ServiceVersion) ∧
    (∀ i : CreateConditionInput,
      ValidatesVersion (c.CreateCondition i log) log i.ServiceID i.ServiceVersion) ∧
    (∀ i : GetConditionInput,
      ValidatesNamed (c.GetCondition i log) log i.Name i.ServiceID i.ServiceVersion) ∧
    (∀ i : UpdateConditionInput,
      ValidatesNamed (c.UpdateCondition i log) log i.Name i.ServiceID i.ServiceVersion) ∧
    (∀ i : DeleteConditionInput,
      ValidatesNamed (c.DeleteCondition i log) log i.Name i.ServiceID i.ServiceVersion) ∧
    (∀ i : ListVCLsInput,
      ValidatesVersion (c.ListVCLs i log) log i.ServiceID i.ServiceVersion) ∧
    (∀ i : GetVCLInput,
      ValidatesNamed (c.GetVCL i log) log i.Name i.ServiceID i.ServiceVersion) ∧
    (∀ i : GetGeneratedVCLInput,
      ValidatesVersion (c.GetGeneratedVCL i log) log i.ServiceID i.ServiceVersion) ∧
    (∀ i : CreateVCLInput,
      ValidatesVersion (c.CreateVCL i log) log i.ServiceID i.ServiceVersion) ∧
    (∀ i : UpdateVCLInput,
      ValidatesNamed (c.UpdateVCL i log) log i.Name i.ServiceID i.ServiceVersion) ∧
    (∀ i : ActivateVCLInput,
      ValidatesNamed (c.ActivateVCL i log) log i.Name i.ServiceID i.ServiceVersion) ∧
    (∀ i : DeleteVCLInput,
      ValidatesNamed (c.DeleteVCL i log) log i.Name i.ServiceID i.ServiceVersion) ∧
    (∀ i : ListGzipsInput,
      ValidatesVersion (c.ListGzips i log) log i.ServiceID i.ServiceVersion) ∧
    (∀ i : CreateGzipInput,
      ValidatesVersion (c.CreateGzip i log) log i.ServiceID i.ServiceVersion) ∧
    (∀ i : GetGzipInput,
      ValidatesNamed (c.GetGzip i log) log i.Name i.ServiceID i.ServiceVersion) ∧
    (∀ i : UpdateGzipInput,
      ValidatesNamed (c.UpdateGzip i log) log i.Name i.ServiceID i.ServiceVersion) ∧
    (∀ i : DeleteGzipInput,
      ValidatesNamed (c.DeleteGzip i log) log i.Name i.ServiceID i.ServiceVersion) ∧
    (∀ i : GetSettingsInput,
      ValidatesVersion (c.GetSettings i log) log i.ServiceID i.ServiceVersion) ∧
    (∀ i : UpdateSettingsInput,
      ValidatesVersion (c.UpdateSettings i log) log i.ServiceID i.ServiceVersion) := by
  refine ⟨?_, ?_, ?_, ?_, ?_, ?_, ?_, ?_, ?_, ?_, ?_, ?_, ?_, ?_, ?_, ?_, ?_, ?_, ?_⟩
  · intro i
    refine ⟨?_, ?_, ?_⟩
    · intro h2; simp [Client.ListConditions, h2]
    · intro h2 h3; simp [Client.ListConditions, h2, h3]
    · intro h2 h3
      rw [ListConditions_valid c i log h2 h3]
      exact exchange_issues _ _ _ _
  · intro i
    refine ⟨?_, ?_, ?_⟩
    · intro h2; simp [Client.CreateCondition, h2]
    · intro h2 h3; simp [Client.CreateCondition, h2, h3]
    · intro h2 h3
      rw [CreateCondition_valid c i log h2 h3]
      exact exchange_issues _ _ _ _
  · intro i
    refine ⟨?_, ?_, ?_, ?_⟩
    · intro h1; simp [Client.GetCondition, h1]
    · intro h1 h2; simp [Client.GetCondition, h1, h2]
    · intro h1 h2 h3; simp [Client.GetCondition, h1, h2, h3]
    · intro h1 h2 h3
      rw [GetCondition_valid c i log h1 h2 h3]
      exact exchange_issues _ _ _ _
  · intro i
    refine ⟨?_, ?_, ?_, ?_⟩
    · intro h1; simp [Client.UpdateCondition, h1]
    · intro h1 h2; simp [Client.UpdateCondition, h1, h2]
    · intro h1 h2 h3; simp [Client.UpdateCondition, h1, h2, h3]
    · intro h1 h2 h3
      rw [UpdateCondition_valid c i log h1 h2 h3]
      exact exchange_issues _ _ _ _
  · intro i
    refine ⟨?_, ?_, ?_, ?_⟩
    · intro h1; simp [Client.DeleteCondition, h1]
    · intro h1 h2; simp [Client.DeleteCondition, h1, h2]
    · intro h1 h2 h3; simp [Client.DeleteCondition, h1, h2, h3]
    · intro h1 h2 h3
      rw [DeleteCondition_valid c i log h1 h2 h3]
      exact checkStatus_issues _ _ _ _
  · intro i
    refine ⟨?_, ?_, ?_⟩
    · intro h2; simp [Client.ListVCLs, h2]
    · intro h2 h3; simp [Client.ListVCLs, h2, h3]
    · intro h2 h3
      rw [ListVCLs_valid c i log h2 h3]
      exact exchange_issues _ _ _ _
  · intro i
    refine ⟨?_, ?_, ?_, ?_⟩
    · intro h1; simp [Client.GetVCL, h1]
    · intro h1 h2; simp [Client.GetVCL, h1, h2]
    · intro h1 h2 h3; simp [Client.GetVCL, h1, h2, h3]
    · intro h1 h2 h3
      rw [GetVCL_valid c i log h1 h2 h3]
      exact exchange_issues _ _ _ _
  · intro i
    refine ⟨?_, ?_, ?_⟩
    · intro h2; simp [Client.GetGeneratedVCL, h2]
    · intro h2 h3; simp [Client.GetGeneratedVCL, h2, h3]
    · intro h2 h3
      rw [GetGeneratedVCL_valid c i log h2 h3]
      exact exchange_issues _ _ _ _
  · intro i
    refine ⟨?_, ?_, ?_⟩
    · intro h2; simp [Client.CreateVCL, h2]
    · intro h2 h3; simp [Client.CreateVCL, h2, h3]
    · intro h2 h3
      rw [CreateVCL_valid c i log h2 h3]
      exact exchange_issues _ _ _ _
  · intro i
    refine ⟨?_, ?_, ?_, ?_⟩
    · intro h1; simp [Client.UpdateVCL, h1]
    · intro h1 h2; simp [Client.UpdateVCL, h1, h2]
    · intro h1 h2 h3; simp [Client.UpdateVCL, h1, h2, h3]
    · intro h1 h2 h3
      rw [UpdateVCL_valid c i log h1 h2 h3]
      exact exchange_issues _ _ _ _
  · intro i
    refine ⟨?_, ?_, ?_, ?_⟩
    · intro h1; simp [Client.ActivateVCL, h1]
    · intro h1 h2; simp [Client.ActivateVCL, h1, h2]
    · intro h1 h2 h3; simp [Client.ActivateVCL, h1, h2, h3]
    · intro h1 h2 h3
      rw [ActivateVCL_valid c i log h1 h2 h3]
      exact exchange_issues _ _ _ _
  · intro i
    refine ⟨?_, ?_, ?_, ?_⟩
    · intro h1; simp [Client.DeleteVCL, h1]
    · intro h1 h2; simp [Client.DeleteVCL, h1, h2]
    · intro h1 h2 h3; simp [Client.DeleteVCL, h1, h2, h3]
    · intro h1 h2 h3
      rw [DeleteVCL_valid c i log h1 h2 h3]
      exact checkStatus_issues _ _ _ _
  · intro i
    refine ⟨?_, ?_, ?_⟩
    · intro h2; simp [Client.ListGzips, h2]
    · intro h2 h3; simp [Client.ListGzips, h2, h3]
    · intro h2 h3
      rw [ListGzips_valid c i log h2 h3]
      exact exchange_issues _ _ _ _
  · intro i
    refine ⟨?_, ?_, ?_⟩
    · intro h2; simp [Client.CreateGzip, h2]
    · intro h2 h3; simp [Client.CreateGzip, h2, h3]
    · intro h2 h3
      rw [CreateGzip_valid c i log h2 h3]
      exact exchange_issues _ _ _ _
  · intro i
    refine ⟨?_, ?_, ?_, ?_⟩
    · intro h1; simp [Client.GetGzip, h1]
    · intro h1 h2; simp [Client.GetGzip, h1, h2]
    · intro h1 h2 h3; simp [Client.GetGzip, h1, h2, h3]
    · intro h1 h2 h3
      rw [GetGzip_valid c i log h1 h2 h3]
      exact exchange_issues _ _ _ _
  · intro i
    refine ⟨?_, ?_, ?_, ?_⟩
    · intro h1; simp [Client.UpdateGzip, h1]
    · intro h1 h2; simp [Client.UpdateGzip, h1, h2]
    · intro h1 h2 h3; simp [Client.UpdateGzip, h1, h2, h3]
    · intro h1 h2 h3
      rw [UpdateGzip_valid c i log h1 h2 h3]
      exact exchange_issues _ _ _ _
  · intro i
    refine ⟨?_, ?_, ?_, ?_⟩
    · intro h1; simp [Client.DeleteGzip, h1]
    · intro h1 h2; simp [Client.DeleteGzip, h1, h2]
    · intro h1 h2 h3; simp [Client.DeleteGzip, h1, h2, h3]
    · intro h1 h2 h3
      rw [DeleteGzip_valid c i log h1 h2 h3]
      exact checkStatus_issues _ _ _ _
  · intro i
    refine ⟨?_, ?_, ?_⟩
    · intro h2; simp [Client.GetSettings, h2]
    · intro h2 h3; simp [Client.GetSettings, h2, h3]
    · intro h2 h3
      rw [GetSettings_valid c i log h2 h3]
      exact exchange_issues _ _ _ _
  · intro i
    refine ⟨?_, ?_, ?_⟩
    · intro h2; simp [Client.UpdateSettings, h2]
    · intro h2 h3; simp [Client.UpdateSettings, h2, h3]
    · intro h2 h3
      rw [UpdateSettings_valid c i log h2 h3]
      exact exchange_issues _ _ _ _

/-- An operation that validates name, service ID and version in this order follows the
declaration order Name, ServiceID, ServiceVersion. -/
theorem followsDeclarationOrder_named {α : Type} (r : Except Error α × Log) (log : Log)
    (name serviceID : String) (serviceVersion : Int)
    (h : ValidatesNamed r log name serviceID serviceVersion) :
    FollowsDeclarationOrder r log (declaredNamed name serviceID serviceVersion) := by
  intro f hf
  obtain ⟨hn, hs, hv, _⟩ := h
  by_cases h1 : name = ""
  · simp [declaredNamed, firstMissing, h1] at hf
    subst hf
    exact hn h1
  · by_cases h2 : serviceID = ""
    · simp [declaredNamed, firstMissing, h1, h2] at hf
      subst hf
      exact hs h1 h2
    · by_cases h3 : serviceVersion = 0
      · simp [declaredNamed, firstMissing, h1, h2, h3] at hf
        subst hf
        exact hv h1 h2 h3
      · simp [declaredNamed, firstMissing, h1, h2, h3] at hf

/-- An operation that validates service ID and version in this order follows the declaration
order ServiceID, ServiceVersion. -/
theorem followsDeclarationOrder_version {α : Type} (r : Except Error α × Log) (log : Log)
    (serviceID : String) (serviceVersion : Int)
    (h : ValidatesVersion r log serviceID serviceVersion) :
    FollowsDeclarationOrder r log (declaredVersion serviceID serviceVersion) := by
  intro f hf
  obtain ⟨hs, hv, _⟩ := h
  by_cases h2 : serviceID = ""
  · simp [declaredVersion, firstMissing, h2] at hf
    subst hf
    exact hs h2
  · by_cases h3 : serviceVersion = 0
    · simp [declaredVersion, firstMissing, h2, h3] at hf
      subst hf
      exact hv h2 h3
    · simp [declaredVersion, firstMissing, h2, h3] at hf

/-! ## The claims -/

/-- C1: every operation on conditions, custom VCLs, gzip configurations and settings rejects
an empty Name (where it targets a named resource) with ErrMissingName, else an empty ServiceID
with ErrMissingServiceID, else a zero ServiceVersion with ErrMissingServiceVersion, each time
leaving the log unchanged; with these fields set (a negative version included) it issues a
request and returns none of the three errors. -/
theorem C1_validation_before_request (c : Client) (log : Log) :
    (∀ i : ListConditionsInput,
      ValidatesVersion (c.ListConditions i log) log i.ServiceID i.ServiceVersion) ∧
    (∀ i : CreateConditionInput,
      ValidatesVersion (c.CreateCondition i log) log i.ServiceID i.ServiceVersion) ∧
    (∀ i : GetConditionInput,
      ValidatesNamed (c.GetCondition i log) log i.Name i.ServiceID i.ServiceVersion) ∧
    (∀ i : UpdateConditionInput,
      ValidatesNamed (c.UpdateCondition i log) log i.Name i.ServiceID i.ServiceVersion) ∧
    (∀ i : DeleteConditionInput,
      ValidatesNamed (c.DeleteCondition i log) log i.Name i.ServiceID i.ServiceVersion) ∧
    (∀ i : ListVCLsInput,
      ValidatesVersion (c.ListVCLs i log) log i.ServiceID i.ServiceVersion) ∧
    (∀ i : GetVCLInput,
      ValidatesNamed (c.GetVCL i log) log i.Name i.ServiceID i.ServiceVersion) ∧
    (∀ i : GetGeneratedVCLInput,
      ValidatesVersion (c.GetGeneratedVCL i log) log i.ServiceID i.ServiceVersion) ∧
    (∀ i : CreateVCLInput,
      ValidatesVersion (c.CreateVCL i log) log i.ServiceID i.ServiceVersion) ∧
    (∀ i : UpdateVCLInput,
      ValidatesNamed (c.UpdateVCL i log) log i.Name i.ServiceID i.ServiceVersion) ∧
    (∀ i : ActivateVCLInput,
      ValidatesNamed (c.ActivateVCL i log) log i.Name i.ServiceID i.ServiceVersion) ∧
    (∀ i : DeleteVCLInput,
      ValidatesNamed (c.DeleteVCL i log) log i.Name i.ServiceID i.ServiceVersion) ∧
    (∀ i : ListGzipsInput,
      ValidatesVersion (c.ListGzips i log) log i.ServiceID i.ServiceVersion) ∧
    (∀ i : CreateGzipInput,
      ValidatesVersion (c.CreateGzip i log) log i.ServiceID i.ServiceVersion) ∧
    (∀ i : GetGzipInput,
      ValidatesNamed (c.GetGzip i log) log i.Name i.ServiceID i.ServiceVersion) ∧
    (∀ i : UpdateGzipInput,
      ValidatesNamed (c.UpdateGzip i log) log i.Name i.ServiceID i.ServiceVersion) ∧
    (∀ i : DeleteGzipInput,
      ValidatesNamed (c.DeleteGzip i log) log i.Name i.ServiceID i.ServiceVersion) ∧
    (∀ i : GetSettingsInput,
      ValidatesVersion (c.GetSettings i log) log i.ServiceID i.ServiceVersion) ∧
    (∀ i : UpdateSettingsInput,
      ValidatesVersion (c.UpdateSettings i log) log i.ServiceID i.ServiceVersion) :=
  versioned_validates c log

/-- C1 at concrete inputs: GetCondition with an empty name, and with a negative version. -/
theorem C1_witness :
    okClient.GetCondition { Context := none, Name := "", ServiceID := "svc", ServiceVersion := 1 } [] =
      (.error .ErrMissingName, []) ∧
    IssuesRequest
      (okClient.GetCondition { Context := none, Name := "n", ServiceID := "svc", ServiceVersion := -1 } [])
      [] :=
  ⟨((C1_validation_before_request okClient []).2.2.1 _).1 rfl,
   ((C1_validation_before_request okClient []).2.2.1 _).2.2.2 (by decide) (by decide) (by decide)⟩

/-- C2: the differently-rooted endpoints reject each missing required field with its own
sentinel, return no result and leave the log unchanged: Purge without URL, PurgeKey, PurgeKeys
and PurgeAll without ServiceID, PurgeKey without Key, PurgeKeys without keys, the domain
status check without Domain. -/
theorem C2_purge_and_status_validation (c : Client) (log : Log) :
    (∀ i : PurgeInput, i.URL = "" → c.Purge i log = (.error .ErrMissingURL, log)) ∧
    (∀ i : PurgeKeyInput, i.ServiceID = "" →
      c.PurgeKey i log = (.error .ErrMissingServiceID, log)) ∧
    (∀ i : PurgeKeysInput, i.ServiceID = "" →
      c.PurgeKeys i log = (.error .ErrMissingServiceID, log)) ∧
    (∀ i : PurgeAllInput, i.ServiceID = "" →
      c.PurgeAll i log = (.error .ErrMissingServiceID, log)) ∧
    (∀ i : PurgeKeyInput, i.ServiceID ≠ "" → i.Key = "" →
      c.PurgeKey i log = (.error .ErrMissingKey, log)) ∧
    (∀ i : PurgeKeysInput, i.ServiceID ≠ "" → i.Keys = [] →
      c.PurgeKeys i log = (.error .ErrMissingKeys, log)) ∧
    (∀ g : status.GetInput, g.Domain = "" →
      status.Get c g log = (.error .ErrMissingDomain, log)) := by
  refine ⟨?_, ?_, ?_, ?_, ?_, ?_, ?_⟩
  · intro i h; simp [Client.Purge, h]
  · intro i h; simp [Client.PurgeKey, h]
  · intro i h; simp [Client.PurgeKeys, h]
  · intro i h; simp [Client.PurgeAll, h]
  · intro i h1 h2; simp [Client.PurgeKey, h1, h2]
  · intro i h1 h2; simp [Client.PurgeKeys, h1, h2]
  · intro g h; simp [status.Get, h]

/-- C2 at concrete inputs: a purge without URL and a status check without domain. -/
theorem C2_witness :
    okClient.Purge { Context := none, Soft := true, URL := "" } [] = (.error .ErrMissingURL, []) ∧
    status.Get okClient { Context := none, Domain := "", Scope := none } [] =
      (.error .ErrMissingDomain, []) :=
  ⟨(C2_purge_and_status_validation okClient []).1 _ rfl,
   (C2_purge_and_status_validation okClient []).2.2.2.2.2.2 _ rfl⟩

/-- C3 as stated fails: PurgeKeyInput declares Key before ServiceID, yet with both empty
PurgeKey returns ErrMissingServiceID, not the error of the field declared first. -/
theorem C3_counterexample :
    firstMissing (PurgeKeyInput.declared
      { Context := none, Key := "", ServiceID := "", Soft := false }) = some .Key ∧
    okClient.PurgeKey { Context := none, Key := "", ServiceID := "", Soft := false } [] =
      (.error .ErrMissingServiceID, []) ∧
    ¬ FollowsDeclarationOrder
      (okClient.PurgeKey { Context := none, Key := "", ServiceID := "", Soft := false } []) []
      (PurgeKeyInput.declared { Context := none, Key := "", ServiceID := "", Soft := false }) := by
  refine ⟨by decide, rfl, ?_⟩
  intro h
  have h2 := h .Key (by decide)
  simp [Client.PurgeKey, RequiredField.missingError] at h2

/-- C3, amended: the version-scoped operations validate in the declaration order of their
input (Name, then ServiceID, then ServiceVersion); PurgeKey and PurgeKeys check ServiceID
first and the key or keys second, whatever the order of declaration. -/
theorem C3_validation_order (c : Client) (log : Log) :
    (∀ i : ListConditionsInput, FollowsDeclarationOrder (c.ListConditions i log) log
      (declaredVersion i.ServiceID i.ServiceVersion)) ∧
    (∀ i : CreateConditionInput, FollowsDeclarationOrder (c.CreateCondition i log) log
      (declaredVersion i.ServiceID i.ServiceVersion)) ∧
    (∀ i : GetConditionInput, FollowsDeclarationOrder (c.GetCondition i log) log
      (declaredNamed i.Name i.ServiceID i.ServiceVersion)) ∧
    (∀ i : UpdateConditionInput, FollowsDeclarationOrder (c.UpdateCondition i log) log
      (declaredNamed i.Name i.ServiceID i.ServiceVersion)) ∧
    (∀ i : DeleteConditionInput, FollowsDeclarationOrder (c.DeleteCondition i log) log
      (declaredNamed i.Name i.ServiceID i.ServiceVersion)) ∧
    (∀ i : ListVCLsInput, FollowsDeclarationOrder (c.ListVCLs i log) log
      (declaredVersion i.ServiceID i.ServiceVersion)) ∧
    (∀ i : GetVCLInput, FollowsDeclarationOrder (c.GetVCL i log) log
      (declaredNamed i.Name i.ServiceID i.ServiceVersion)) ∧
    (∀ i : GetGeneratedVCLInput, FollowsDeclarationOrder (c.GetGeneratedVCL i log) log
      (declaredVersion i.ServiceID i.ServiceVersion)) ∧
    (∀ i : CreateVCLInput, FollowsDeclarationOrder (c.CreateVCL i log) log
      (declaredVersion i.ServiceID i.ServiceVersion)) ∧
    (∀ i : UpdateVCLInput, FollowsDeclarationOrder (c.UpdateVCL i log) log
      (declaredNamed i.Name i.ServiceID i.ServiceVersion)) ∧
    (∀ i : ActivateVCLInput, FollowsDeclarationOrder (c.ActivateVCL i log) log
      (declaredNamed i.Name i.ServiceID i.ServiceVersion)) ∧
    (∀ i : DeleteVCLInput, FollowsDeclarationOrder (c.DeleteVCL i log) log
      (declaredNamed i.Name i.ServiceID i.ServiceVersion)) ∧
    (∀ i : ListGzipsInput, FollowsDeclarationOrder (c.ListGzips i log) log
      (declaredVersion i.ServiceID i.ServiceVersion)) ∧
    (∀ i : CreateGzipInput, FollowsDeclarationOrder (c.CreateGzip i log) log
      (declaredVersion i.ServiceID i.ServiceVersion)) ∧
    (∀ i : GetGzipInput, FollowsDeclarationOrder (c.GetGzip i log) log
      (declaredNamed i.Name i.ServiceID i.ServiceVersion)) ∧
    (∀ i : UpdateGzipInput, FollowsDeclarationOrder (c.UpdateGzip i log) log
      (declaredNamed i.Name i.ServiceID i.ServiceVersion)) ∧
    (∀ i : DeleteGzipInput, FollowsDeclarationOrder (c.DeleteGzip i log) log
      (declaredNamed i.Name i.ServiceID i.ServiceVersion)) ∧
    (∀ i : GetSettingsInput, FollowsDeclarationOrder (c.GetSettings i log) log
      (declaredVersion i.ServiceID i.ServiceVersion)) ∧
    (∀ i : UpdateSettingsInput, FollowsDeclarationOrder (c.UpdateSettings i log) log
      (declaredVersion i.ServiceID i.ServiceVersion)) ∧
    (∀ i : PurgeKeyInput,
      (i.ServiceID = "" → c.PurgeKey i log = (.error .ErrMissingServiceID, log)) ∧
      (i.ServiceID ≠ "" → i.Key = "" → c.PurgeKey i log = (.error .ErrMissingKey, log))) ∧
    (∀ i : PurgeKeysInput,
      (i.ServiceID = "" → c.PurgeKeys i log = (.error .ErrMissingServiceID, log)) ∧
      (i.ServiceID ≠ "" → i.Keys = [] → c.PurgeKeys i log = (.error .ErrMissingKeys, log))) := by
  refine ⟨?_, ?_, ?_, ?_, ?_, ?_, ?_, ?_, ?_, ?_, ?_, ?_, ?_, ?_, ?_, ?_, ?_, ?_, ?_, ?_, ?_⟩
  · intro i
    exact followsDeclarationOrder_version _ _ _ _ ((versioned_validates c log).1 i)
  · intro i
    exact followsDeclarationOrder_version _ _ _ _ ((versioned_validates c log).2.1 i)
  · intro i
    exact followsDeclarationOrder_named _ _ _ _ _ ((versioned_validates c log).2.2.1 i)
  · intro i
    exact followsDeclarationOrder_named _ _ _ _ _ ((versioned_validates c log).2.2.2.1 i)
  · intro i
    exact followsDeclarationOrder_named _ _ _ _ _ ((versioned_validates c log).2.2.2.2.1 i)
  · intro i
    exact followsDeclarationOrder_version _ _ _ _ ((versioned_validates c log).2.2.2.2.2.1 i)
  · intro i
    exact followsDeclarationOrder_named _ _ _ _ _ ((versioned_validates c log).2.2.2.2.2.2.1 i)
  · intro i
    exact followsDeclarationOrder_version _ _ _ _ ((versioned_validates c log).2.2.2.2.2.2.2.1 i)
  · intro i
    exact followsDeclarationOrder_version _ _ _ _ ((versioned_validates c log).2.2.2.2.2.2.2.2.1 i)
  · intro i
    exact followsDeclarationOrder_named _ _ _ _ _ ((versioned_validates c log).2.2.2.2.2.2.2.2.2.1 i)
  · intro i
    exact followsDeclarationOrder_named _ _ _ _ _ ((versioned_validates c log).2.2.2.2.2.2.2.2.2.2.1 i)
  · intro i
    exact followsDeclarationOrder_named _ _ _ _ _ ((versioned_validates c log).2.2.2.2.2.2.2.2.2.2.2.1 i)
  · intro i
    exact followsDeclarationOrder_version _ _ _ _ ((versioned_validates c log).2.2.2.2.2.2.2.2.2.2.2.2.1 i)
  · intro i
    exact followsDeclarationOrder_version _ _ _ _ ((versioned_validates c log).2.2.2.2.2.2.2.2.2.2.2.2.2.1 i)
  · intro i
    exact followsDeclarationOrder_named _ _ _ _ _ ((versioned_validates c log).2.2.2.2.2.2.2.2.2.2.2.2.2.2.1 i)
  · intro i
    exact followsDeclarationOrder_named _ _ _ _ _ ((versioned_validates c log).2.2.2.2.2.2.2.2.2.2.2.2.2.2.2.1 i)
  · intro i
    exact followsDeclarationOrder_named _ _ _ _ _ ((versioned_validates c log).2.2.2.2.2.2.2.2.2.2.2.2.2.2.2.2.1 i)
  · intro i
    exact followsDeclarationOrder_version _ _ _ _ ((versioned_validates c log).2.2.2.2.2.2.2.2.2.2.2.2.2.2.2.2.2.1 i)
  · intro i
    exact followsDeclarationOrder_version _ _ _ _ ((versioned_validates c log).2.2.2.2.2.2.2.2.2.2.2.2.2.2.2.2.2.2 i)
  · intro i
    exact ⟨fun h => by simp [Client.PurgeKey, h], fun h1 h2 => by simp [Client.PurgeKey, h1, h2]⟩
  · intro i
    exact ⟨fun h => by simp [Client.PurgeKeys, h], fun h1 h2 => by simp [Client.PurgeKeys, h1, h2]⟩

/-- C3 at a concrete input: GetCondition without name and service reports the name. -/
theorem C3_witness :
    okClient.GetCondition { Context := none, Name := "", ServiceID := "", ServiceVersion := 0 } [] =
      (.error .ErrMissingName, []) :=
  (C3_validation_order okClient []).2.2.1 _ .Name rfl

/-! ## Parsed queries and the parameters copied from them -/

/-- Reading a key that was just assigned gives the assigned value. -/
theorem StringMap.get_set_self (m : StringMap) (k v : String) :
    StringMap.get (StringMap.set m k v) k = some v := by
  simp [StringMap.set, StringMap.get]

/-- Removing the entries of one key does not change what another key reads. -/
theorem StringMap.get_filter_ne (m : StringMap) (k1 k : String) (h : k1 ≠ k) :
    StringMap.get (m.filter (fun p => decide (p.1 ≠ k1))) k = StringMap.get m k := by
  induction m with
  | nil => rfl
  | cons p rest ih =>
    obtain ⟨a, b⟩ := p
    by_cases ha : a = k1
    · have hd : decide (a ≠ k1) = false := by simpa using ha
      have hak : ¬ a = k := fun e => h (ha.symm.trans e)
      simp only [List.filter_cons, hd, Bool.false_eq_true, if_false, ih, StringMap.get, hak]
    · have hd : decide (a ≠ k1) = true := by simpa using ha
      simp only [List.filter_cons, hd, if_true]
      by_cases hk : a = k
      · simp only [StringMap.get, hk, if_true]
      · simp only [StringMap.get, hk, if_false, ih]

/-- Assigning one key does not change what another key reads. -/
theorem StringMap.get_set_ne (m : StringMap) (k1 k v : String) (h : k1 ≠ k) :
    StringMap.get (StringMap.set m k1 v) k = StringMap.get m k := by
  simp only [StringMap.set, StringMap.get, h, if_false]
  exact StringMap.get_filter_ne m k1 k h

/-- A key that is not among the keys reads as the nil slice. -/
theorem Values.get_of_not_mem (v : Values) (k : String) (h : k ∉ v.map Prod.fst) :
    Values.get v k = [] := by
  induction v with
  | nil => rfl
  | cons p rest ih =>
    obtain ⟨a, b⟩ := p
    simp only [List.map_cons, List.mem_cons, not_or] at h
    have ha : ¬ a = k := fun e => h.1 e.symm
    simp [Values.get, ha, ih h.2]

/-- The keys after `Add`: unchanged when the key was there, else the key comes last. -/
theorem Values.Add_keys (v : Values) (k x : String) :
    (Values.Add v k x).map Prod.fst =
      if k ∈ v.map Prod.fst then v.map Prod.fst else v.map Prod.fst ++ [k] := by
  induction v with
  | nil => simp [Values.Add]
  | cons p rest ih =>
    obtain ⟨a, b⟩ := p
    by_cases ha : a = k
    · subst ha
      simp [Values.Add]
    · have hk : ¬ k = a := fun e => ha e.symm
      simp only [Values.Add, ha, if_false, List.map_cons, ih, List.mem_cons, hk, false_or]
      by_cases hm : k ∈ rest.map Prod.fst
      · simp [hm]
      · simp [hm]

/-- Every entry after `Add` has a value when every entry before had one. -/
theorem Values.Add_nonempty (v : Values) (k x : String) (h : ∀ kv ∈ v, kv.2 ≠ []) :
    ∀ kv ∈ Values.Add v k x, kv.2 ≠ [] := by
  induction v with
  | nil =>
    intro kv hkv
    simp [Values.Add] at hkv
    subst hkv
    simp
  | cons p rest ih =>
    obtain ⟨a, b⟩ := p
    intro kv hkv
    by_cases ha : a = k
    · subst ha
      simp only [Values.Add, if_true, List.mem_cons] at hkv
      rcases hkv with rfl | hkv
      · simp
      · exact h kv (List.mem_cons_of_mem _ hkv)
    · simp only [Values.Add, ha, if_false, List.mem_cons] at hkv
      rcases hkv with rfl | hkv
      · exact h _ (List.mem_cons_self _ _)
      · exact ih (fun kv hkv => h kv (List.mem_cons_of_mem _ hkv)) kv hkv

/-- The method `Add` keeps a query well formed. -/
theorem Values.Add_wellFormed (v : Values) (k x : String) (h : v.WellFormed) :
    (Values.Add v k x).WellFormed := by
  refine ⟨?_, Values.Add_nonempty v k x h.2⟩
  rw [Values.Add_keys]
  by_cases hm : k ∈ v.map Prod.fst
  · simpa [hm] using h.1
  · simp only [hm, if_false]
    exact List.Nodup.append h.1 (List.nodup_singleton k) (by simpa using hm)

/-- One round of `parseQuery` keeps the query well formed. -/
theorem parseQueryPiece_wellFormed (m : Values) (key : List Char) (h : m.WellFormed) :
    (parseQueryPiece m key).WellFormed := by
  unfold parseQueryPiece
  split
  · exact h
  · split
    · exact h
    · split
      · exact h
      · split
        · exact h
        · exact Values.Add_wellFormed _ _ _ h

/-- The rounds of `parseQuery` keep the query well formed. -/
theorem foldl_parseQueryPiece_wellFormed (pieces : List (List Char)) (m : Values)
    (h : m.WellFormed) : (pieces.foldl parseQueryPiece m).WellFormed := by
  induction pieces generalizing m with
  | nil => exact h
  | cons p rest ih => exact ih _ (parseQueryPiece_wellFormed m p h)

/-- Every parsed query is well formed: no key twice, no key without a value. -/
theorem URL.Query_wellFormed (u : URL) : u.Query.WellFormed :=
  foldl_parseQueryPiece_wellFormed _ [] ⟨List.nodup_nil, fun _ h => by cases h⟩

/-- On a well-formed query the copy loop succeeds, and afterwards a key of the query reads as
its first value and every other key as before. -/
theorem copyFirstValues_spec (v : Values) (h : v.WellFormed) (m : StringMap) :
    ∃ m2, copyFirstValues m v = .ok m2 ∧
      ∀ k, StringMap.get m2 k = (Values.get v k).head?.or (StringMap.get m k) := by
  induction v generalizing m with
  | nil => exact ⟨m, rfl, fun k => by simp [Values.get]⟩
  | cons p rest ih =>
    obtain ⟨k1, vs⟩ := p
    have hne : vs ≠ [] := h.2 (k1, vs) (List.mem_cons_self _ _)
    have hnodup : ((k1 :: rest.map Prod.fst)).Nodup := by simpa using h.1
    have hrest : Values.WellFormed rest :=
      ⟨(List.nodup_cons.mp hnodup).2, fun kv hkv => h.2 kv (List.mem_cons_of_mem _ hkv)⟩
    have hk1 : k1 ∉ rest.map Prod.fst := (List.nodup_cons.mp hnodup).1
    cases vs with
    | nil => exact absurd rfl hne
    | cons v0 more =>
      obtain ⟨m2, hm2, hget⟩ := ih hrest (StringMap.set m k1 v0)
      refine ⟨m2, by simpa [copyFirstValues] using hm2, ?_⟩
      intro k
      rw [hget k]
      by_cases hk : k1 = k
      · subst hk
        simp [Values.get, Values.get_of_not_mem rest k1 hk1, StringMap.get_set_self]
      · simp [Values.get, hk, StringMap.get_set_ne m k1 k v0 hk]

/-- For a URL that parses, `constructRequestOptionsParam` returns a map in which every key of
the parsed query reads as its first value and every other key is absent. -/
theorem constructRequestOptionsParam_spec (c : Client) (us : String) (u : URL)
    (h : urlParse c us = .ok u) :
    ∃ m, constructRequestOptionsParam c us = .ok m ∧
      ∀ k, StringMap.get m k = (Values.get u.Query k).head? := by
  obtain ⟨m, hm, hget⟩ := copyFirstValues_spec u.Query u.Query_wellFormed []
  refine ⟨m, by simp [constructRequestOptionsParam, h, hm], ?_⟩
  intro k
  rw [hget k]
  cases (Values.get u.Query k).head? <;> rfl

/-- C4 as stated fails: the query `a=1&a=2` holds the pair a=2, and the request Purge issues
for that target carries a=1 only. -/
theorem C4_counterexample :
    urlParse okClient "https://example.com/path?a=1&a=2" = .ok { RawQuery := "a=1&a=2" } ∧
    ("a", "2") ∈ (URL.Query { RawQuery := "a=1&a=2" }).pairs ∧
    calls (okClient.Purge
        { Context := none, Soft := false, URL := "https://example.com/path?a=1&a=2" } []).2 =
      [{ Method := .POST, Path := "purge/https://example.com/path?a=1&a=2",
         Params := [("a", "1")], Header := [], Form := none, Context := none,
         Parallel := true }] ∧
    ("a", "2") ∉ ([("a", "1")] : StringMap) := by
  refine ⟨rfl, by decide, by decide, by decide⟩

/-- C4, amended: for every target URL that parses, the request Purge hands to the transport
carries, for every key of the parsed query, the first value listed for that key, and no
other parameter; further values of a repeated key are not carried. -/
theorem C4_purge_keeps_first_value_per_key (c : Client) (i : PurgeInput) (log : Log) (u : URL)
    (h1 : i.URL ≠ "") (h2 : urlParse c i.URL = .ok u) :
    ∃ req, calls (c.Purge i log).2 = calls log ++ [req] ∧
      ∀ k, StringMap.get req.Params k = (Values.get u.Query k).head? := by
  obtain ⟨m, hm, hget⟩ := constructRequestOptionsParam_spec c i.URL u h2
  rw [Purge_valid c i log m h1 hm]
  exact ⟨_, exchange_calls _ _ _ _ _, hget⟩

/-- C4 at the target of the spec: `https://example.com/path?a=1&b=2`. -/
theorem C4_witness :
    ∃ req, calls (okClient.Purge
        { Context := none, Soft := false, URL := "https://example.com/path?a=1&b=2" } []).2 =
        calls [] ++ [req] ∧
      ∀ k, StringMap.get req.Params k =
        (Values.get (URL.Query { RawQuery := "a=1&b=2" }) k).head? :=
  C4_purge_keeps_first_value_per_key okClient _ [] _ (by decide) rfl

/-- The request Purge issues for `https://example.com/path?a=1&b=2`: a=1 and b=2 are its
parameters, and the path is the target as given. -/
theorem Purge_example_query :
    calls (okClient.Purge
        { Context := none, Soft := false, URL := "https://example.com/path?a=1&b=2" } []).2 =
      [{ Method := .POST, Path := "purge/https://example.com/path?a=1&b=2",
         Params := [("b", "2"), ("a", "1")], Header := [], Form := none, Context := none,
         Parallel := true }] := by
  decide

/-! ## The requests an operation adds -/

/-- An operation that returns the log as it was added no request. -/
theorem newCalls_self (log : Log) : newCalls log log = [] := by
  simp [newCalls, calls]

/-- An exchange adds its request and no other. -/
theorem newCalls_exchange {α : Type} (c : Client) (req : Request)
    (dec : String → Except String α) (wrap : Error → Error) (log : Log) :
    newCalls log (exchange c req dec wrap log).2 = [req] := by
  unfold exchange newCalls
  rcases hrt : c.roundTrip req with d | resp
  · simp [calls]
  · rcases hd : dec resp.Body with d | v <;> simp [hd, calls]

/-- The requests Purge adds carry the soft-purge marker exactly when Soft is set. -/
theorem Purge_newCalls_header (c : Client) (i : PurgeInput) (log : Log) (req : Request)
    (h : req ∈ newCalls log (c.Purge i log).2) :
    StringMap.get req.Header "Fastly-Soft-Purge" = if i.Soft then some "1" else none := by
  by_cases h1 : i.URL = ""
  · simp [Client.Purge, h1, newCalls_self] at h
  · rcases hp : constructRequestOptionsParam c i.URL with err | params
    · simp [Purge_noParams c i log err h1 hp, newCalls_self] at h
    · rw [Purge_valid c i log params h1 hp, newCalls_exchange] at h
      simp only [List.mem_singleton] at h
      subst h
      cases i.Soft <;> simp [StringMap.get]

/-- The requests PurgeKey adds carry the soft-purge marker exactly when Soft is set. -/
theorem PurgeKey_newCalls_header (c : Client) (i : PurgeKeyInput) (log : Log) (req : Request)
    (h : req ∈ newCalls log (c.PurgeKey i log).2) :
    StringMap.get req.Header "Fastly-Soft-Purge" = if i.Soft then some "1" else none := by
  by_cases h1 : i.ServiceID = ""
  · simp [Client.PurgeKey, h1, newCalls_self] at h
  · by_cases h2 : i.Key = ""
    · simp [Client.PurgeKey, h1, h2, newCalls_self] at h
    · rcases h3 : c.rawRequestErr .POST (ToSafeURL ["service", i.ServiceID, "purge", i.Key])
        { Context := i.Context, Headers := [], Params := [], Parallel := true } with _ | d
      · rw [PurgeKey_valid c i log h1 h2 h3, newCalls_exchange] at h
        simp only [List.mem_singleton] at h
        subst h
        cases i.Soft <;> simp [StringMap.get]
      · simp [PurgeKey_noRequest c i log d h1 h2 h3, newCalls_self] at h

/-- The requests PurgeKeys adds: the soft-purge marker exactly when Soft is set, one
Surrogate-Key header with the keys joined by single spaces, the path of the service. -/
theorem PurgeKeys_newCalls (c : Client) (i : PurgeKeysInput) (log : Log) (req : Request)
    (h : req ∈ newCalls log (c.PurgeKeys i log).2) :
    StringMap.get req.Header "Fastly-Soft-Purge" = (if i.Soft then some "1" else none) ∧
    StringMap.get req.Header "Surrogate-Key" = some (" ".intercalate i.Keys) ∧
    headerCount req "Surrogate-Key" = 1 ∧
    req.Path = ToSafeURL ["service", i.ServiceID, "purge"] := by
  by_cases h1 : i.ServiceID = ""
  · simp [Client.PurgeKeys, h1, newCalls_self] at h
  · by_cases h2 : i.Keys = []
    · simp [Client.PurgeKeys, h1, h2, newCalls_self] at h
    · rcases h3 : c.rawRequestErr .POST (ToSafeURL ["service", i.ServiceID, "purge"])
        { Context := i.Context, Headers := [], Params := [], Parallel := true } with _ | d
      · rw [PurgeKeys_valid c i log h1 h2 h3, newCalls_exchange] at h
        simp only [List.mem_singleton] at h
        subst h
        cases i.Soft <;> simp [StringMap.get, headerCount]
      · simp [PurgeKeys_noRequest c i log d h1 h2 h3, newCalls_self] at h

/-- The requests PurgeAll adds carry no header at all. -/
theorem PurgeAll_newCalls_header (c : Client) (i : PurgeAllInput) (log : Log) (req : Request)
    (h : req ∈ newCalls log (c.PurgeAll i log).2) : req.Header = [] := by
  by_cases h1 : i.ServiceID = ""
  · simp [Client.PurgeAll, h1, newCalls_self] at h
  · rcases h3 : c.rawRequestErr .POST (ToSafeURL ["service", i.ServiceID, "purge_all"])
      { Context := i.Context, Headers := [], Params := [], Parallel := false } with _ | d
    · rw [PurgeAll_valid c i log h1 h3, newCalls_exchange] at h
      simp only [List.mem_singleton] at h
      subst h
      rfl
    · simp [PurgeAll_noRequest c i log d h1 h3, newCalls_self] at h

/-- C5: for a non-empty ServiceID and a non-empty list of keys, every request PurgeKeys issues
carries exactly one Surrogate-Key header, whose value is the keys in their order joined by
single spaces, and its path is built from the segments service, ServiceID, purge only; once
the request is built, exactly one such request is issued. -/
theorem C5_purgeKeys_surrogate_key (c : Client) (i : PurgeKeysInput) (log : Log)
    (h1 : i.ServiceID ≠ "") (h2 : i.Keys ≠ []) :
    (∀ req ∈ newCalls log (c.PurgeKeys i log).2,
      StringMap.get req.Header "Surrogate-Key" = some (" ".intercalate i.Keys) ∧
      headerCount req "Surrogate-Key" = 1 ∧
      req.Path = ToSafeURL ["service", i.ServiceID, "purge"]) ∧
    (c.rawRequestErr .POST (ToSafeURL ["service", i.ServiceID, "purge"])
        { Context := i.Context, Headers := [], Params := [], Parallel := true } = none →
      ∃ req, newCalls log (c.PurgeKeys i log).2 = [req]) := by
  refine ⟨fun req h => (PurgeKeys_newCalls c i log req h).2, fun h3 => ?_⟩
  rw [PurgeKeys_valid c i log h1 h2 h3, newCalls_exchange]
  exact ⟨_, rfl⟩

/-- C5 at the keys of the spec: k1 and k2 give the header value `k1 k2` and the path
`service/svc/purge`. -/
theorem C5_witness :
    (∀ req ∈ newCalls [] (okClient.PurgeKeys
        { Context := none, Keys := ["k1", "k2"], ServiceID := "svc", Soft := false } []).2,
      StringMap.get req.Header "Surrogate-Key" = some "k1 k2" ∧
      headerCount req "Surrogate-Key" = 1 ∧
      req.Path = "service/svc/purge") ∧
    (okClient.rawRequestErr .POST "service/svc/purge"
        { Context := none, Headers := [], Params := [], Parallel := true } = none →
      ∃ req, newCalls [] (okClient.PurgeKeys
        { Context := none, Keys := ["k1", "k2"], ServiceID := "svc", Soft := false } []).2 =
          [req]) :=
  C5_purgeKeys_surrogate_key okClient
    { Context := none, Keys := ["k1", "k2"], ServiceID := "svc", Soft := false } []
    (by decide) (by decide)

/-- The request PurgeKeys issues for the single key k1: the key alone, no separator. -/
theorem PurgeKeys_example_single_key :
    newCalls [] (okClient.PurgeKeys
        { Context := none, Keys := ["k1"], ServiceID := "svc", Soft := true } []).2 =
      [{ Method := .POST, Path := "service/svc/purge", Params := [],
         Header := [("Surrogate-Key", "k1"), ("Fastly-Soft-Purge", "1")], Form := none,
         Context := none, Parallel := true }] := by
  decide

/-- C6 as stated fails for PurgeAll: its input has no soft-purge option and no request it
issues carries the marker, so it does not support soft purge. -/
theorem C6_counterexample : ¬ SupportsSoftPurge Client.PurgeAll := by
  rintro ⟨c, i, log, req, hmem, hsoft⟩
  have h := PurgeAll_newCalls_header c i log req hmem
  simp [carriesSoftPurge, h, StringMap.get] at hsoft

/-- C6, amended: every request issued by Purge, PurgeKey and PurgeKeys carries the header
Fastly-Soft-Purge with value 1 when Soft is set on the input and no such header otherwise;
PurgeAll has no soft-purge option and its requests never carry the header. -/
theorem C6_soft_purge_header (c : Client) (log : Log) :
    (∀ (i : PurgeInput), ∀ req ∈ newCalls log (c.Purge i log).2,
      (carriesSoftPurge req ↔ i.Soft = true) ∧
      (i.Soft = false → StringMap.get req.Header "Fastly-Soft-Purge" = none)) ∧
    (∀ (i : PurgeKeyInput), ∀ req ∈ newCalls log (c.PurgeKey i log).2,
      (carriesSoftPurge req ↔ i.Soft = true) ∧
      (i.Soft = false → StringMap.get req.Header "Fastly-Soft-Purge" = none)) ∧
    (∀ (i : PurgeKeysInput), ∀ req ∈ newCalls log (c.PurgeKeys i log).2,
      (carriesSoftPurge req ↔ i.Soft = true) ∧
      (i.Soft = false → StringMap.get req.Header "Fastly-Soft-Purge" = none)) ∧
    (∀ (i : PurgeAllInput), ∀ req ∈ newCalls log (c.PurgeAll i log).2,
      StringMap.get req.Header "Fastly-Soft-Purge" = none) := by
  refine ⟨?_, ?_, ?_, ?_⟩
  · intro i req h
    have hh := Purge_newCalls_header c i log req h
    cases hs : i.Soft <;> simp [carriesSoftPurge, hh, hs]
  · intro i req h
    have hh := PurgeKey_newCalls_header c i log req h
    cases hs : i.Soft <;> simp [carriesSoftPurge, hh, hs]
  · intro i req h
    have hh := (PurgeKeys_newCalls c i log req h).1
    cases hs : i.Soft <;> simp [carriesSoftPurge, hh, hs]
  · intro i req h
    simp [PurgeAll_newCalls_header c i log req h, StringMap.get]

/-- C6 at a concrete input: the request of a soft PurgeKey carries the marker. -/
theorem C6_witness :
    (carriesSoftPurge
        { Method := .POST, Path := "service/svc/purge/k", Params := [],
          Header := [("Fastly-Soft-Purge", "1")], Form := none, Context := none,
          Parallel := true } ↔ true = true) ∧
    (true = false →
      StringMap.get
        ({ Method := .POST, Path := "service/svc/purge/k", Params := [],
           Header := [("Fastly-Soft-Purge", "1")], Form := none, Context := none,
           Parallel := true } : Request).Header "Fastly-Soft-Purge" = none) :=
  (C6_soft_purge_header okClient []).2.1
    { Context := none, Key := "k", ServiceID := "svc", Soft := true } _ (by decide)

/-! ## Outcomes of an exchange -/

/-- A checked exchange does what a delete is to do. -/
theorem checkStatus_exchange (c : Client) (req : Request) (log : Log) :
    DeleteChecksStatus c (checkStatus (exchange c req c.decodeStatusResp id log)) log := by
  refine ⟨req, by rw [checkStatus_log]; exact newCalls_exchange _ _ _ _ _, ?_, ?_⟩
  · intro d hd
    rw [exchange_transport_error c req _ _ log d hd]
    rfl
  · intro resp hresp
    refine ⟨?_, ?_⟩
    · intro d hd
      rw [exchange_decode_error c req _ _ log resp d hresp hd]
      rfl
    · intro s hs
      rw [exchange_ok c req _ _ log resp (some s) hresp hs]
      refine ⟨?_, ?_, ?_, ?_⟩
      · intro h; simp [checkStatus, statusResp.Ok, h]
      · intro h; simp [checkStatus, statusResp.Ok, h]
      · intro h; simp [checkStatus, statusResp.Ok, h]
      · intro h; simp [checkStatus, statusResp.Ok, h]

/-- An exchange returns its decode error through `wrap`. -/
theorem exchange_returnsDecodeError {α : Type} (c : Client) (req : Request)
    (dec : String → Except String α) (wrap : Error → Error) (log : Log) :
    ReturnsDecodeError c dec wrap (exchange c req dec wrap log) log := by
  refine ⟨req, newCalls_exchange _ _ _ _ _, ?_⟩
  intro resp d hresp hd
  rw [exchange_decode_error c req dec wrap log resp d hresp hd]

/-- A checked exchange returns its decode error as it is. -/
theorem checkStatus_returnsDecodeError (c : Client) (req : Request) (log : Log) :
    ReturnsDecodeError c c.decodeStatusResp id
      (checkStatus (exchange c req c.decodeStatusResp id log)) log := by
  obtain ⟨r, hr, _, h⟩ := checkStatus_exchange c req log
  exact ⟨r, hr, fun resp d hresp hd => (h resp hresp).1 d hd⟩

/-- An exchange returns the error of its transport unchanged and decodes nothing then. -/
theorem exchange_returnsTransportError {α : Type} (c : Client) (req : Request)
    (dec : String → Except String α) (wrap : Error → Error) (log : Log) :
    ReturnsTransportError c (exchange c req dec wrap log) log := by
  refine ⟨req, newCalls_exchange _ _ _ _ _, ?_⟩
  intro d hd
  exact exchange_transport_error c req dec wrap log d hd

/-- A checked exchange returns the error of its transport unchanged. -/
theorem checkStatus_returnsTransportError (c : Client) (req : Request) (log : Log) :
    ReturnsTransportError c (checkStatus (exchange c req c.decodeStatusResp id log)) log := by
  refine ⟨req, by rw [checkStatus_log]; exact newCalls_exchange _ _ _ _ _, ?_⟩
  intro d hd
  rw [exchange_transport_error c req _ _ log d hd]
  rfl

/-- C7: with valid input, a delete whose transport call and decode succeed returns success
when the decoded status is `ok` and ErrNotOK when it is `fail`, anything else, or missing;
transport and decode errors are returned as they are, and ErrNotOK is none of them. -/
theorem C7_delete_checks_status (c : Client) (log : Log) :
    (∀ i : DeleteConditionInput, i.Name ≠ "" → i.ServiceID ≠ "" → i.ServiceVersion ≠ 0 →
      DeleteChecksStatus c (c.DeleteCondition i log) log) ∧
    (∀ i : DeleteVCLInput, i.Name ≠ "" → i.ServiceID ≠ "" → i.ServiceVersion ≠ 0 →
      DeleteChecksStatus c (c.DeleteVCL i log) log) ∧
    (∀ i : DeleteGzipInput, i.Name ≠ "" → i.ServiceID ≠ "" → i.ServiceVersion ≠ 0 →
      DeleteChecksStatus c (c.DeleteGzip i log) log) ∧
    (∀ d, Error.ErrNotOK ≠ .transport d ∧ Error.ErrNotOK ≠ .decode d) := by
  refine ⟨?_, ?_, ?_, ?_⟩
  · intro i h1 h2 h3
    rw [DeleteCondition_valid c i log h1 h2 h3]
    exact checkStatus_exchange _ _ _
  · intro i h1 h2 h3
    rw [DeleteVCL_valid c i log h1 h2 h3]
    exact checkStatus_exchange _ _ _
  · intro i h1 h2 h3
    rw [DeleteGzip_valid c i log h1 h2 h3]
    exact checkStatus_exchange _ _ _
  · intro d
    exact ⟨by simp, by simp⟩

/-- C7 at a concrete input: a delete against a transport that answers. -/
theorem C7_witness :
    DeleteChecksStatus okClient
      (okClient.DeleteCondition
        { Context := none, Name := "c", ServiceID := "svc", ServiceVersion := 1 } []) [] :=
  (C7_delete_checks_status okClient []).1 _ (by decide) (by decide) (by decide)

/-- The three payloads of the spec at a concrete delete: status `ok` gives success, status
`fail` and a payload without status give ErrNotOK, each after one DELETE request. -/
theorem DeleteVCL_example_payloads :
    (stubClient (.ok { Body := "b" }) none (some { Status := some "ok" })).DeleteVCL
        { Context := none, Name := "v", ServiceID := "svc", ServiceVersion := 2 } [] =
      (.ok (), [.request (plainRequest .DELETE "service/svc/version/2/vcl/v" none none),
                .decode "b"]) ∧
    (stubClient (.ok { Body := "b" }) none (some { Status := some "fail" })).DeleteVCL
        { Context := none, Name := "v", ServiceID := "svc", ServiceVersion := 2 } [] =
      (.error .ErrNotOK, [.request (plainRequest .DELETE "service/svc/version/2/vcl/v" none none),
                .decode "b"]) ∧
    (stubClient (.ok { Body := "b" }) none (some { Status := none })).DeleteVCL
        { Context := none, Name := "v", ServiceID := "svc", ServiceVersion := 2 } [] =
      (.error .ErrNotOK, [.request (plainRequest .DELETE "service/svc/version/2/vcl/v" none none),
                .decode "b"]) := by
  refine ⟨rfl, rfl, rfl⟩

/-! ## Form bodies of the create and update inputs -/

/-- The form body of CreateConditionInput: each optional attribute when it is present. -/
theorem CreateConditionInput_form (i : CreateConditionInput) :
    query.Values i.urlFields =
      formEntry "name" i.Name ++ formEntry "priority" (i.Priority.map toString) ++
      formEntry "statement" i.Statement ++ formEntry "type" i.Type_ := by
  obtain ⟨ctx, name, priority, sid, sv, statement, type⟩ := i
  cases name <;> cases priority <;> cases statement <;> cases type <;> rfl

/-- The form body of UpdateConditionInput: each optional attribute when it is present. -/
theorem UpdateConditionInput_form (i : UpdateConditionInput) :
    query.Values i.urlFields =
      formEntry "comment" i.Comment ++ formEntry "priority" (i.Priority.map toString) ++
      formEntry "statement" i.Statement ++ formEntry "type" i.Type_ := by
  obtain ⟨comment, ctx, name, priority, sid, sv, statement, type⟩ := i
  cases comment <;> cases priority <;> cases statement <;> cases type <;> rfl

/-- The form body of CreateVCLInput: each optional attribute when it is present. -/
theorem CreateVCLInput_form (i : CreateVCLInput) :
    query.Values i.urlFields =
      formEntry "content" i.Content ++
      formEntry "main" (i.Main.map (fun b => if b then "true" else "false")) ++
      formEntry "name" i.Name := by
  obtain ⟨content, ctx, main, name, sid, sv⟩ := i
  cases content <;> cases main <;> cases name <;> rfl

/-- The form body of UpdateVCLInput: each optional attribute when it is present. -/
theorem UpdateVCLInput_form (i : UpdateVCLInput) :
    query.Values i.urlFields = formEntry "content" i.Content ++ formEntry "name" i.NewName := by
  obtain ⟨content, ctx, name, newName, sid, sv⟩ := i
  cases content <;> cases newName <;> rfl

/-- The form body of CreateGzipInput: each optional attribute when it is present. -/
theorem CreateGzipInput_form (i : CreateGzipInput) :
    query.Values i.urlFields =
      formEntry "cache_condition" i.CacheCondition ++
      formEntry "content_types" i.ContentTypes ++ formEntry "extensions" i.Extensions ++
      formEntry "name" i.Name := by
  obtain ⟨cc, ct, ctx, ext, name, sid, sv⟩ := i
  cases cc <;> cases ct <;> cases ext <;> cases name <;> rfl

/-- The form body of UpdateGzipInput: each optional attribute when it is present. -/
theorem UpdateGzipInput_form (i : UpdateGzipInput) :
    query.Values i.urlFields =
      formEntry "cache_condition" i.CacheCondition ++
      formEntry "content_types" i.ContentTypes ++ formEntry "extensions" i.Extensions ++
      formEntry "name" i.NewName := by
  obtain ⟨cc, ct, ctx, ext, name, newName, sid, sv⟩ := i
  cases cc <;> cases ct <;> cases ext <;> cases newName <;> rfl

/-- The form body of UpdateSettingsInput: the optional attributes tagged `omitempty` when they
are present, `general.default_ttl` always (empty when DefaultTTL is absent), and the untagged
ServiceID and ServiceVersion under their Go names. -/
theorem UpdateSettingsInput_form (i : UpdateSettingsInput) :
    query.Values i.urlFields =
      formEntry "general.default_host" i.DefaultHost ++
      [("general.default_ttl", (i.DefaultTTL.map toString).getD ""),
       ("ServiceID", i.ServiceID), ("ServiceVersion", toString i.ServiceVersion)] ++
      formEntry "general.stale_if_error"
        (i.StaleIfError.map (fun b => if b then "true" else "false")) ++
      formEntry "general.stale_if_error_ttl" (i.StaleIfErrorTTL.map toString) := by
  obtain ⟨ctx, host, ttl, sid, sv, stale, staleTTL⟩ := i
  cases host <;> cases ttl <;> cases stale <;> cases staleTTL <;> rfl

/-- C8, the failing input: UpdateSettings with every optional field absent still sends the
key `general.default_ttl`, with an empty value (and ServiceID and ServiceVersion with it);
the tag of DefaultTTL lacks the `omitempty` its sibling fields carry. -/
theorem C8_UpdateSettings_sends_absent_DefaultTTL :
    calls (okClient.UpdateSettings
        { Context := none, DefaultHost := none, DefaultTTL := none, ServiceID := "svc",
          ServiceVersion := 1, StaleIfError := none, StaleIfErrorTTL := none } []).2 =
      [{ Method := .PUT, Path := "service/svc/version/1/settings", Params := [], Header := [],
         Form := some [("general.default_ttl", ""), ("ServiceID", "svc"),
                       ("ServiceVersion", "1")],
         Context := none, Parallel := false }] := by
  decide

/-- An explicit zero is sent: priority 0, default TTL 0, main false and the empty string
appear in the form body with these values. -/
theorem explicit_zero_values_are_sent :
    query.Values (CreateConditionInput.urlFields
      { Context := none, Name := some "", Priority := some 0, ServiceID := "svc",
        ServiceVersion := 1, Statement := none, Type_ := none }) =
      [("name", ""), ("priority", "0")] ∧
    query.Values (CreateVCLInput.urlFields
      { Content := none, Context := none, Main := some false, Name := none, ServiceID := "svc",
        ServiceVersion := 1 }) = [("main", "false")] ∧
    query.Values (UpdateSettingsInput.urlFields
      { Context := none, DefaultHost := none, DefaultTTL := some 0, ServiceID := "svc",
        ServiceVersion := 1, StaleIfError := none, StaleIfErrorTTL := some 0 }) =
      [("general.default_ttl", "0"), ("ServiceID", "svc"), ("ServiceVersion", "1"),
       ("general.stale_if_error_ttl", "0")] := by
  decide

/-- What every operation returns when decoding fails. -/
theorem all_return_decode_error (c : Client) (log : Log) :
    (∀ i : ListConditionsInput, i.ServiceID ≠ "" → i.ServiceVersion ≠ 0 →
      ReturnsDecodeError c c.decodeConditions id (c.ListConditions i log) log) ∧
    (∀ i : CreateConditionInput, i.ServiceID ≠ "" → i.ServiceVersion ≠ 0 →
      ReturnsDecodeError c c.decodeCondition id (c.CreateCondition i log) log) ∧
    (∀ i : GetConditionInput, i.Name ≠ "" → i.ServiceID ≠ "" → i.ServiceVersion ≠ 0 →
      ReturnsDecodeError c c.decodeCondition id (c.GetCondition i log) log) ∧
    (∀ i : UpdateConditionInput, i.Name ≠ "" → i.ServiceID ≠ "" → i.ServiceVersion ≠ 0 →
      ReturnsDecodeError c c.decodeCondition id (c.UpdateCondition i log) log) ∧
    (∀ i : DeleteConditionInput, i.Name ≠ "" → i.ServiceID ≠ "" → i.ServiceVersion ≠ 0 →
      ReturnsDecodeError c c.decodeStatusResp id (c.DeleteCondition i log) log) ∧
    (∀ i : ListVCLsInput, i.ServiceID ≠ "" → i.ServiceVersion ≠ 0 →
      ReturnsDecodeError c c.decodeVCLs id (c.ListVCLs i log) log) ∧
    (∀ i : GetVCLInput, i.Name ≠ "" → i.ServiceID ≠ "" → i.ServiceVersion ≠ 0 →
      ReturnsDecodeError c c.decodeVCL id (c.GetVCL i log) log) ∧
    (∀ i : GetGeneratedVCLInput, i.ServiceID ≠ "" → i.ServiceVersion ≠ 0 →
      ReturnsDecodeError c c.decodeVCL id (c.GetGeneratedVCL i log) log) ∧
    (∀ i : CreateVCLInput, i.ServiceID ≠ "" → i.ServiceVersion ≠ 0 →
      ReturnsDecodeError c c.decodeVCL id (c.CreateVCL i log) log) ∧
    (∀ i : UpdateVCLInput, i.Name ≠ "" → i.ServiceID ≠ "" → i.ServiceVersion ≠ 0 →
      ReturnsDecodeError c c.decodeVCL id (c.UpdateVCL i log) log) ∧
    (∀ i : ActivateVCLInput, i.Name ≠ "" → i.ServiceID ≠ "" → i.ServiceVersion ≠ 0 →
      ReturnsDecodeError c c.decodeVCL id (c.ActivateVCL i log) log) ∧
    (∀ i : DeleteVCLInput, i.Name ≠ "" → i.ServiceID ≠ "" → i.ServiceVersion ≠ 0 →
      ReturnsDecodeError c c.decodeStatusResp id (c.DeleteVCL i log) log) ∧
    (∀ i : ListGzipsInput, i.ServiceID ≠ "" → i.ServiceVersion ≠ 0 →
      ReturnsDecodeError c c.decodeGzips id (c.ListGzips i log) log) ∧
    (∀ i : CreateGzipInput, i.ServiceID ≠ "" → i.ServiceVersion ≠ 0 →
      ReturnsDecodeError c c.decodeGzip id (c.CreateGzip i log) log) ∧
    (∀ i : GetGzipInput, i.Name ≠ "" → i.ServiceID ≠ "" → i.ServiceVersion ≠ 0 →
      ReturnsDecodeError c c.decodeGzip id (c.GetGzip i log) log) ∧
    (∀ i : UpdateGzipInput, i.Name ≠ "" → i.ServiceID ≠ "" → i.ServiceVersion ≠ 0 →
      ReturnsDecodeError c c.decodeGzip id (c.UpdateGzip i log) log) ∧
    (∀ i : DeleteGzipInput, i.Name ≠ "" → i.ServiceID ≠ "" → i.ServiceVersion ≠ 0 →
      ReturnsDecodeError c c.decodeStatusResp id (c.DeleteGzip i log) log) ∧
    (∀ i : GetSettingsInput, i.ServiceID ≠ "" → i.ServiceVersion ≠ 0 →
      ReturnsDecodeError c c.decodeSettings id (c.GetSettings i log) log) ∧
    (∀ i : UpdateSettingsInput, i.ServiceID ≠ "" → i.ServiceVersion ≠ 0 →
      ReturnsDecodeError c c.decodeSettings id (c.UpdateSettings i log) log) ∧
    (∀ (i : PurgeInput) (params : StringMap), i.URL ≠ "" →
      constructRequestOptionsParam c i.URL = .ok params →
      ReturnsDecodeError c c.decodePurge id (c.Purge i log) log) ∧
    (∀ i : PurgeKeyInput, i.ServiceID ≠ "" → i.Key ≠ "" →
      c.rawRequestErr .POST (ToSafeURL ["service", i.ServiceID, "purge", i.Key])
        { Context := i.Context, Headers := [], Params := [], Parallel := true } = none →
      ReturnsDecodeError c c.decodePurge id (c.PurgeKey i log) log) ∧
    (∀ i : PurgeKeysInput, i.ServiceID ≠ "" → i.Keys ≠ [] →
      c.rawRequestErr .POST (ToSafeURL ["service", i.ServiceID, "purge"])
        { Context := i.Context, Headers := [], Params := [], Parallel := true } = none →
      ReturnsDecodeError c c.decodeStringMap id (c.PurgeKeys i log) log) ∧
    (∀ i : PurgeAllInput, i.ServiceID ≠ "" →
      c.rawRequestErr .POST (ToSafeURL ["service", i.ServiceID, "purge_all"])
        { Context := i.Context, Headers := [], Params := [], Parallel := false } = none →
      ReturnsDecodeError c c.decodePurge id (c.PurgeAll i log) log) ∧
    (∀ g : status.GetInput, g.Domain ≠ "" →
      ReturnsDecodeError c c.decodeStatus (Error.wrapped "error decoding response") (status.Get c g log) log) ∧
    ReturnsDecodeError c c.decodeAccessKeys (Error.wrapped "failed to decode json response")
      (accesskeys.ListAccessKeys c log) log := by
  refine ⟨?_, ?_, ?_, ?_, ?_, ?_, ?_, ?_, ?_, ?_, ?_, ?_, ?_, ?_, ?_, ?_, ?_, ?_, ?_, ?_, ?_, ?_, ?_, ?_, ?_⟩
  · intro i h2 h3
    rw [ListConditions_valid c i log h2 h3]
    exact exchange_returnsDecodeError _ _ _ _ _
  · intro i h2 h3
    rw [CreateCondition_valid c i log h2 h3]
    exact exchange_returnsDecodeError _ _ _ _ _
  · intro i h1 h2 h3
    rw [GetCondition_valid c i log h1 h2 h3]
    exact exchange_returnsDecodeError _ _ _ _ _
  · intro i h1 h2 h3
    rw [UpdateCondition_valid c i log h1 h2 h3]
    exact exchange_returnsDecodeError _ _ _ _ _
  · intro i h1 h2 h3
    rw [DeleteCondition_valid c i log h1 h2 h3]
    exact checkStatus_returnsDecodeError _ _ _
  · intro i h2 h3
    rw [ListVCLs_valid c i log h2 h3]
    exact exchange_returnsDecodeError _ _ _ _ _
  · intro i h1 h2 h3
    rw [GetVCL_valid c i log h1 h2 h3]
    exact exchange_returnsDecodeError _ _ _ _ _
  · intro i h2 h3
    rw [GetGeneratedVCL_valid c i log h2 h3]
    exact exchange_returnsDecodeError _ _ _ _ _
  · intro i h2 h3
    rw [CreateVCL_valid c i log h2 h3]
    exact exchange_returnsDecodeError _ _ _ _ _
  · intro i h1 h2 h3
    rw [UpdateVCL_valid c i log h1 h2 h3]
    exact exchange_returnsDecodeError _ _ _ _ _
  · intro i h1 h2 h3
    rw [ActivateVCL_valid c i log h1 h2 h3]
    exact exchange_returnsDecodeError _ _ _ _ _
  · intro i h1 h2 h3
    rw [DeleteVCL_valid c i log h1 h2 h3]
    exact checkStatus_returnsDecodeError _ _ _
  · intro i h2 h3
    rw [ListGzips_valid c i log h2 h3]
    exact exchange_returnsDecodeError _ _ _ _ _
  · intro i h2 h3
    rw [CreateGzip_valid c i log h2 h3]
    exact exchange_returnsDecodeError _ _ _ _ _
  · intro i h1 h2 h3
    rw [GetGzip_valid c i log h1 h2 h3]
    exact exchange_returnsDecodeError _ _ _ _ _
  · intro i h1 h2 h3
    rw [UpdateGzip_valid c i log h1 h2 h3]
    exact exchange_returnsDecodeError _ _ _ _ _
  · intro i h1 h2 h3
    rw [DeleteGzip_valid c i log h1 h2 h3]
    exact checkStatus_returnsDecodeError _ _ _
  · intro i h2 h3
    rw [GetSettings_valid c i log h2 h3]
    exact exchange_returnsDecodeError _ _ _ _ _
  · intro i h2 h3
    rw [UpdateSettings_valid c i log h2 h3]
    exact exchange_returnsDecodeError _ _ _ _ _
  · intro i params h1 h2
    rw [Purge_valid c i log params h1 h2]
    exact exchange_returnsDecodeError _ _ _ _ _
  · intro i h1 h2 h3
    rw [PurgeKey_valid c i log h1 h2 h3]
    exact exchange_returnsDecodeError _ _ _ _ _
  · intro i h1 h2 h3
    rw [PurgeKeys_valid c i log h1 h2 h3]
    exact exchange_returnsDecodeError _ _ _ _ _
  · intro i h1 h3
    rw [PurgeAll_valid c i log h1 h3]
    exact exchange_returnsDecodeError _ _ _ _ _
  · intro g h1
    rw [statusGet_valid c g log h1]
    exact exchange_returnsDecodeError _ _ _ _ _
  · rw [ListAccessKeys_valid c log]
    exact exchange_returnsDecodeError _ _ _ _ _

/-- What every operation returns when the transport fails. -/
theorem all_return_transport_error (c : Client) (log : Log) :
    (∀ i : ListConditionsInput, i.ServiceID ≠ "" → i.ServiceVersion ≠ 0 →
      ReturnsTransportError c (c.ListConditions i log) log) ∧
    (∀ i : CreateConditionInput, i.ServiceID ≠ "" → i.ServiceVersion ≠ 0 →
      ReturnsTransportError c (c.CreateCondition i log) log) ∧
    (∀ i : GetConditionInput, i.Name ≠ "" → i.ServiceID ≠ "" → i.ServiceVersion ≠ 0 →
      ReturnsTransportError c (c.GetCondition i log) log) ∧
    (∀ i : UpdateConditionInput, i.Name ≠ "" → i.ServiceID ≠ "" → i.ServiceVersion ≠ 0 →
      ReturnsTransportError c (c.UpdateCondition i log) log) ∧
    (∀ i : DeleteConditionInput, i.Name ≠ "" → i.ServiceID ≠ "" → i.ServiceVersion ≠ 0 →
      ReturnsTransportError c (c.DeleteCondition i log) log) ∧
    (∀ i : ListVCLsInput, i.ServiceID ≠ "" → i.ServiceVersion ≠ 0 →
      ReturnsTransportError c (c.ListVCLs i log) log) ∧
    (∀ i : GetVCLInput, i.Name ≠ "" → i.ServiceID ≠ "" → i.ServiceVersion ≠ 0 →
      ReturnsTransportError c (c.GetVCL i log) log) ∧
    (∀ i : GetGeneratedVCLInput, i.ServiceID ≠ "" → i.ServiceVersion ≠ 0 →
      ReturnsTransportError c (c.GetGeneratedVCL i log) log) ∧
    (∀ i : CreateVCLInput, i.ServiceID ≠ "" → i.ServiceVersion ≠ 0 →
      ReturnsTransportError c (c.CreateVCL i log) log) ∧
    (∀ i : UpdateVCLInput, i.Name ≠ "" → i.ServiceID ≠ "" → i.ServiceVersion ≠ 0 →
      ReturnsTransportError c (c.UpdateVCL i log) log) ∧
    (∀ i : ActivateVCLInput, i.Name ≠ "" → i.ServiceID ≠ "" → i.ServiceVersion ≠ 0 →
      ReturnsTransportError c (c.ActivateVCL i log) log) ∧
    (∀ i : DeleteVCLInput, i.Name ≠ "" → i.ServiceID ≠ "" → i.ServiceVersion ≠ 0 →
      ReturnsTransportError c (c.DeleteVCL i log) log) ∧
    (∀ i : ListGzipsInput, i.ServiceID ≠ "" → i.ServiceVersion ≠ 0 →
      ReturnsTransportError c (c.ListGzips i log) log) ∧
    (∀ i : CreateGzipInput, i.ServiceID ≠ "" → i.ServiceVersion ≠ 0 →
      ReturnsTransportError c (c.CreateGzip i log) log) ∧
    (∀ i : GetGzipInput, i.Name ≠ "" → i.ServiceID ≠ "" → i.ServiceVersion ≠ 0 →
      ReturnsTransportError c (c.GetGzip i log) log) ∧
    (∀ i : UpdateGzipInput, i.Name ≠ "" → i.ServiceID ≠ "" → i.ServiceVersion ≠ 0 →
      ReturnsTransportError c (c.UpdateGzip i log) log) ∧
    (∀ i : DeleteGzipInput, i.Name ≠ "" → i.ServiceID ≠ "" → i.ServiceVersion ≠ 0 →
      ReturnsTransportError c (c.DeleteGzip i log) log) ∧
    (∀ i : GetSettingsInput, i.ServiceID ≠ "" → i.ServiceVersion ≠ 0 →
      ReturnsTransportError c (c.GetSettings i log) log) ∧
    (∀ i : UpdateSettingsInput, i.ServiceID ≠ "" → i.ServiceVersion ≠ 0 →
      ReturnsTransportError c (c.UpdateSettings i log) log) ∧
    (∀ (i : PurgeInput) (params : StringMap), i.URL ≠ "" →
      constructRequestOptionsParam c i.URL = .ok params →
      ReturnsTransportError c (c.Purge i log) log) ∧
    (∀ i : PurgeKeyInput, i.ServiceID ≠ "" → i.Key ≠ "" →
      c.rawRequestErr .POST (ToSafeURL ["service", i.ServiceID, "purge", i.Key])
        { Context := i.Context, Headers := [], Params := [], Parallel := true } = none →
      ReturnsTransportError c (c.PurgeKey i log) log) ∧
    (∀ i : PurgeKeysInput, i.ServiceID ≠ "" → i.Keys ≠ [] →
      c.rawRequestErr .POST (ToSafeURL ["service", i.ServiceID, "purge"])
        { Context := i.Context, Headers := [], Params := [], Parallel := true } = none →
      ReturnsTransportError c (c.PurgeKeys i log) log) ∧
    (∀ i : PurgeAllInput, i.ServiceID ≠ "" →
      c.rawRequestErr .POST (ToSafeURL ["service", i.ServiceID, "purge_all"])
        { Context := i.Context, Headers := [], Params := [], Parallel := false } = none →
      ReturnsTransportError c (c.PurgeAll i log) log) ∧
    (∀ g : status.GetInput, g.Domain ≠ "" →
      ReturnsTransportError c (status.Get c g log) log) ∧
    ReturnsTransportError c
      (accesskeys.ListAccessKeys c log) log := by
  refine ⟨?_, ?_, ?_, ?_, ?_, ?_, ?_, ?_, ?_, ?_, ?_, ?_, ?_, ?_, ?_, ?_, ?_, ?_, ?_, ?_, ?_, ?_, ?_, ?_, ?_⟩
  · intro i h2 h3
    rw [ListConditions_valid c i log h2 h3]
    exact exchange_returnsTransportError _ _ _ _ _
  · intro i h2 h3
    rw [CreateCondition_valid c i log h2 h3]
    exact exchange_returnsTransportError _ _ _ _ _
  · intro i h1 h2 h3
    rw [GetCondition_valid c i log h1 h2 h3]
    exact exchange_returnsTransportError _ _ _ _ _
  · intro i h1 h2 h3
    rw [UpdateCondition_valid c i log h1 h2 h3]
    exact exchange_returnsTransportError _ _ _ _ _
  · intro i h1 h2 h3
    rw [DeleteCondition_valid c i log h1 h2 h3]
    exact checkStatus_returnsTransportError _ _ _
  · intro i h2 h3
    rw [ListVCLs_valid c i log h2 h3]
    exact exchange_returnsTransportError _ _ _ _ _
  · intro i h1 h2 h3
    rw [GetVCL_valid c i log h1 h2 h3]
    exact exchange_returnsTransportError _ _ _ _ _
  · intro i h2 h3
    rw [GetGeneratedVCL_valid c i log h2 h3]
    exact exchange_returnsTransportError _ _ _ _ _
  · intro i h2 h3
    rw [CreateVCL_valid c i log h2 h3]
    exact exchange_returnsTransportError _ _ _ _ _
  · intro i h1 h2 h3
    rw [UpdateVCL_valid c i log h1 h2 h3]
    exact exchange_returnsTransportError _ _ _ _ _
  · intro i h1 h2 h3
    rw [ActivateVCL_valid c i log h1 h2 h3]
    exact exchange_returnsTransportError _ _ _ _ _
  · intro i h1 h2 h3
    rw [DeleteVCL_valid c i log h1 h2 h3]
    exact checkStatus_returnsTransportError _ _ _
  · intro i h2 h3
    rw [ListGzips_valid c i log h2 h3]
    exact exchange_returnsTransportError _ _ _ _ _
  · intro i h2 h3
    rw [CreateGzip_valid c i log h2 h3]
    exact exchange_returnsTransportError _ _ _ _ _
  · intro i h1 h2 h3
    rw [GetGzip_valid c i log h1 h2 h3]
    exact exchange_returnsTransportError _ _ _ _ _
  · intro i h1 h2 h3
    rw [UpdateGzip_valid c i log h1 h2 h3]
    exact exchange_returnsTransportError _ _ _ _ _
  · intro i h1 h2 h3
    rw [DeleteGzip_valid c i log h1 h2 h3]
    exact checkStatus_returnsTransportError _ _ _
  · intro i h2 h3
    rw [GetSettings_valid c i log h2 h3]
    exact exchange_returnsTransportError _ _ _ _ _
  · intro i h2 h3
    rw [UpdateSettings_valid c i log h2 h3]
    exact exchange_returnsTransportError _ _ _ _ _
  · intro i params h1 h2
    rw [Purge_valid c i log params h1 h2]
    exact exchange_returnsTransportError _ _ _ _ _
  · intro i h1 h2 h3
    rw [PurgeKey_valid c i log h1 h2 h3]
    exact exchange_returnsTransportError _ _ _ _ _
  · intro i h1 h2 h3
    rw [PurgeKeys_valid c i log h1 h2 h3]
    exact exchange_returnsTransportError _ _ _ _ _
  · intro i h1 h3
    rw [PurgeAll_valid c i log h1 h3]
    exact exchange_returnsTransportError _ _ _ _ _
  · intro g h1
    rw [statusGet_valid c g log h1]
    exact exchange_returnsTransportError _ _ _ _ _
  · rw [ListAccessKeys_valid c log]
    exact exchange_returnsTransportError _ _ _ _ _

/-- C9 as stated fails: GetCondition, whose decode fails with an error e, returns e itself,
and e has no cause to unwrap: it is not an error that wraps e behind a message. -/
theorem C9_counterexample :
    (stubClient (.ok { Body := "b" }) (some "boom") none).decodeCondition "b" = .error "boom" ∧
    (stubClient (.ok { Body := "b" }) (some "boom") none).GetCondition
        { Context := none, Name := "c", ServiceID := "svc", ServiceVersion := 1 } [] =
      (.error (.decode "boom"),
       [.request (plainRequest .GET "service/svc/version/1/condition/c" none none),
        .decode "b"]) ∧
    Error.Unwrap (.decode "boom") ≠ some (.decode "boom") ∧
    ∀ msg, Error.decode "boom" ≠ .wrapped msg (.decode "boom") := by
  refine ⟨rfl, rfl, by decide, fun msg => by simp⟩

/-- C9, amended: when decoding the response body fails with an error e, the domain status
check and ListAccessKeys return an error that wraps e behind a message naming the decoding
step (e is its cause), while the operations that decode with DecodeBodyMap (conditions, VCL,
gzip, settings, purge) return e itself, unwrapped. -/
theorem C9_decode_error_returned (c : Client) (log : Log) :
    ((∀ i : ListConditionsInput, i.ServiceID ≠ "" → i.ServiceVersion ≠ 0 →
      ReturnsDecodeError c c.decodeConditions id (c.ListConditions i log) log) ∧
    (∀ i : CreateConditionInput, i.ServiceID ≠ "" → i.ServiceVersion ≠ 0 →
      ReturnsDecodeError c c.decodeCondition id (c.CreateCondition i log) log) ∧
    (∀ i : GetConditionInput, i.Name ≠ "" → i.ServiceID ≠ "" → i.ServiceVersion ≠ 0 →
      ReturnsDecodeError c c.decodeCondition id (c.GetCondition i log) log) ∧
    (∀ i : UpdateConditionInput, i.Name ≠ "" → i.ServiceID ≠ "" → i.ServiceVersion ≠ 0 →
      ReturnsDecodeError c c.decodeCondition id (c.UpdateCondition i log) log) ∧
    (∀ i : DeleteConditionInput, i.Name ≠ "" → i.ServiceID ≠ "" → i.ServiceVersion ≠ 0 →
      ReturnsDecodeError c c.decodeStatusResp id (c.DeleteCondition i log) log) ∧
    (∀ i : ListVCLsInput, i.ServiceID ≠ "" → i.ServiceVersion ≠ 0 →
      ReturnsDecodeError c c.decodeVCLs id (c.ListVCLs i log) log) ∧
    (∀ i : GetVCLInput, i.Name ≠ "" → i.ServiceID ≠ "" → i.ServiceVersion ≠ 0 →
      ReturnsDecodeError c c.decodeVCL id (c.GetVCL i log) log) ∧
    (∀ i : GetGeneratedVCLInput, i.ServiceID ≠ "" → i.ServiceVersion ≠ 0 →
      ReturnsDecodeError c c.decodeVCL id (c.GetGeneratedVCL i log) log) ∧
    (∀ i : CreateVCLInput, i.ServiceID ≠ "" → i.ServiceVersion ≠ 0 →
      ReturnsDecodeError c c.decodeVCL id (c.CreateVCL i log) log) ∧
    (∀ i : UpdateVCLInput, i.Name ≠ "" → i.ServiceID ≠ "" → i.ServiceVersion ≠ 0 →
      ReturnsDecodeError c c.decodeVCL id (c.UpdateVCL i log) log) ∧
    (∀ i : ActivateVCLInput, i.Name ≠ "" → i.ServiceID ≠ "" → i.ServiceVersion ≠ 0 →
      ReturnsDecodeError c c.decodeVCL id (c.ActivateVCL i log) log) ∧
    (∀ i : DeleteVCLInput, i.Name ≠ "" → i.ServiceID ≠ "" → i.ServiceVersion ≠ 0 →
      ReturnsDecodeError c c.decodeStatusResp id (c.DeleteVCL i log) log) ∧
    (∀ i : ListGzipsInput, i.ServiceID ≠ "" → i.ServiceVersion ≠ 0 →
      ReturnsDecodeError c c.decodeGzips id (c.ListGzips i log) log) ∧
    (∀ i : CreateGzipInput, i.ServiceID ≠ "" → i.ServiceVersion ≠ 0 →
      ReturnsDecodeError c c.decodeGzip id (c.CreateGzip i log) log) ∧
    (∀ i : GetGzipInput, i.Name ≠ "" → i.ServiceID ≠ "" → i.ServiceVersion ≠ 0 →
      ReturnsDecodeError c c.decodeGzip id (c.GetGzip i log) log) ∧
    (∀ i : UpdateGzipInput, i.Name ≠ "" → i.ServiceID ≠ "" → i.ServiceVersion ≠ 0 →
      ReturnsDecodeError c c.decodeGzip id (c.UpdateGzip i log) log) ∧
    (∀ i : DeleteGzipInput, i.Name ≠ "" → i.ServiceID ≠ "" → i.ServiceVersion ≠ 0 →
      ReturnsDecodeError c c.decodeStatusResp id (c.DeleteGzip i log) log) ∧
    (∀ i : GetSettingsInput, i.ServiceID ≠ "" → i.ServiceVersion ≠ 0 →
      ReturnsDecodeError c c.decodeSettings id (c.GetSettings i log) log) ∧
    (∀ i : UpdateSettingsInput, i.ServiceID ≠ "" → i.ServiceVersion ≠ 0 →
      ReturnsDecodeError c c.decodeSettings id (c.UpdateSettings i log) log) ∧
    (∀ (i : PurgeInput) (params : StringMap), i.URL ≠ "" →
      constructRequestOptionsParam c i.URL = .ok params →
      ReturnsDecodeError c c.decodePurge id (c.Purge i log) log) ∧
    (∀ i : PurgeKeyInput, i.ServiceID ≠ "" → i.Key ≠ "" →
      c.rawRequestErr .POST (ToSafeURL ["service", i.ServiceID, "purge", i.Key])
        { Context := i.Context, Headers := [], Params := [], Parallel := true } = none →
      ReturnsDecodeError c c.decodePurge id (c.PurgeKey i log) log) ∧
    (∀ i : PurgeKeysInput, i.ServiceID ≠ "" → i.Keys ≠ [] →
      c.rawRequestErr .POST (ToSafeURL ["service", i.ServiceID, "purge"])
        { Context := i.Context, Headers := [], Params := [], Parallel := true } = none →
      ReturnsDecodeError c c.decodeStringMap id (c.PurgeKeys i log) log) ∧
    (∀ i : PurgeAllInput, i.ServiceID ≠ "" →
      c.rawRequestErr .POST (ToSafeURL ["service", i.ServiceID, "purge_all"])
        { Context := i.Context, Headers := [], Params := [], Parallel := false } = none →
      ReturnsDecodeError c c.decodePurge id (c.PurgeAll i log) log) ∧
    (∀ g : status.GetInput, g.Domain ≠ "" →
      ReturnsDecodeError c c.decodeStatus (Error.wrapped "error decoding response") (status.Get c g log) log) ∧
    ReturnsDecodeError c c.decodeAccessKeys (Error.wrapped "failed to decode json response")
      (accesskeys.ListAccessKeys c log) log) ∧
    (∀ msg e, Error.Unwrap (.wrapped msg e) = some e) ∧
    (∀ d, Error.Unwrap (id (Error.decode d)) = none) :=
  ⟨all_return_decode_error c log, fun _ _ => rfl, fun _ => rfl⟩

/-- C9 at a concrete input: the domain status check. -/
theorem C9_witness :
    ReturnsDecodeError okClient okClient.decodeStatus (Error.wrapped "error decoding response")
      (status.Get okClient { Context := none, Domain := "example.com", Scope := none } []) [] :=
  (C9_decode_error_returned okClient []).1.2.2.2.2.2.2.2.2.2.2.2.2.2.2.2.2.2.2.2.2.2.2.2.1 _
    (by decide)

/-- The status check whose decode fails: the error returned wraps the decode error. -/
theorem statusGet_example_decode_error :
    status.Get (stubClient (.ok { Body := "b" }) (some "boom") none)
        { Context := none, Domain := "example.com", Scope := none } [] =
      (.error (.wrapped "error decoding response" (.decode "boom")),
       [.request { Method := .GET, Path := "domains/v1/tools/status",
                   Params := [("domain", "example.com")], Header := [], Form := none,
                   Context := none, Parallel := false },
        .decode "b"]) := by
  rfl

/-- C10: with valid input (and the request built), every operation whose transport call fails
with an error e returns exactly e and no result; the log then ends with the request, so no
response body was decoded. -/
theorem C10_transport_error_unchanged (c : Client) (log : Log) :
    (∀ i : ListConditionsInput, i.ServiceID ≠ "" → i.ServiceVersion ≠ 0 →
      ReturnsTransportError c (c.ListConditions i log) log) ∧
    (∀ i : CreateConditionInput, i.ServiceID ≠ "" → i.ServiceVersion ≠ 0 →
      ReturnsTransportError c (c.CreateCondition i log) log) ∧
    (∀ i : GetConditionInput, i.Name ≠ "" → i.ServiceID ≠ "" → i.ServiceVersion ≠ 0 →
      ReturnsTransportError c (c.GetCondition i log) log) ∧
    (∀ i : UpdateConditionInput, i.Name ≠ "" → i.ServiceID ≠ "" → i.ServiceVersion ≠ 0 →
      ReturnsTransportError c (c.UpdateCondition i log) log) ∧
    (∀ i : DeleteConditionInput, i.Name ≠ "" → i.ServiceID ≠ "" → i.ServiceVersion ≠ 0 →
      ReturnsTransportError c (c.DeleteCondition i log) log) ∧
    (∀ i : ListVCLsInput, i.ServiceID ≠ "" → i.ServiceVersion ≠ 0 →
      ReturnsTransportError c (c.ListVCLs i log) log) ∧
    (∀ i : GetVCLInput, i.Name ≠ "" → i.ServiceID ≠ "" → i.ServiceVersion ≠ 0 →
      ReturnsTransportError c (c.GetVCL i log) log) ∧
    (∀ i : GetGeneratedVCLInput, i.ServiceID ≠ "" → i.ServiceVersion ≠ 0 →
      ReturnsTransportError c (c.GetGeneratedVCL i log) log) ∧
    (∀ i : CreateVCLInput, i.ServiceID ≠ "" → i.ServiceVersion ≠ 0 →
      ReturnsTransportError c (c.CreateVCL i log) log) ∧
    (∀ i : UpdateVCLInput, i.Name ≠ "" → i.ServiceID ≠ "" → i.ServiceVersion ≠ 0 →
      ReturnsTransportError c (c.UpdateVCL i log) log) ∧
    (∀ i : ActivateVCLInput, i.Name ≠ "" → i.ServiceID ≠ "" → i.ServiceVersion ≠ 0 →
      ReturnsTransportError c (c.ActivateVCL i log) log) ∧
    (∀ i : DeleteVCLInput, i.Name ≠ "" → i.ServiceID ≠ "" → i.ServiceVersion ≠ 0 →
      ReturnsTransportError c (c.DeleteVCL i log) log) ∧
    (∀ i : ListGzipsInput, i.ServiceID ≠ "" → i.ServiceVersion ≠ 0 →
      ReturnsTransportError c (c.ListGzips i log) log) ∧
    (∀ i : CreateGzipInput, i.ServiceID ≠ "" → i.ServiceVersion ≠ 0 →
      ReturnsTransportError c (c.CreateGzip i log) log) ∧
    (∀ i : GetGzipInput, i.Name ≠ "" → i.ServiceID ≠ "" → i.ServiceVersion ≠ 0 →
      ReturnsTransportError c (c.GetGzip i log) log) ∧
    (∀ i : UpdateGzipInput, i.Name ≠ "" → i.ServiceID ≠ "" → i.ServiceVersion ≠ 0 →
      ReturnsTransportError c (c.UpdateGzip i log) log) ∧
    (∀ i : DeleteGzipInput, i.Name ≠ "" → i.ServiceID ≠ "" → i.ServiceVersion ≠ 0 →
      ReturnsTransportError c (c.DeleteGzip i log) log) ∧
    (∀ i : GetSettingsInput, i.ServiceID ≠ "" → i.ServiceVersion ≠ 0 →
      ReturnsTransportError c (c.GetSettings i log) log) ∧
    (∀ i : UpdateSettingsInput, i.ServiceID ≠ "" → i.ServiceVersion ≠ 0 →
      ReturnsTransportError c (c.UpdateSettings i log) log) ∧
    (∀ (i : PurgeInput) (params : StringMap), i.URL ≠ "" →
      constructRequestOptionsParam c i.URL = .ok params →
      ReturnsTransportError c (c.Purge i log) log) ∧
    (∀ i : PurgeKeyInput, i.ServiceID ≠ "" → i.Key ≠ "" →
      c.rawRequestErr .POST (ToSafeURL ["service", i.ServiceID, "purge", i.Key])
        { Context := i.Context, Headers := [], Params := [], Parallel := true } = none →
      ReturnsTransportError c (c.PurgeKey i log) log) ∧
    (∀ i : PurgeKeysInput, i.ServiceID ≠ "" → i.Keys ≠ [] →
      c.rawRequestErr .POST (ToSafeURL ["service", i.ServiceID, "purge"])
        { Context := i.Context, Headers := [], Params := [], Parallel := true } = none →
      ReturnsTransportError c (c.PurgeKeys i log) log) ∧
    (∀ i : PurgeAllInput, i.ServiceID ≠ "" →
      c.rawRequestErr .POST (ToSafeURL ["service", i.ServiceID, "purge_all"])
        { Context := i.Context, Headers := [], Params := [], Parallel := false } = none →
      ReturnsTransportError c (c.PurgeAll i log) log) ∧
    (∀ g : status.GetInput, g.Domain ≠ "" →
      ReturnsTransportError c (status.Get c g log) log) ∧
    ReturnsTransportError c
      (accesskeys.ListAccessKeys c log) log :=
  all_return_transport_error c log

/-- C10 at a concrete input: UpdateSettings against a transport that fails. -/
theorem C10_witness :
    ReturnsTransportError (stubClient (.error "unreachable") none none)
      ((stubClient (.error "unreachable") none none).UpdateSettings
        { Context := none, DefaultHost := none, DefaultTTL := none, ServiceID := "svc",
          ServiceVersion := 1, StaleIfError := none, StaleIfErrorTTL := none } []) [] :=
  (C10_transport_error_unchanged (stubClient (.error "unreachable") none none)
    []).2.2.2.2.2.2.2.2.2.2.2.2.2.2.2.2.2.2.1 _ (by decide) (by decide)

/-- PurgeKey against a transport that fails: the error comes back as it is and the log holds
the request only. -/
theorem PurgeKey_example_transport_error :
    (stubClient (.error "unreachable") none none).PurgeKey
        { Context := none, Key := "k", ServiceID := "svc", Soft := false } [] =
      (.error (.transport "unreachable"),
       [.request { Method := .POST, Path := "service/svc/purge/k", Params := [], Header := [],
                   Form := none, Context := none, Parallel := true }]) := by
  rfl

/-! ## The request of every operation -/

/-- An exchange appends exactly one request to the log. -/
theorem exchange_appendsOne {α : Type} (c : Client) (req : Request)
    (dec : String → Except String α) (wrap : Error → Error) (log : Log) :
    AppendsOneRequest (exchange c req dec wrap log) log := by
  unfold exchange
  rcases hrt : c.roundTrip req with d | resp
  · exact ⟨req, [], rfl, rfl⟩
  · rcases hd : dec resp.Body with d | v
    · exact ⟨req, [.decode resp.Body], by simp [hd], rfl⟩
    · exact ⟨req, [.decode resp.Body], by simp [hd], rfl⟩

/-- A checked exchange appends exactly one request to the log. -/
theorem checkStatus_appendsOne (c : Client) (req : Request)
    (dec : String → Except String (Option statusResp)) (log : Log) :
    AppendsOneRequest (checkStatus (exchange c req dec id log)) log := by
  obtain ⟨r, rest, h, hrest⟩ := exchange_appendsOne c req dec id log
  exact ⟨r, rest, by rw [checkStatus_log]; exact h, hrest⟩

/-- The path of the request of every version-scoped operation. -/
theorem versioned_paths (c : Client) (log : Log) :
    (∀ i : ListConditionsInput, i.ServiceID ≠ "" → i.ServiceVersion ≠ 0 →
      IssuesOne (c.ListConditions i log) log (fun req =>
        req.Path = ToSafeURL ["service", i.ServiceID, "version", Itoa i.ServiceVersion, "condition"])) ∧
    (∀ i : CreateConditionInput, i.ServiceID ≠ "" → i.ServiceVersion ≠ 0 →
      IssuesOne (c.CreateCondition i log) log (fun req =>
        req.Path = ToSafeURL ["service", i.ServiceID, "version", Itoa i.ServiceVersion, "condition"])) ∧
    (∀ i : GetConditionInput, i.Name ≠ "" → i.ServiceID ≠ "" → i.ServiceVersion ≠ 0 →
      IssuesOne (c.GetCondition i log) log (fun req =>
        req.Path = ToSafeURL ["service", i.ServiceID, "version", Itoa i.ServiceVersion, "condition", i.Name])) ∧
    (∀ i : UpdateConditionInput, i.Name ≠ "" → i.ServiceID ≠ "" → i.ServiceVersion ≠ 0 →
      IssuesOne (c.UpdateCondition i log) log (fun req =>
        req.Path = ToSafeURL ["service", i.ServiceID, "version", Itoa i.ServiceVersion, "condition", i.Name])) ∧
    (∀ i : DeleteConditionInput, i.Name ≠ "" → i.ServiceID ≠ "" → i.ServiceVersion ≠ 0 →
      IssuesOne (c.DeleteCondition i log) log (fun req =>
        req.Path = ToSafeURL ["service", i.ServiceID, "version", Itoa i.ServiceVersion, "condition", i.Name])) ∧
    (∀ i : ListVCLsInput, i.ServiceID ≠ "" → i.ServiceVersion ≠ 0 →
      IssuesOne (c.ListVCLs i log) log (fun req =>
        req.Path = ToSafeURL ["service", i.ServiceID, "version", Itoa i.ServiceVersion, "vcl"])) ∧
    (∀ i : GetVCLInput, i.Name ≠ "" → i.ServiceID ≠ "" → i.ServiceVersion ≠ 0 →
      IssuesOne (c.GetVCL i log) log (fun req =>
        req.Path = ToSafeURL ["service", i.ServiceID, "version", Itoa i.ServiceVersion, "vcl", i.Name])) ∧
    (∀ i : GetGeneratedVCLInput, i.ServiceID ≠ "" → i.ServiceVersion ≠ 0 →
      IssuesOne (c.GetGeneratedVCL i log) log (fun req =>
        req.Path = ToSafeURL ["service", i.ServiceID, "version", Itoa i.ServiceVersion, "generated_vcl"])) ∧
    (∀ i : CreateVCLInput, i.ServiceID ≠ "" → i.ServiceVersion ≠ 0 →
      IssuesOne (c.CreateVCL i log) log (fun req =>
        req.Path = ToSafeURL ["service", i.ServiceID, "version", Itoa i.ServiceVersion, "vcl"])) ∧
    (∀ i : UpdateVCLInput, i.Name ≠ "" → i.ServiceID ≠ "" → i.ServiceVersion ≠ 0 →
      IssuesOne (c.UpdateVCL i log) log (fun req =>
        req.Path = ToSafeURL ["service", i.ServiceID, "version", Itoa i.ServiceVersion, "vcl", i.Name])) ∧
    (∀ i : ActivateVCLInput, i.Name ≠ "" → i.ServiceID ≠ "" → i.ServiceVersion ≠ 0 →
      IssuesOne (c.ActivateVCL i log) log (fun req =>
        req.Path = ToSafeURL ["service", i.ServiceID, "version", Itoa i.ServiceVersion, "vcl", i.Name, "main"])) ∧
    (∀ i : DeleteVCLInput, i.Name ≠ "" → i.ServiceID ≠ "" → i.ServiceVersion ≠ 0 →
      IssuesOne (c.DeleteVCL i log) log (fun req =>
        req.Path = ToSafeURL ["service", i.ServiceID, "version", Itoa i.ServiceVersion, "vcl", i.Name])) ∧
    (∀ i : ListGzipsInput, i.ServiceID ≠ "" → i.ServiceVersion ≠ 0 →
      IssuesOne (c.ListGzips i log) log (fun req =>
        req.Path = ToSafeURL ["service", i.ServiceID, "version", Itoa i.ServiceVersion, "gzip"])) ∧
    (∀ i : CreateGzipInput, i.ServiceID ≠ "" → i.ServiceVersion ≠ 0 →
      IssuesOne (c.CreateGzip i log) log (fun req =>
        req.Path = ToSafeURL ["service", i.ServiceID, "version", Itoa i.ServiceVersion, "gzip"])) ∧
    (∀ i : GetGzipInput, i.Name ≠ "" → i.ServiceID ≠ "" → i.ServiceVersion ≠ 0 →
      IssuesOne (c.GetGzip i log) log (fun req =>
        req.Path = ToSafeURL ["service", i.ServiceID, "version", Itoa i.ServiceVersion, "gzip", i.Name])) ∧
    (∀ i : UpdateGzipInput, i.Name ≠ "" → i.ServiceID ≠ "" → i.ServiceVersion ≠ 0 →
      IssuesOne (c.UpdateGzip i log) log (fun req =>
        req.Path = ToSafeURL ["service", i.ServiceID, "version", Itoa i.ServiceVersion, "gzip", i.Name])) ∧
    (∀ i : DeleteGzipInput, i.Name ≠ "" → i.ServiceID ≠ "" → i.ServiceVersion ≠ 0 →
      IssuesOne (c.DeleteGzip i log) log (fun req =>
        req.Path = ToSafeURL ["service", i.ServiceID, "version", Itoa i.ServiceVersion, "gzip", i.Name])) ∧
    (∀ i : GetSettingsInput, i.ServiceID ≠ "" → i.ServiceVersion ≠ 0 →
      IssuesOne (c.GetSettings i log) log (fun req =>
        req.Path = ToSafeURL ["service", i.ServiceID, "version", Itoa i.ServiceVersion, "settings"])) ∧
    (∀ i : UpdateSettingsInput, i.ServiceID ≠ "" → i.ServiceVersion ≠ 0 →
      IssuesOne (c.UpdateSettings i log) log (fun req =>
        req.Path = ToSafeURL ["service", i.ServiceID, "version", Itoa i.ServiceVersion, "settings"])) := by
  refine ⟨?_, ?_, ?_, ?_, ?_, ?_, ?_, ?_, ?_, ?_, ?_, ?_, ?_, ?_, ?_, ?_, ?_, ?_, ?_⟩
  · intro i h2 h3
    rw [ListConditions_valid c i log h2 h3]
    exact ⟨_, newCalls_exchange _ _ _ _ _, rfl⟩
  · intro i h2 h3
    rw [CreateCondition_valid c i log h2 h3]
    exact ⟨_, newCalls_exchange _ _ _ _ _, rfl⟩
  · intro i h1 h2 h3
    rw [GetCondition_valid c i log h1 h2 h3]
    exact ⟨_, newCalls_exchange _ _ _ _ _, rfl⟩
  · intro i h1 h2 h3
    rw [UpdateCondition_valid c i log h1 h2 h3]
    exact ⟨_, newCalls_exchange _ _ _ _ _, rfl⟩
  · intro i h1 h2 h3
    rw [DeleteCondition_valid c i log h1 h2 h3]
    exact ⟨_, by rw [checkStatus_log]; exact newCalls_exchange _ _ _ _ _, rfl⟩
  · intro i h2 h3
    rw [ListVCLs_valid c i log h2 h3]
    exact ⟨_, newCalls_exchange _ _ _ _ _, rfl⟩
  · intro i h1 h2 h3
    rw [GetVCL_valid c i log h1 h2 h3]
    exact ⟨_, newCalls_exchange _ _ _ _ _, rfl⟩
  · intro i h2 h3
    rw [GetGeneratedVCL_valid c i log h2 h3]
    exact ⟨_, newCalls_exchange _ _ _ _ _, rfl⟩
  · intro i h2 h3
    rw [CreateVCL_valid c i log h2 h3]
    exact ⟨_, newCalls_exchange _ _ _ _ _, rfl⟩
  · intro i h1 h2 h3
    rw [UpdateVCL_valid c i log h1 h2 h3]
    exact ⟨_, newCalls_exchange _ _ _ _ _, rfl⟩
  · intro i h1 h2 h3
    rw [ActivateVCL_valid c i log h1 h2 h3]
    exact ⟨_, newCalls_exchange _ _ _ _ _, rfl⟩
  · intro i h1 h2 h3
    rw [DeleteVCL_valid c i log h1 h2 h3]
    exact ⟨_, by rw [checkStatus_log]; exact newCalls_exchange _ _ _ _ _, rfl⟩
  · intro i h2 h3
    rw [ListGzips_valid c i log h2 h3]
    exact ⟨_, newCalls_exchange _ _ _ _ _, rfl⟩
  · intro i h2 h3
    rw [CreateGzip_valid c i log h2 h3]
    exact ⟨_, newCalls_exchange _ _ _ _ _, rfl⟩
  · intro i h1 h2 h3
    rw [GetGzip_valid c i log h1 h2 h3]
    exact ⟨_, newCalls_exchange _ _ _ _ _, rfl⟩
  · intro i h1 h2 h3
    rw [UpdateGzip_valid c i log h1 h2 h3]
    exact ⟨_, newCalls_exchange _ _ _ _ _, rfl⟩
  · intro i h1 h2 h3
    rw [DeleteGzip_valid c i log h1 h2 h3]
    exact ⟨_, by rw [checkStatus_log]; exact newCalls_exchange _ _ _ _ _, rfl⟩
  · intro i h2 h3
    rw [GetSettings_valid c i log h2 h3]
    exact ⟨_, newCalls_exchange _ _ _ _ _, rfl⟩
  · intro i h2 h3
    rw [UpdateSettings_valid c i log h2 h3]
    exact ⟨_, newCalls_exchange _ _ _ _ _, rfl⟩

/-- The method of the request of every operation. -/
theorem all_methods (c : Client) (log : Log) :
    (∀ i : ListConditionsInput, i.ServiceID ≠ "" → i.ServiceVersion ≠ 0 →
      IssuesOne (c.ListConditions i log) log (fun req => req.Method = .GET)) ∧
    (∀ i : CreateConditionInput, i.ServiceID ≠ "" → i.ServiceVersion ≠ 0 →
      IssuesOne (c.CreateCondition i log) log (fun req => req.Method = .POST)) ∧
    (∀ i : GetConditionInput, i.Name ≠ "" → i.ServiceID ≠ "" → i.ServiceVersion ≠ 0 →
      IssuesOne (c.GetCondition i log) log (fun req => req.Method = .GET)) ∧
    (∀ i : UpdateConditionInput, i.Name ≠ "" → i.ServiceID ≠ "" → i.ServiceVersion ≠ 0 →
      IssuesOne (c.UpdateCondition i log) log (fun req => req.Method = .PUT)) ∧
    (∀ i : DeleteConditionInput, i.Name ≠ "" → i.ServiceID ≠ "" → i.ServiceVersion ≠ 0 →
      IssuesOne (c.DeleteCondition i log) log (fun req => req.Method = .DELETE)) ∧
    (∀ i : ListVCLsInput, i.ServiceID ≠ "" → i.ServiceVersion ≠ 0 →
      IssuesOne (c.ListVCLs i log) log (fun req => req.Method = .GET)) ∧
    (∀ i : GetVCLInput, i.Name ≠ "" → i.ServiceID ≠ "" → i.ServiceVersion ≠ 0 →
      IssuesOne (c.GetVCL i log) log (fun req => req.Method = .GET)) ∧
    (∀ i : GetGeneratedVCLInput, i.ServiceID ≠ "" → i.ServiceVersion ≠ 0 →
      IssuesOne (c.GetGeneratedVCL i log) log (fun req => req.Method = .GET)) ∧
    (∀ i : CreateVCLInput, i.ServiceID ≠ "" → i.ServiceVersion ≠ 0 →
      IssuesOne (c.CreateVCL i log) log (fun req => req.Method = .POST)) ∧
    (∀ i : UpdateVCLInput, i.Name ≠ "" → i.ServiceID ≠ "" → i.ServiceVersion ≠ 0 →
      IssuesOne (c.UpdateVCL i log) log (fun req => req.Method = .PUT)) ∧
    (∀ i : ActivateVCLInput, i.Name ≠ "" → i.ServiceID ≠ "" → i.ServiceVersion ≠ 0 →
      IssuesOne (c.ActivateVCL i log) log (fun req => req.Method = .PUT)) ∧
    (∀ i : DeleteVCLInput, i.Name ≠ "" → i.ServiceID ≠ "" → i.ServiceVersion ≠ 0 →
      IssuesOne (c.DeleteVCL i log) log (fun req => req.Method = .DELETE)) ∧
    (∀ i : ListGzipsInput, i.ServiceID ≠ "" → i.ServiceVersion ≠ 0 →
      IssuesOne (c.ListGzips i log) log (fun req => req.Method = .GET)) ∧
    (∀ i : CreateGzipInput, i.ServiceID ≠ "" → i.ServiceVersion ≠ 0 →
      IssuesOne (c.CreateGzip i log) log (fun req => req.Method = .POST)) ∧
    (∀ i : GetGzipInput, i.Name ≠ "" → i.ServiceID ≠ "" → i.ServiceVersion ≠ 0 →
      IssuesOne (c.GetGzip i log) log (fun req => req.Method = .GET)) ∧
    (∀ i : UpdateGzipInput, i.Name ≠ "" → i.ServiceID ≠ "" → i.ServiceVersion ≠ 0 →
      IssuesOne (c.UpdateGzip i log) log (fun req => req.Method = .PUT)) ∧
    (∀ i : DeleteGzipInput, i.Name ≠ "" → i.ServiceID ≠ "" → i.ServiceVersion ≠ 0 →
      IssuesOne (c.DeleteGzip i log) log (fun req => req.Method = .DELETE)) ∧
    (∀ i : GetSettingsInput, i.ServiceID ≠ "" → i.ServiceVersion ≠ 0 →
      IssuesOne (c.GetSettings i log) log (fun req => req.Method = .GET)) ∧
    (∀ i : UpdateSettingsInput, i.ServiceID ≠ "" → i.ServiceVersion ≠ 0 →
      IssuesOne (c.UpdateSettings i log) log (fun req => req.Method = .PUT)) ∧
    (∀ (i : PurgeInput) (params : StringMap), i.URL ≠ "" →
      constructRequestOptionsParam c i.URL = .ok params →
      IssuesOne (c.Purge i log) log (fun req => req.Method = .POST)) ∧
    (∀ i : PurgeKeyInput, i.ServiceID ≠ "" → i.Key ≠ "" →
      c.rawRequestErr .POST (ToSafeURL ["service", i.ServiceID, "purge", i.Key])
        { Context := i.Context, Headers := [], Params := [], Parallel := true } = none →
      IssuesOne (c.PurgeKey i log) log (fun req => req.Method = .POST)) ∧
    (∀ i : PurgeKeysInput, i.ServiceID ≠ "" → i.Keys ≠ [] →
      c.rawRequestErr .POST (ToSafeURL ["service", i.ServiceID, "purge"])
        { Context := i.Context, Headers := [], Params := [], Parallel := true } = none →
      IssuesOne (c.PurgeKeys i log) log (fun req => req.Method = .POST)) ∧
    (∀ i : PurgeAllInput, i.ServiceID ≠ "" →
      c.rawRequestErr .POST (ToSafeURL ["service", i.ServiceID, "purge_all"])
        { Context := i.Context, Headers := [], Params := [], Parallel := false } = none →
      IssuesOne (c.PurgeAll i log) log (fun req => req.Method = .POST)) ∧
    (∀ g : status.GetInput, g.Domain ≠ "" →
      IssuesOne (status.Get c g log) log (fun req => req.Method = .GET)) ∧
    IssuesOne (accesskeys.ListAccessKeys c log) log (fun req => req.Method = .GET) := by
  refine ⟨?_, ?_, ?_, ?_, ?_, ?_, ?_, ?_, ?_, ?_, ?_, ?_, ?_, ?_, ?_, ?_, ?_, ?_, ?_, ?_, ?_, ?_, ?_, ?_, ?_⟩
  · intro i h2 h3
    rw [ListConditions_valid c i log h2 h3]
    exact ⟨_, newCalls_exchange _ _ _ _ _, rfl⟩
  · intro i h2 h3
    rw [CreateCondition_valid c i log h2 h3]
    exact ⟨_, newCalls_exchange _ _ _ _ _, rfl⟩
  · intro i h1 h2 h3
    rw [GetCondition_valid c i log h1 h2 h3]
    exact ⟨_, newCalls_exchange _ _ _ _ _, rfl⟩
  · intro i h1 h2 h3
    rw [UpdateCondition_valid c i log h1 h2 h3]
    exact ⟨_, newCalls_exchange _ _ _ _ _, rfl⟩
  · intro i h1 h2 h3
    rw [DeleteCondition_valid c i log h1 h2 h3]
    exact ⟨_, by rw [checkStatus_log]; exact newCalls_exchange _ _ _ _ _, rfl⟩
  · intro i h2 h3
    rw [ListVCLs_valid c i log h2 h3]
    exact ⟨_, newCalls_exchange _ _ _ _ _, rfl⟩
  · intro i h1 h2 h3
    rw [GetVCL_valid c i log h1 h2 h3]
    exact ⟨_, newCalls_exchange _ _ _ _ _, rfl⟩
  · intro i h2 h3
    rw [GetGeneratedVCL_valid c i log h2 h3]
    exact ⟨_, newCalls_exchange _ _ _ _ _, rfl⟩
  · intro i h2 h3
    rw [CreateVCL_valid c i log h2 h3]
    exact ⟨_, newCalls_exchange _ _ _ _ _, rfl⟩
  · intro i h1 h2 h3
    rw [UpdateVCL_valid c i log h1 h2 h3]
    exact ⟨_, newCalls_exchange _ _ _ _ _, rfl⟩
  · intro i h1 h2 h3
    rw [ActivateVCL_valid c i log h1 h2 h3]
    exact ⟨_, newCalls_exchange _ _ _ _ _, rfl⟩
  · intro i h1 h2 h3
    rw [DeleteVCL_valid c i log h1 h2 h3]
    exact ⟨_, by rw [checkStatus_log]; exact newCalls_exchange _ _ _ _ _, rfl⟩
  · intro i h2 h3
    rw [ListGzips_valid c i log h2 h3]
    exact ⟨_, newCalls_exchange _ _ _ _ _, rfl⟩
  · intro i h2 h3
    rw [CreateGzip_valid c i log h2 h3]
    exact ⟨_, newCalls_exchange _ _ _ _ _, rfl⟩
  · intro i h1 h2 h3
    rw [GetGzip_valid c i log h1 h2 h3]
    exact ⟨_, newCalls_exchange _ _ _ _ _, rfl⟩
  · intro i h1 h2 h3
    rw [UpdateGzip_valid c i log h1 h2 h3]
    exact ⟨_, newCalls_exchange _ _ _ _ _, rfl⟩
  · intro i h1 h2 h3
    rw [DeleteGzip_valid c i log h1 h2 h3]
    exact ⟨_, by rw [checkStatus_log]; exact newCalls_exchange _ _ _ _ _, rfl⟩
  · intro i h2 h3
    rw [GetSettings_valid c i log h2 h3]
    exact ⟨_, newCalls_exchange _ _ _ _ _, rfl⟩
  · intro i h2 h3
    rw [UpdateSettings_valid c i log h2 h3]
    exact ⟨_, newCalls_exchange _ _ _ _ _, rfl⟩
  · intro i params h1 h2
    rw [Purge_valid c i log params h1 h2]
    exact ⟨_, newCalls_exchange _ _ _ _ _, rfl⟩
  · intro i h1 h2 h3
    rw [PurgeKey_valid c i log h1 h2 h3]
    exact ⟨_, newCalls_exchange _ _ _ _ _, rfl⟩
  · intro i h1 h2 h3
    rw [PurgeKeys_valid c i log h1 h2 h3]
    exact ⟨_, newCalls_exchange _ _ _ _ _, rfl⟩
  · intro i h1 h3
    rw [PurgeAll_valid c i log h1 h3]
    exact ⟨_, newCalls_exchange _ _ _ _ _, rfl⟩
  · intro g h1
    rw [statusGet_valid c g log h1]
    exact ⟨_, newCalls_exchange _ _ _ _ _, rfl⟩
  · rw [ListAccessKeys_valid c log]
    exact ⟨_, newCalls_exchange _ _ _ _ _, rfl⟩

/-- Every operation whose request is built appends exactly one request; an operation whose
request cannot be built leaves the log as it is. -/
theorem all_append_one (c : Client) (log : Log) :
    ((∀ i : ListConditionsInput, i.ServiceID ≠ "" → i.ServiceVersion ≠ 0 →
      AppendsOneRequest (c.ListConditions i log) log) ∧
    (∀ i : CreateConditionInput, i.ServiceID ≠ "" → i.ServiceVersion ≠ 0 →
      AppendsOneRequest (c.CreateCondition i log) log) ∧
    (∀ i : GetConditionInput, i.Name ≠ "" → i.ServiceID ≠ "" → i.ServiceVersion ≠ 0 →
      AppendsOneRequest (c.GetCondition i log) log) ∧
    (∀ i : UpdateConditionInput, i.Name ≠ "" → i.ServiceID ≠ "" → i.ServiceVersion ≠ 0 →
      AppendsOneRequest (c.UpdateCondition i log) log) ∧
    (∀ i : DeleteConditionInput, i.Name ≠ "" → i.ServiceID ≠ "" → i.ServiceVersion ≠ 0 →
      AppendsOneRequest (c.DeleteCondition i log) log) ∧
    (∀ i : ListVCLsInput, i.ServiceID ≠ "" → i.ServiceVersion ≠ 0 →
      AppendsOneRequest (c.ListVCLs i log) log) ∧
    (∀ i : GetVCLInput, i.Name ≠ "" → i.ServiceID ≠ "" → i.ServiceVersion ≠ 0 →
      AppendsOneRequest (c.GetVCL i log) log) ∧
    (∀ i : GetGeneratedVCLInput, i.ServiceID ≠ "" → i.ServiceVersion ≠ 0 →
      AppendsOneRequest (c.GetGeneratedVCL i log) log) ∧
    (∀ i : CreateVCLInput, i.ServiceID ≠ "" → i.ServiceVersion ≠ 0 →
      AppendsOneRequest (c.CreateVCL i log) log) ∧
    (∀ i : UpdateVCLInput, i.Name ≠ "" → i.ServiceID ≠ "" → i.ServiceVersion ≠ 0 →
      AppendsOneRequest (c.UpdateVCL i log) log) ∧
    (∀ i : ActivateVCLInput, i.Name ≠ "" → i.ServiceID ≠ "" → i.ServiceVersion ≠ 0 →
      AppendsOneRequest (c.ActivateVCL i log) log) ∧
    (∀ i : DeleteVCLInput, i.Name ≠ "" → i.ServiceID ≠ "" → i.ServiceVersion ≠ 0 →
      AppendsOneRequest (c.DeleteVCL i log) log) ∧
    (∀ i : ListGzipsInput, i.ServiceID ≠ "" → i.ServiceVersion ≠ 0 →
      AppendsOneRequest (c.ListGzips i log) log) ∧
    (∀ i : CreateGzipInput, i.ServiceID ≠ "" → i.ServiceVersion ≠ 0 →
      AppendsOneRequest (c.CreateGzip i log) log) ∧
    (∀ i : GetGzipInput, i.Name ≠ "" → i.ServiceID ≠ "" → i.ServiceVersion ≠ 0 →
      AppendsOneRequest (c.GetGzip i log) log) ∧
    (∀ i : UpdateGzipInput, i.Name ≠ "" → i.ServiceID ≠ "" → i.ServiceVersion ≠ 0 →
      AppendsOneRequest (c.UpdateGzip i log) log) ∧
    (∀ i : DeleteGzipInput, i.Name ≠ "" → i.ServiceID ≠ "" → i.ServiceVersion ≠ 0 →
      AppendsOneRequest (c.DeleteGzip i log) log) ∧
    (∀ i : GetSettingsInput, i.ServiceID ≠ "" → i.ServiceVersion ≠ 0 →
      AppendsOneRequest (c.GetSettings i log) log) ∧
    (∀ i : UpdateSettingsInput, i.ServiceID ≠ "" → i.ServiceVersion ≠ 0 →
      AppendsOneRequest (c.UpdateSettings i log) log) ∧
    (∀ (i : PurgeInput) (params : StringMap), i.URL ≠ "" →
      constructRequestOptionsParam c i.URL = .ok params →
      AppendsOneRequest (c.Purge i log) log) ∧
    (∀ i : PurgeKeyInput, i.ServiceID ≠ "" → i.Key ≠ "" →
      c.rawRequestErr .POST (ToSafeURL ["service", i.ServiceID, "purge", i.Key])
        { Context := i.Context, Headers := [], Params := [], Parallel := true } = none →
      AppendsOneRequest (c.PurgeKey i log) log) ∧
    (∀ i : PurgeKeysInput, i.ServiceID ≠ "" → i.Keys ≠ [] →
      c.rawRequestErr .POST (ToSafeURL ["service", i.ServiceID, "purge"])
        { Context := i.Context, Headers := [], Params := [], Parallel := true } = none →
      AppendsOneRequest (c.PurgeKeys i log) log) ∧
    (∀ i : PurgeAllInput, i.ServiceID ≠ "" →
      c.rawRequestErr .POST (ToSafeURL ["service", i.ServiceID, "purge_all"])
        { Context := i.Context, Headers := [], Params := [], Parallel := false } = none →
      AppendsOneRequest (c.PurgeAll i log) log) ∧
    (∀ g : status.GetInput, g.Domain ≠ "" →
      AppendsOneRequest (status.Get c g log) log) ∧
    AppendsOneRequest (accesskeys.ListAccessKeys c log) log) ∧
    (∀ (i : PurgeInput) (err : Error), i.URL ≠ "" →
      constructRequestOptionsParam c i.URL = .error err → (c.Purge i log).2 = log) ∧
    (∀ (i : PurgeKeyInput) (d : String), i.ServiceID ≠ "" → i.Key ≠ "" →
      c.rawRequestErr .POST (ToSafeURL ["service", i.ServiceID, "purge", i.Key])
        { Context := i.Context, Headers := [], Params := [], Parallel := true } = some d →
      (c.PurgeKey i log).2 = log) ∧
    (∀ (i : PurgeKeysInput) (d : String), i.ServiceID ≠ "" → i.Keys ≠ [] →
      c.rawRequestErr .POST (ToSafeURL ["service", i.ServiceID, "purge"])
        { Context := i.Context, Headers := [], Params := [], Parallel := true } = some d →
      (c.PurgeKeys i log).2 = log) ∧
    (∀ (i : PurgeAllInput) (d : String), i.ServiceID ≠ "" →
      c.rawRequestErr .POST (ToSafeURL ["service", i.ServiceID, "purge_all"])
        { Context := i.Context, Headers := [], Params := [], Parallel := false } = some d →
      (c.PurgeAll i log).2 = log) := by
  refine ⟨⟨?_, ?_, ?_, ?_, ?_, ?_, ?_, ?_, ?_, ?_, ?_, ?_, ?_, ?_, ?_, ?_, ?_, ?_, ?_, ?_, ?_, ?_, ?_, ?_, ?_⟩, ?_, ?_, ?_, ?_⟩
  · intro i h2 h3
    rw [ListConditions_valid c i log h2 h3]
    exact exchange_appendsOne _ _ _ _ _
  · intro i h2 h3
    rw [CreateCondition_valid c i log h2 h3]
    exact exchange_appendsOne _ _ _ _ _
  · intro i h1 h2 h3
    rw [GetCondition_valid c i log h1 h2 h3]
    exact exchange_appendsOne _ _ _ _ _
  · intro i h1 h2 h3
    rw [UpdateCondition_valid c i log h1 h2 h3]
    exact exchange_appendsOne _ _ _ _ _
  · intro i h1 h2 h3
    rw [DeleteCondition_valid c i log h1 h2 h3]
    exact checkStatus_appendsOne _ _ _ _
  · intro i h2 h3
    rw [ListVCLs_valid c i log h2 h3]
    exact exchange_appendsOne _ _ _ _ _
  · intro i h1 h2 h3
    rw [GetVCL_valid c i log h1 h2 h3]
    exact exchange_appendsOne _ _ _ _ _
  · intro i h2 h3
    rw [GetGeneratedVCL_valid c i log h2 h3]
    exact exchange_appendsOne _ _ _ _ _
  · intro i h2 h3
    rw [CreateVCL_valid c i log h2 h3]
    exact exchange_appendsOne _ _ _ _ _
  · intro i h1 h2 h3
    rw [UpdateVCL_valid c i log h1 h2 h3]
    exact exchange_appendsOne _ _ _ _ _
  · intro i h1 h2 h3
    rw [ActivateVCL_valid c i log h1 h2 h3]
    exact exchange_appendsOne _ _ _ _ _
  · intro i h1 h2 h3
    rw [DeleteVCL_valid c i log h1 h2 h3]
    exact checkStatus_appendsOne _ _ _ _
  · intro i h2 h3
    rw [ListGzips_valid c i log h2 h3]
    exact exchange_appendsOne _ _ _ _ _
  · intro i h2 h3
    rw [CreateGzip_valid c i log h2 h3]
    exact exchange_appendsOne _ _ _ _ _
  · intro i h1 h2 h3
    rw [GetGzip_valid c i log h1 h2 h3]
    exact exchange_appendsOne _ _ _ _ _
  · intro i h1 h2 h3
    rw [UpdateGzip_valid c i log h1 h2 h3]
    exact exchange_appendsOne _ _ _ _ _
  · intro i h1 h2 h3
    rw [DeleteGzip_valid c i log h1 h2 h3]
    exact checkStatus_appendsOne _ _ _ _
  · intro i h2 h3
    rw [GetSettings_valid c i log h2 h3]
    exact exchange_appendsOne _ _ _ _ _
  · intro i h2 h3
    rw [UpdateSettings_valid c i log h2 h3]
    exact exchange_appendsOne _ _ _ _ _
  · intro i params h1 h2
    rw [Purge_valid c i log params h1 h2]
    exact exchange_appendsOne _ _ _ _ _
  · intro i h1 h2 h3
    rw [PurgeKey_valid c i log h1 h2 h3]
    exact exchange_appendsOne _ _ _ _ _
  · intro i h1 h2 h3
    rw [PurgeKeys_valid c i log h1 h2 h3]
    exact exchange_appendsOne _ _ _ _ _
  · intro i h1 h3
    rw [PurgeAll_valid c i log h1 h3]
    exact exchange_appendsOne _ _ _ _ _
  · intro g h1
    rw [statusGet_valid c g log h1]
    exact exchange_appendsOne _ _ _ _ _
  · rw [ListAccessKeys_valid c log]
    exact exchange_appendsOne _ _ _ _ _
  · intro i err h1 h2
    rw [Purge_noParams c i log err h1 h2]
  · intro i d h1 h2 h3
    rw [PurgeKey_noRequest c i log d h1 h2 h3]
  · intro i d h1 h2 h3
    rw [PurgeKeys_noRequest c i log d h1 h2 h3]
  · intro i d h1 h3
    rw [PurgeAll_noRequest c i log d h1 h3]

/-- C12: with valid input the request path of every version-scoped operation is built from
the segments service, ServiceID, version, the decimal ServiceVersion and the resource
(condition, vcl, gzip, settings or generated_vcl), followed by Name when the operation targets
a named resource and, for ActivateVCL, by main; the segments mention the input only. -/
theorem C12_version_scoped_paths (c : Client) (log : Log) :
    (∀ i : ListConditionsInput, i.ServiceID ≠ "" → i.ServiceVersion ≠ 0 →
      IssuesOne (c.ListConditions i log) log (fun req =>
        req.Path = ToSafeURL ["service", i.ServiceID, "version", Itoa i.ServiceVersion, "condition"])) ∧
    (∀ i : CreateConditionInput, i.ServiceID ≠ "" → i.ServiceVersion ≠ 0 →
      IssuesOne (c.CreateCondition i log) log (fun req =>
        req.Path = ToSafeURL ["service", i.ServiceID, "version", Itoa i.ServiceVersion, "condition"])) ∧
    (∀ i : GetConditionInput, i.Name ≠ "" → i.ServiceID ≠ "" → i.ServiceVersion ≠ 0 →
      IssuesOne (c.GetCondition i log) log (fun req =>
        req.Path = ToSafeURL ["service", i.ServiceID, "version", Itoa i.ServiceVersion, "condition", i.Name])) ∧
    (∀ i : UpdateConditionInput, i.Name ≠ "" → i.ServiceID ≠ "" → i.ServiceVersion ≠ 0 →
      IssuesOne (c.UpdateCondition i log) log (fun req =>
        req.Path = ToSafeURL ["service", i.ServiceID, "version", Itoa i.ServiceVersion, "condition", i.Name])) ∧
    (∀ i : DeleteConditionInput, i.Name ≠ "" → i.ServiceID ≠ "" → i.ServiceVersion ≠ 0 →
      IssuesOne (c.DeleteCondition i log) log (fun req =>
        req.Path = ToSafeURL ["service", i.ServiceID, "version", Itoa i.ServiceVersion, "condition", i.Name])) ∧
    (∀ i : ListVCLsInput, i.ServiceID ≠ "" → i.ServiceVersion ≠ 0 →
      IssuesOne (c.ListVCLs i log) log (fun req =>
        req.Path = ToSafeURL ["service", i.ServiceID, "version", Itoa i.ServiceVersion, "vcl"])) ∧
    (∀ i : GetVCLInput, i.Name ≠ "" → i.ServiceID ≠ "" → i.ServiceVersion ≠ 0 →
      IssuesOne (c.GetVCL i log) log (fun req =>
        req.Path = ToSafeURL ["service", i.ServiceID, "version", Itoa i.ServiceVersion, "vcl", i.Name])) ∧
    (∀ i : GetGeneratedVCLInput, i.ServiceID ≠ "" → i.ServiceVersion ≠ 0 →
      IssuesOne (c.GetGeneratedVCL i log) log (fun req =>
        req.Path = ToSafeURL ["service", i.ServiceID, "version", Itoa i.ServiceVersion, "generated_vcl"])) ∧
    (∀ i : CreateVCLInput, i.ServiceID ≠ "" → i.ServiceVersion ≠ 0 →
      IssuesOne (c.CreateVCL i log) log (fun req =>
        req.Path = ToSafeURL ["service", i.ServiceID, "version", Itoa i.ServiceVersion, "vcl"])) ∧
    (∀ i : UpdateVCLInput, i.Name ≠ "" → i.ServiceID ≠ "" → i.ServiceVersion ≠ 0 →
      IssuesOne (c.UpdateVCL i log) log (fun req =>
        req.Path = ToSafeURL ["service", i.ServiceID, "version", Itoa i.ServiceVersion, "vcl", i.Name])) ∧
    (∀ i : ActivateVCLInput, i.Name ≠ "" → i.ServiceID ≠ "" → i.ServiceVersion ≠ 0 →
      IssuesOne (c.ActivateVCL i log) log (fun req =>
        req.Path = ToSafeURL ["service", i.ServiceID, "version", Itoa i.ServiceVersion, "vcl", i.Name, "main"])) ∧
    (∀ i : DeleteVCLInput, i.Name ≠ "" → i.ServiceID ≠ "" → i.ServiceVersion ≠ 0 →
      IssuesOne (c.DeleteVCL i log) log (fun req =>
        req.Path = ToSafeURL ["service", i.ServiceID, "version", Itoa i.ServiceVersion, "vcl", i.Name])) ∧
    (∀ i : ListGzipsInput, i.ServiceID ≠ "" → i.ServiceVersion ≠ 0 →
      IssuesOne (c.ListGzips i log) log (fun req =>
        req.Path = ToSafeURL ["service", i.ServiceID, "version", Itoa i.ServiceVersion, "gzip"])) ∧
    (∀ i : CreateGzipInput, i.ServiceID ≠ "" → i.ServiceVersion ≠ 0 →
      IssuesOne (c.CreateGzip i log) log (fun req =>
        req.Path = ToSafeURL ["service", i.ServiceID, "version", Itoa i.ServiceVersion, "gzip"])) ∧
    (∀ i : GetGzipInput, i.Name ≠ "" → i.ServiceID ≠ "" → i.ServiceVersion ≠ 0 →
      IssuesOne (c.GetGzip i log) log (fun req =>
        req.Path = ToSafeURL ["service", i.ServiceID, "version", Itoa i.ServiceVersion, "gzip", i.Name])) ∧
    (∀ i : UpdateGzipInput, i.Name ≠ "" → i.ServiceID ≠ "" → i.ServiceVersion ≠ 0 →
      IssuesOne (c.UpdateGzip i log) log (fun req =>
        req.Path = ToSafeURL ["service", i.ServiceID, "version", Itoa i.ServiceVersion, "gzip", i.Name])) ∧
    (∀ i : DeleteGzipInput, i.Name ≠ "" → i.ServiceID ≠ "" → i.ServiceVersion ≠ 0 →
      IssuesOne (c.DeleteGzip i log) log (fun req =>
        req.Path = ToSafeURL ["service", i.ServiceID, "version", Itoa i.ServiceVersion, "gzip", i.Name])) ∧
    (∀ i : GetSettingsInput, i.ServiceID ≠ "" → i.ServiceVersion ≠ 0 →
      IssuesOne (c.GetSettings i log) log (fun req =>
        req.Path = ToSafeURL ["service", i.ServiceID, "version", Itoa i.ServiceVersion, "settings"])) ∧
    (∀ i : UpdateSettingsInput, i.ServiceID ≠ "" → i.ServiceVersion ≠ 0 →
      IssuesOne (c.UpdateSettings i log) log (fun req =>
        req.Path = ToSafeURL ["service", i.ServiceID, "version", Itoa i.ServiceVersion, "settings"])) :=
  versioned_paths c log

/-- C12 at a concrete input: activating the VCL `v` of version 3 of service `svc`. -/
theorem C12_witness :
    IssuesOne (okClient.ActivateVCL
        { Context := none, Name := "v", ServiceID := "svc", ServiceVersion := 3 } []) []
      (fun req => req.Path = ToSafeURL ["service", "svc", "version", Itoa 3, "vcl", "v", "main"]) :=
  (C12_version_scoped_paths okClient []).2.2.2.2.2.2.2.2.2.2.1 _ (by decide) (by decide)
    (by decide)

/-- The path of a concrete request, written out: a name with a space and a slash is escaped
inside its segment. -/
theorem GetVCL_example_path :
    calls (okClient.GetVCL
        { Context := none, Name := "my vcl/1", ServiceID := "svc", ServiceVersion := 12 } []).2 =
      [plainRequest .GET "service/svc/version/12/vcl/my%20vcl%2F1" none none] := by
  decide

/-- C13: every operation uses the method of its kind: GET for the reads, POST for the creates
and the purges, PUT for the updates and for ActivateVCL, DELETE for the removals. -/
theorem C13_methods (c : Client) (log : Log) :
    (∀ i : ListConditionsInput, i.ServiceID ≠ "" → i.ServiceVersion ≠ 0 →
      IssuesOne (c.ListConditions i log) log (fun req => req.Method = .GET)) ∧
    (∀ i : CreateConditionInput, i.ServiceID ≠ "" → i.ServiceVersion ≠ 0 →
      IssuesOne (c.CreateCondition i log) log (fun req => req.Method = .POST)) ∧
    (∀ i : GetConditionInput, i.Name ≠ "" → i.ServiceID ≠ "" → i.ServiceVersion ≠ 0 →
      IssuesOne (c.GetCondition i log) log (fun req => req.Method = .GET)) ∧
    (∀ i : UpdateConditionInput, i.Name ≠ "" → i.ServiceID ≠ "" → i.ServiceVersion ≠ 0 →
      IssuesOne (c.UpdateCondition i log) log (fun req => req.Method = .PUT)) ∧
    (∀ i : DeleteConditionInput, i.Name ≠ "" → i.ServiceID ≠ "" → i.ServiceVersion ≠ 0 →
      IssuesOne (c.DeleteCondition i log) log (fun req => req.Method = .DELETE)) ∧
    (∀ i : ListVCLsInput, i.ServiceID ≠ "" → i.ServiceVersion ≠ 0 →
      IssuesOne (c.ListVCLs i log) log (fun req => req.Method = .GET)) ∧
    (∀ i : GetVCLInput, i.Name ≠ "" → i.ServiceID ≠ "" → i.ServiceVersion ≠ 0 →
      IssuesOne (c.GetVCL i log) log (fun req => req.Method = .GET)) ∧
    (∀ i : GetGeneratedVCLInput, i.ServiceID ≠ "" → i.ServiceVersion ≠ 0 →
      IssuesOne (c.GetGeneratedVCL i log) log (fun req => req.Method = .GET)) ∧
    (∀ i : CreateVCLInput, i.ServiceID ≠ "" → i.ServiceVersion ≠ 0 →
      IssuesOne (c.CreateVCL i log) log (fun req => req.Method = .POST)) ∧
    (∀ i : UpdateVCLInput, i.Name ≠ "" → i.ServiceID ≠ "" → i.ServiceVersion ≠ 0 →
      IssuesOne (c.UpdateVCL i log) log (fun req => req.Method = .PUT)) ∧
    (∀ i : ActivateVCLInput, i.Name ≠ "" → i.ServiceID ≠ "" → i.ServiceVersion ≠ 0 →
      IssuesOne (c.ActivateVCL i log) log (fun req => req.Method = .PUT)) ∧
    (∀ i : DeleteVCLInput, i.Name ≠ "" → i.ServiceID ≠ "" → i.ServiceVersion ≠ 0 →
      IssuesOne (c.DeleteVCL i log) log (fun req => req.Method = .DELETE)) ∧
    (∀ i : ListGzipsInput, i.ServiceID ≠ "" → i.ServiceVersion ≠ 0 →
      IssuesOne (c.ListGzips i log) log (fun req => req.Method = .GET)) ∧
    (∀ i : CreateGzipInput, i.ServiceID ≠ "" → i.ServiceVersion ≠ 0 →
      IssuesOne (c.CreateGzip i log) log (fun req => req.Method = .POST)) ∧
    (∀ i : GetGzipInput, i.Name ≠ "" → i.ServiceID ≠ "" → i.ServiceVersion ≠ 0 →
      IssuesOne (c.GetGzip i log) log (fun req => req.Method = .GET)) ∧
    (∀ i : UpdateGzipInput, i.Name ≠ "" → i.ServiceID ≠ "" → i.ServiceVersion ≠ 0 →
      IssuesOne (c.UpdateGzip i log) log (fun req => req.Method = .PUT)) ∧
    (∀ i : DeleteGzipInput, i.Name ≠ "" → i.ServiceID ≠ "" → i.ServiceVersion ≠ 0 →
      IssuesOne (c.DeleteGzip i log) log (fun req => req.Method = .DELETE)) ∧
    (∀ i : GetSettingsInput, i.ServiceID ≠ "" → i.ServiceVersion ≠ 0 →
      IssuesOne (c.GetSettings i log) log (fun req => req.Method = .GET)) ∧
    (∀ i : UpdateSettingsInput, i.ServiceID ≠ "" → i.ServiceVersion ≠ 0 →
      IssuesOne (c.UpdateSettings i log) log (fun req => req.Method = .PUT)) ∧
    (∀ (i : PurgeInput) (params : StringMap), i.URL ≠ "" →
      constructRequestOptionsParam c i.URL = .ok params →
      IssuesOne (c.Purge i log) log (fun req => req.Method = .POST)) ∧
    (∀ i : PurgeKeyInput, i.ServiceID ≠ "" → i.Key ≠ "" →
      c.rawRequestErr .POST (ToSafeURL ["service", i.ServiceID, "purge", i.Key])
        { Context := i.Context, Headers := [], Params := [], Parallel := true } = none →
      IssuesOne (c.PurgeKey i log) log (fun req => req.Method = .POST)) ∧
    (∀ i : PurgeKeysInput, i.ServiceID ≠ "" → i.Keys ≠ [] →
      c.rawRequestErr .POST (ToSafeURL ["service", i.ServiceID, "purge"])
        { Context := i.Context, Headers := [], Params := [], Parallel := true } = none →
      IssuesOne (c.PurgeKeys i log) log (fun req => req.Method = .POST)) ∧
    (∀ i : PurgeAllInput, i.ServiceID ≠ "" →
      c.rawRequestErr .POST (ToSafeURL ["service", i.ServiceID, "purge_all"])
        { Context := i.Context, Headers := [], Params := [], Parallel := false } = none →
      IssuesOne (c.PurgeAll i log) log (fun req => req.Method = .POST)) ∧
    (∀ g : status.GetInput, g.Domain ≠ "" →
      IssuesOne (status.Get c g log) log (fun req => req.Method = .GET)) ∧
    IssuesOne (accesskeys.ListAccessKeys c log) log (fun req => req.Method = .GET) :=
  all_methods c log

/-- C13 at a concrete input: PurgeAll is a POST. -/
theorem C13_witness :
    IssuesOne (okClient.PurgeAll { Context := none, ServiceID := "svc" } []) []
      (fun req => req.Method = .POST) :=
  (C13_methods okClient []).2.2.2.2.2.2.2.2.2.2.2.2.2.2.2.2.2.2.2.2.2.2.1 _ (by decide) rfl

/-- C14 as stated fails: the URL `:` passes validation (it is not empty) but does not parse,
and Purge returns the parse error without any request. -/
theorem C14_counterexample :
    ({ Context := none, Soft := false, URL := ":" } : PurgeInput).URL ≠ "" ∧
    schemeCheckingClient.Purge { Context := none, Soft := false, URL := ":" } [] =
      (.error (.parse "missing protocol scheme"), []) ∧
    newCalls [] (schemeCheckingClient.Purge { Context := none, Soft := false, URL := ":" } []).2 =
      [] := by
  refine ⟨by decide, rfl, by decide⟩

/-- C14, amended: every operation whose required fields pass validation and whose request is
built (the URL of Purge yields parameters, RawRequest succeeds for PurgeKey, PurgeKeys and
PurgeAll) appends exactly one request to the log, whatever the transport answers and whatever
decoding gives; when the request cannot be built, no request is made. -/
theorem C14_one_request_per_call (c : Client) (log : Log) :
    ((∀ i : ListConditionsInput, i.ServiceID ≠ "" → i.ServiceVersion ≠ 0 →
      AppendsOneRequest (c.ListConditions i log) log) ∧
    (∀ i : CreateConditionInput, i.ServiceID ≠ "" → i.ServiceVersion ≠ 0 →
      AppendsOneRequest (c.CreateCondition i log) log) ∧
    (∀ i : GetConditionInput, i.Name ≠ "" → i.ServiceID ≠ "" → i.ServiceVersion ≠ 0 →
      AppendsOneRequest (c.GetCondition i log) log) ∧
    (∀ i : UpdateConditionInput, i.Name ≠ "" → i.ServiceID ≠ "" → i.ServiceVersion ≠ 0 →
      AppendsOneRequest (c.UpdateCondition i log) log) ∧
    (∀ i : DeleteConditionInput, i.Name ≠ "" → i.ServiceID ≠ "" → i.ServiceVersion ≠ 0 →
      AppendsOneRequest (c.DeleteCondition i log) log) ∧
    (∀ i : ListVCLsInput, i.ServiceID ≠ "" → i.ServiceVersion ≠ 0 →
      AppendsOneRequest (c.ListVCLs i log) log) ∧
    (∀ i : GetVCLInput, i.Name ≠ "" → i.ServiceID ≠ "" → i.ServiceVersion ≠ 0 →
      AppendsOneRequest (c.GetVCL i log) log) ∧
    (∀ i : GetGeneratedVCLInput, i.ServiceID ≠ "" → i.ServiceVersion ≠ 0 →
      AppendsOneRequest (c.GetGeneratedVCL i log) log) ∧
    (∀ i : CreateVCLInput, i.ServiceID ≠ "" → i.ServiceVersion ≠ 0 →
      AppendsOneRequest (c.CreateVCL i log) log) ∧
    (∀ i : UpdateVCLInput, i.Name ≠ "" → i.ServiceID ≠ "" → i.ServiceVersion ≠ 0 →
      AppendsOneRequest (c.UpdateVCL i log) log) ∧
    (∀ i : ActivateVCLInput, i.Name ≠ "" → i.ServiceID ≠ "" → i.ServiceVersion ≠ 0 →
      AppendsOneRequest (c.ActivateVCL i log) log) ∧
    (∀ i : DeleteVCLInput, i.Name ≠ "" → i.ServiceID ≠ "" → i.ServiceVersion ≠ 0 →
      AppendsOneRequest (c.DeleteVCL i log) log) ∧
    (∀ i : ListGzipsInput, i.ServiceID ≠ "" → i.ServiceVersion ≠ 0 →
      AppendsOneRequest (c.ListGzips i log) log) ∧
    (∀ i : CreateGzipInput, i.ServiceID ≠ "" → i.ServiceVersion ≠ 0 →
      AppendsOneRequest (c.CreateGzip i log) log) ∧
    (∀ i : GetGzipInput, i.Name ≠ "" → i.ServiceID ≠ "" → i.ServiceVersion ≠ 0 →
      AppendsOneRequest (c.GetGzip i log) log) ∧
    (∀ i : UpdateGzipInput, i.Name ≠ "" → i.ServiceID ≠ "" → i.ServiceVersion ≠ 0 →
      AppendsOneRequest (c.UpdateGzip i log) log) ∧
    (∀ i : DeleteGzipInput, i.Name ≠ "" → i.ServiceID ≠ "" → i.ServiceVersion ≠ 0 →
      AppendsOneRequest (c.DeleteGzip i log) log) ∧
    (∀ i : GetSettingsInput, i.ServiceID ≠ "" → i.ServiceVersion ≠ 0 →
      AppendsOneRequest (c.GetSettings i log) log) ∧
    (∀ i : UpdateSettingsInput, i.ServiceID ≠ "" → i.ServiceVersion ≠ 0 →
      AppendsOneRequest (c.UpdateSettings i log) log) ∧
    (∀ (i : PurgeInput) (params : StringMap), i.URL ≠ "" →
      constructRequestOptionsParam c i.URL = .ok params →
      AppendsOneRequest (c.Purge i log) log) ∧
    (∀ i : PurgeKeyInput, i.ServiceID ≠ "" → i.Key ≠ "" →
      c.rawRequestErr .POST (ToSafeURL ["service", i.ServiceID, "purge", i.Key])
        { Context := i.Context, Headers := [], Params := [], Parallel := true } = none →
      AppendsOneRequest (c.PurgeKey i log) log) ∧
    (∀ i : PurgeKeysInput, i.ServiceID ≠ "" → i.Keys ≠ [] →
      c.rawRequestErr .POST (ToSafeURL ["service", i.ServiceID, "purge"])
        { Context := i.Context, Headers := [], Params := [], Parallel := true } = none →
      AppendsOneRequest (c.PurgeKeys i log) log) ∧
    (∀ i : PurgeAllInput, i.ServiceID ≠ "" →
      c.rawRequestErr .POST (ToSafeURL ["service", i.ServiceID, "purge_all"])
        { Context := i.Context, Headers := [], Params := [], Parallel := false } = none →
      AppendsOneRequest (c.PurgeAll i log) log) ∧
    (∀ g : status.GetInput, g.Domain ≠ "" →
      AppendsOneRequest (status.Get c g log) log) ∧
    AppendsOneRequest (accesskeys.ListAccessKeys c log) log) ∧
    (∀ (i : PurgeInput) (err : Error), i.URL ≠ "" →
      constructRequestOptionsParam c i.URL = .error err → (c.Purge i log).2 = log) ∧
    (∀ (i : PurgeKeyInput) (d : String), i.ServiceID ≠ "" → i.Key ≠ "" →
      c.rawRequestErr .POST (ToSafeURL ["service", i.ServiceID, "purge", i.Key])
        { Context := i.Context, Headers := [], Params := [], Parallel := true } = some d →
      (c.PurgeKey i log).2 = log) ∧
    (∀ (i : PurgeKeysInput) (d : String), i.ServiceID ≠ "" → i.Keys ≠ [] →
      c.rawRequestErr .POST (ToSafeURL ["service", i.ServiceID, "purge"])
        { Context := i.Context, Headers := [], Params := [], Parallel := true } = some d →
      (c.PurgeKeys i log).2 = log) ∧
    (∀ (i : PurgeAllInput) (d : String), i.ServiceID ≠ "" →
      c.rawRequestErr .POST (ToSafeURL ["service", i.ServiceID, "purge_all"])
        { Context := i.Context, Headers := [], Params := [], Parallel := false } = some d →
      (c.PurgeAll i log).2 = log) :=
  all_append_one c log

/-- C14 at a concrete input: a delete whose status is not ok still made one request. -/
theorem C14_witness :
    AppendsOneRequest
      ((stubClient (.ok { Body := "b" }) none (some { Status := some "fail" })).DeleteGzip
        { Context := none, Name := "g", ServiceID := "svc", ServiceVersion := 1 } []) [] :=
  (C14_one_request_per_call (stubClient (.ok { Body := "b" }) none
    (some { Status := some "fail" })) []).1.2.2.2.2.2.2.2.2.2.2.2.2.2.2.2.2.1 _
    (by decide) (by decide) (by decide)

/-- C15: a domain status check with a domain issues one request whose parameters hold the
key `domain` with the input Domain and the key `scope` exactly when a Scope is given, with
the text of that scope; without a Scope there is no `scope` parameter. -/
theorem C15_status_parameters (c : Client) (g : status.GetInput) (log : Log)
    (h : g.Domain ≠ "") :
    IssuesOne (status.Get c g log) log (fun req =>
      StringMap.get req.Params "domain" = some g.Domain ∧
      StringMap.get req.Params "scope" = g.Scope ∧
      (g.Scope = none → "scope" ∉ req.Params.keys) ∧
      req.Params.keys ⊆ ["scope", "domain"]) := by
  rw [statusGet_valid c g log h]
  refine ⟨_, newCalls_exchange _ _ _ _ _, ?_⟩
  cases hs : g.Scope <;> simp [statusParams, hs, StringMap.get, StringMap.keys]

/-- C15 at the input of the estimate test: the scope parameter is `estimate`. -/
theorem C15_witness :
    IssuesOne (status.Get okClient
        { Context := none, Domain := "fastly-sdk-gofastly-testing.com",
          Scope := some status.ScopeEstimate } []) [] (fun req =>
      StringMap.get req.Params "domain" = some "fastly-sdk-gofastly-testing.com" ∧
      StringMap.get req.Params "scope" = some "estimate" ∧
      (some status.ScopeEstimate = none → "scope" ∉ req.Params.keys) ∧
      req.Params.keys ⊆ ["scope", "domain"]) :=
  C15_status_parameters okClient _ [] (by decide)

/-- The request of the status check without a scope: the domain is its only parameter. -/
theorem statusGet_example_no_scope :
    calls (status.Get okClient
        { Context := none, Domain := "fastly-sdk-gofastly-testing.com", Scope := none } []).2 =
      [{ Method := .GET, Path := "domains/v1/tools/status",
         Params := [("domain", "fastly-sdk-gofastly-testing.com")], Header := [], Form := none,
         Context := none, Parallel := false }] := by
  decide

/-! ## The target URL of Purge -/

/-- A key reads as some value exactly when it is a key of the map. -/
theorem StringMap.get_isSome_iff (m : StringMap) (k : String) :
    (StringMap.get m k).isSome = true ↔ k ∈ m.keys := by
  induction m with
  | nil => simp [StringMap.get, StringMap.keys]
  | cons p rest ih =>
    obtain ⟨a, b⟩ := p
    by_cases h : a = k
    · simp [StringMap.get, StringMap.keys, h]
    · have h2 : ¬ k = a := fun e => h e.symm
      simp only [StringMap.get, h, if_false, ih, StringMap.keys, List.map_cons, List.mem_cons,
        h2, false_or]

/-- In a well-formed query a key reads as a non-empty slice exactly when it is a key. -/
theorem Values.get_ne_nil_iff (v : Values) (h : v.WellFormed) (k : String) :
    Values.get v k ≠ [] ↔ k ∈ v.map Prod.fst := by
  induction v with
  | nil => simp [Values.get]
  | cons p rest ih =>
    obtain ⟨a, vs⟩ := p
    have hne : vs ≠ [] := h.2 (a, vs) (List.mem_cons_self _ _)
    have hnodup : ((a :: rest.map Prod.fst)).Nodup := by simpa using h.1
    have hrest : Values.WellFormed rest :=
      ⟨(List.nodup_cons.mp hnodup).2, fun kv hkv => h.2 kv (List.mem_cons_of_mem _ hkv)⟩
    by_cases hk : a = k
    · simp [Values.get, hk, hne]
    · have h2 : ¬ k = a := fun e => hk e.symm
      simp only [Values.get, hk, if_false, ih hrest, List.map_cons, List.mem_cons, h2, false_or]

/-- The copy loop started on the empty map over the empty query gives the empty map. -/
theorem constructRequestOptionsParam_noQuery (c : Client) (us : String) (u : URL)
    (h : urlParse c us = .ok u) (hq : u.RawQuery = "") :
    constructRequestOptionsParam c us = .ok [] := by
  have hv : u.Query = [] := by
    simp [URL.Query, hq, parseQuery, splitChars, parseQueryPiece]
  simp [constructRequestOptionsParam, h, hv, copyFirstValues]

/-- When the string does not parse, `constructRequestOptionsParam` returns the parse error. -/
theorem constructRequestOptionsParam_parseError (c : Client) (us : String) (err : Error)
    (h : urlParse c us = .error err) : constructRequestOptionsParam c us = .error err := by
  simp [constructRequestOptionsParam, h]

/-- C16 as stated fails: for the target `https://example.com/a b` the path Purge hands to the
transport is `purge/` and the target as given, while the path builder would escape the
slashes and the space of the target. -/
theorem C16_counterexample :
    urlParse okClient "https://example.com/a b" = .ok { RawQuery := "" } ∧
    calls (okClient.Purge
        { Context := none, Soft := false, URL := "https://example.com/a b" } []).2 =
      [{ Method := .POST, Path := "purge/https://example.com/a b", Params := [], Header := [],
         Form := none, Context := none, Parallel := true }] ∧
    PathEscape "https://example.com/a b" = "https:%2F%2Fexample.com%2Fa%20b" ∧
    "purge/https://example.com/a b" ≠ "purge/" ++ PathEscape "https://example.com/a b" ∧
    "purge/https://example.com/a b" ≠ ToSafeURL ["purge", "https://example.com/a b"] := by
  refine ⟨rfl, by decide, by decide, by decide, by decide⟩

/-- C16, amended: for every non-empty target URL that parses, the path Purge hands to the
transport is `purge/` followed by the target URL exactly as given, without escaping. -/
theorem C16_purge_path_is_raw (c : Client) (i : PurgeInput) (log : Log) (u : URL)
    (h1 : i.URL ≠ "") (h2 : urlParse c i.URL = .ok u) :
    IssuesOne (c.Purge i log) log (fun req => req.Path = "purge/" ++ i.URL) := by
  obtain ⟨m, hm, _⟩ := constructRequestOptionsParam_spec c i.URL u h2
  rw [Purge_valid c i log m h1 hm]
  exact ⟨_, newCalls_exchange _ _ _ _ _, rfl⟩

/-- C16 at the target of the spec. -/
theorem C16_witness :
    IssuesOne (okClient.Purge
        { Context := none, Soft := false, URL := "https://example.com/path?a=1&b=2" } []) []
      (fun req => req.Path = "purge/" ++ "https://example.com/path?a=1&b=2") :=
  C16_purge_path_is_raw okClient _ [] { RawQuery := "a=1&b=2" } (by decide) rfl

/-- C17: for every string that parses as a URL, `constructRequestOptionsParam` returns a map
(never an error, never an index out of range) whose keys are exactly the keys of the parsed
query and which holds for each key the first value listed for it; without a query string the
map is empty. Every key of a parsed query has at least one value. -/
theorem C17_constructRequestOptionsParam_total (c : Client) (us : String) (u : URL)
    (h : urlParse c us = .ok u) :
    ∃ m, constructRequestOptionsParam c us = .ok m ∧
      (∀ k, k ∈ m.keys ↔ k ∈ u.Query.map Prod.fst) ∧
      (∀ k, StringMap.get m k = (Values.get u.Query k).head?) ∧
      (∀ kv ∈ u.Query, kv.2 ≠ []) ∧
      (u.RawQuery = "" → m = []) := by
  obtain ⟨m, hm, hget⟩ := constructRequestOptionsParam_spec c us u h
  refine ⟨m, hm, ?_, hget, u.Query_wellFormed.2, ?_⟩
  · intro k
    rw [← StringMap.get_isSome_iff, hget k, ← Values.get_ne_nil_iff u.Query u.Query_wellFormed k]
    cases Values.get u.Query k <;> simp
  · intro hq
    have h0 := constructRequestOptionsParam_noQuery c us u h hq
    rw [hm] at h0
    exact Except.ok.inj h0

/-- C17 at a target with a repeated key: of `a=1&a=2` only the value 1 is kept. -/
theorem C17_witness :
    ∃ m, constructRequestOptionsParam okClient "https://example.com/path?a=1&a=2&b=3" = .ok m ∧
      (∀ k, k ∈ m.keys ↔ k ∈ (URL.Query { RawQuery := "a=1&a=2&b=3" }).map Prod.fst) ∧
      (∀ k, StringMap.get m k = (Values.get (URL.Query { RawQuery := "a=1&a=2&b=3" }) k).head?) ∧
      (∀ kv ∈ URL.Query { RawQuery := "a=1&a=2&b=3" }, kv.2 ≠ []) ∧
      (({ RawQuery := "a=1&a=2&b=3" } : URL).RawQuery = "" → m = []) :=
  C17_constructRequestOptionsParam_total okClient _ _ rfl

/-- The map for a target with a repeated key, and for a target without a query. -/
theorem constructRequestOptionsParam_examples :
    constructRequestOptionsParam okClient "https://example.com/path?a=1&a=2&b=3" =
      .ok [("b", "3"), ("a", "1")] ∧
    constructRequestOptionsParam okClient "https://example.com/path" = .ok [] := by
  refine ⟨rfl, rfl⟩

/-- C18: for every non-empty URL that fails to parse, Purge returns no result and the parse
error that `constructRequestOptionsParam` produced, and leaves the log as it was, with and
without Soft. -/
theorem C18_purge_parse_error (c : Client) (i : PurgeInput) (log : Log) (err : Error)
    (h1 : i.URL ≠ "") (h2 : urlParse c i.URL = .error err) :
    constructRequestOptionsParam c i.URL = .error err ∧
    c.Purge i log = (.error err, log) ∧
    c.Purge { i with Soft := !i.Soft } log = (.error err, log) := by
  have hp := constructRequestOptionsParam_parseError c i.URL err h2
  exact ⟨hp, Purge_noParams c i log err h1 hp,
    Purge_noParams c { i with Soft := !i.Soft } log err h1 hp⟩

/-- C18 at a concrete input: the soft purge of `:`, which has no protocol scheme. -/
theorem C18_witness :
    constructRequestOptionsParam schemeCheckingClient ":" =
      .error (.parse "missing protocol scheme") ∧
    schemeCheckingClient.Purge { Context := none, Soft := true, URL := ":" } [] =
      (.error (.parse "missing protocol scheme"), []) ∧
    schemeCheckingClient.Purge
        { ({ Context := none, Soft := true, URL := ":" } : PurgeInput) with Soft := !true } [] =
      (.error (.parse "missing protocol scheme"), []) :=
  C18_purge_parse_error schemeCheckingClient { Context := none, Soft := true, URL := ":" } []
    (.parse "missing protocol scheme") (by decide) rfl

/-! ## Keys of the form body and keys of the response -/

/-- The form body is the echo with every value printed. -/
theorem query.Values_eq_echo (fields : List StructField) :
    query.Values fields = (query.echo fields).map (fun kv => (kv.1, query.valueString kv.2)) := by
  unfold query.Values
  induction fields with
  | nil => rfl
  | cons sf rest ih =>
    unfold query.reflectValue query.echo
    by_cases h1 : sf.Tag = "-"
    · simp only [h1, if_true]
      exact ih
    · simp only [h1, if_false]
      by_cases h2 : ((query.parseTag sf.Tag).2.contains "omitempty" &&
          query.isEmptyValue sf.Value) = true
      · simp only [h2, if_true]
        exact ih
      · simp only [h2, if_false, List.map_cons, query.fieldKey, ih]
        rfl

/-- The keys of the six inputs whose identifying fields are all tagged `-` are keys of their
optional attributes, whatever the identifying fields hold. -/
theorem tagged_inputs_bodyKeys (c1 : CreateConditionInput) (c2 : UpdateConditionInput)
    (v1 : CreateVCLInput) (v2 : UpdateVCLInput) (g1 : CreateGzipInput) (g2 : UpdateGzipInput) :
    bodyKeys c1.urlFields ⊆ attributeKeys c1.urlFields ∧
    bodyKeys c2.urlFields ⊆ attributeKeys c2.urlFields ∧
    bodyKeys v1.urlFields ⊆ attributeKeys v1.urlFields ∧
    bodyKeys v2.urlFields ⊆ attributeKeys v2.urlFields ∧
    bodyKeys g1.urlFields ⊆ attributeKeys g1.urlFields ∧
    bodyKeys g2.urlFields ⊆ attributeKeys g2.urlFields := by
  refine ⟨?_, ?_, ?_, ?_, ?_, ?_⟩
  · have ha : attributeKeys c1.urlFields = ["name", "priority", "statement", "type"] := rfl
    rw [ha, bodyKeys, CreateConditionInput_form]
    cases c1.Name <;> cases c1.Priority <;> cases c1.Statement <;> cases c1.Type_ <;>
      simp [formEntry]
  · have ha : attributeKeys c2.urlFields = ["comment", "priority", "statement", "type"] := rfl
    rw [ha, bodyKeys, UpdateConditionInput_form]
    cases c2.Comment <;> cases c2.Priority <;> cases c2.Statement <;> cases c2.Type_ <;>
      simp [formEntry]
  · have ha : attributeKeys v1.urlFields = ["content", "main", "name"] := rfl
    rw [ha, bodyKeys, CreateVCLInput_form]
    cases v1.Content <;> cases v1.Main <;> cases v1.Name <;> simp [formEntry]
  · have ha : attributeKeys v2.urlFields = ["content", "name"] := rfl
    rw [ha, bodyKeys, UpdateVCLInput_form]
    cases v2.Content <;> cases v2.NewName <;> simp [formEntry]
  · have ha : attributeKeys g1.urlFields =
        ["cache_condition", "content_types", "extensions", "name"] := rfl
    rw [ha, bodyKeys, CreateGzipInput_form]
    cases g1.CacheCondition <;> cases g1.ContentTypes <;> cases g1.Extensions <;>
      cases g1.Name <;> simp [formEntry]
  · have ha : attributeKeys g2.urlFields =
        ["cache_condition", "content_types", "extensions", "name"] := rfl
    rw [ha, bodyKeys, UpdateGzipInput_form]
    cases g2.CacheCondition <;> cases g2.ContentTypes <;> cases g2.Extensions <;>
      cases g2.NewName <;> simp [formEntry]

/-- For the six inputs whose identifying fields are all tagged `-`, every serialized field is
written under the key its response field is decoded from. -/
theorem tagged_inputs_keysAgree (c1 : CreateConditionInput) (c2 : UpdateConditionInput)
    (v1 : CreateVCLInput) (v2 : UpdateVCLInput) (g1 : CreateGzipInput) (g2 : UpdateGzipInput) :
    KeysAgree c1.urlFields Condition.wireKeys ∧
    KeysAgree c2.urlFields Condition.wireKeys ∧
    KeysAgree v1.urlFields VCL.wireKeys ∧
    KeysAgree v2.urlFields VCL.wireKeys ∧
    KeysAgree g1.urlFields Gzip.wireKeys ∧
    KeysAgree g2.urlFields Gzip.wireKeys := by
  refine ⟨?_, ?_, ?_, ?_, ?_, ?_⟩ <;>
  · intro sf hsf htag
    simp only [CreateConditionInput.urlFields, UpdateConditionInput.urlFields,
      CreateVCLInput.urlFields, UpdateVCLInput.urlFields, CreateGzipInput.urlFields,
      UpdateGzipInput.urlFields, List.mem_cons, List.mem_singleton, List.not_mem_nil,
      or_false] at hsf
    rcases hsf with rfl | rfl | rfl | rfl | rfl | rfl | rfl | rfl <;>
      first
        | exact absurd rfl htag
        | rfl

/-- The optional attributes of UpdateSettingsInput are written under the keys their response
fields are decoded from. -/
theorem UpdateSettingsInput_attributes_keysAgree (i : UpdateSettingsInput) :
    ∀ sf ∈ i.urlFields, sf.Value.isAttribute = true →
      StringMap.get Settings.wireKeys (responseFieldName sf.Name) = some (query.fieldKey sf) := by
  intro sf hsf hattr
  simp only [UpdateSettingsInput.urlFields, List.mem_cons, List.mem_singleton,
    List.not_mem_nil, or_false] at hsf
  rcases hsf with rfl | rfl | rfl | rfl | rfl | rfl | rfl <;>
    first
      | rfl
      | exact absurd hattr (by simp [FieldValue.isAttribute])

/-- Decoding the echo of a create or update input gives back every optional attribute: the
value in the matching response field is the value of the input, present or absent. -/
theorem echo_round_trip (c1 : CreateConditionInput) (c2 : UpdateConditionInput)
    (v1 : CreateVCLInput) (v2 : UpdateVCLInput) (g1 : CreateGzipInput) (g2 : UpdateGzipInput)
    (s : UpdateSettingsInput) :
    ((Condition.ofEcho (query.echo c1.urlFields)).Name = c1.Name ∧
      (Condition.ofEcho (query.echo c1.urlFields)).Priority = c1.Priority ∧
      (Condition.ofEcho (query.echo c1.urlFields)).Statement = c1.Statement ∧
      (Condition.ofEcho (query.echo c1.urlFields)).Type_ = c1.Type_) ∧
    ((Condition.ofEcho (query.echo c2.urlFields)).Comment = c2.Comment ∧
      (Condition.ofEcho (query.echo c2.urlFields)).Priority = c2.Priority ∧
      (Condition.ofEcho (query.echo c2.urlFields)).Statement = c2.Statement ∧
      (Condition.ofEcho (query.echo c2.urlFields)).Type_ = c2.Type_) ∧
    ((VCL.ofEcho (query.echo v1.urlFields)).Content = v1.Content ∧
      (VCL.ofEcho (query.echo v1.urlFields)).Main = v1.Main ∧
      (VCL.ofEcho (query.echo v1.urlFields)).Name = v1.Name) ∧
    ((VCL.ofEcho (query.echo v2.urlFields)).Content = v2.Content ∧
      (VCL.ofEcho (query.echo v2.urlFields)).Name = v2.NewName) ∧
    ((Gzip.ofEcho (query.echo g1.urlFields)).CacheCondition = g1.CacheCondition ∧
      (Gzip.ofEcho (query.echo g1.urlFields)).ContentTypes = g1.ContentTypes ∧
      (Gzip.ofEcho (query.echo g1.urlFields)).Extensions = g1.Extensions ∧
      (Gzip.ofEcho (query.echo g1.urlFields)).Name = g1.Name) ∧
    ((Gzip.ofEcho (query.echo g2.urlFields)).CacheCondition = g2.CacheCondition ∧
      (Gzip.ofEcho (query.echo g2.urlFields)).ContentTypes = g2.ContentTypes ∧
      (Gzip.ofEcho (query.echo g2.urlFields)).Extensions = g2.Extensions ∧
      (Gzip.ofEcho (query.echo g2.urlFields)).Name = g2.NewName) ∧
    ((Settings.ofEcho (query.echo s.urlFields)).DefaultHost = s.DefaultHost ∧
      (Settings.ofEcho (query.echo s.urlFields)).DefaultTTL = s.DefaultTTL ∧
      (Settings.ofEcho (query.echo s.urlFields)).StaleIfError = s.StaleIfError ∧
      (Settings.ofEcho (query.echo s.urlFields)).StaleIfErrorTTL = s.StaleIfErrorTTL) := by
  refine ⟨?_, ?_, ?_, ?_, ?_, ?_, ?_⟩
  · obtain ⟨ctx, name, priority, sid, sv, statement, type⟩ := c1
    cases name <;> cases priority <;> cases statement <;> cases type <;>
      exact ⟨rfl, rfl, rfl, rfl⟩
  · obtain ⟨comment, ctx, name, priority, sid, sv, statement, type⟩ := c2
    cases comment <;> cases priority <;> cases statement <;> cases type <;>
      exact ⟨rfl, rfl, rfl, rfl⟩
  · obtain ⟨content, ctx, main, name, sid, sv⟩ := v1
    cases content <;> cases main <;> cases name <;> exact ⟨rfl, rfl, rfl⟩
  · obtain ⟨content, ctx, name, newName, sid, sv⟩ := v2
    cases content <;> cases newName <;> exact ⟨rfl, rfl⟩
  · obtain ⟨cc, ct, ctx, ext, name, sid, sv⟩ := g1
    cases cc <;> cases ct <;> cases ext <;> cases name <;> exact ⟨rfl, rfl, rfl, rfl⟩
  · obtain ⟨cc, ct, ctx, ext, name, newName, sid, sv⟩ := g2
    cases cc <;> cases ct <;> cases ext <;> cases newName <;> exact ⟨rfl, rfl, rfl, rfl⟩
  · obtain ⟨ctx, host, ttl, sid, sv, stale, staleTTL⟩ := s
    cases host <;> cases ttl <;> cases stale <;> cases staleTTL <;>
      exact ⟨rfl, rfl, rfl, rfl⟩

/-- C11, the failing input: UpdateSettingsInput serializes its untagged ServiceID under the
key `ServiceID` and its ServiceVersion under `ServiceVersion`, while Settings decodes these
fields from `service_id` and `version`; the keys do not agree, and decoding the echo leaves
both response fields empty. -/
theorem C11_UpdateSettings_keys_disagree :
    query.echo (UpdateSettingsInput.urlFields
      { Context := none, DefaultHost := none, DefaultTTL := some 0, ServiceID := "svc",
        ServiceVersion := 1, StaleIfError := none, StaleIfErrorTTL := none }) =
      [("general.default_ttl", .ptrUint (some 0)), ("ServiceID", .string "svc"),
       ("ServiceVersion", .int 1)] ∧
    StringMap.get Settings.wireKeys (responseFieldName "ServiceID") = some "service_id" ∧
    StringMap.get Settings.wireKeys (responseFieldName "ServiceVersion") = some "version" ∧
    ¬ KeysAgree (UpdateSettingsInput.urlFields
      { Context := none, DefaultHost := none, DefaultTTL := some 0, ServiceID := "svc",
        ServiceVersion := 1, StaleIfError := none, StaleIfErrorTTL := none })
      Settings.wireKeys ∧
    (Settings.ofEcho (query.echo (UpdateSettingsInput.urlFields
      { Context := none, DefaultHost := none, DefaultTTL := some 0, ServiceID := "svc",
        ServiceVersion := 1, StaleIfError := none, StaleIfErrorTTL := none }))).ServiceID =
      none := by
  refine ⟨by decide, by decide, by decide, ?_, by decide⟩
  intro h
  have h2 := h { Name := "ServiceID", Tag := "", Value := .string "svc" } (by decide) (by decide)
  revert h2
  decide

/-- C19, the failing input: the form body of UpdateSettingsInput holds the keys `ServiceID`
and `ServiceVersion`, which are no keys of its optional attributes; the two fields are not
tagged `-` as they are in every other create and update input. -/
theorem C19_UpdateSettings_sends_identifying_fields :
    bodyKeys (UpdateSettingsInput.urlFields
      { Context := some 7, DefaultHost := some "h", DefaultTTL := some 5, ServiceID := "svc",
        ServiceVersion := 1, StaleIfError := none, StaleIfErrorTTL := none }) =
      ["general.default_host", "general.default_ttl", "ServiceID", "ServiceVersion"] ∧
    attributeKeys (UpdateSettingsInput.urlFields
      { Context := some 7, DefaultHost := some "h", DefaultTTL := some 5, ServiceID := "svc",
        ServiceVersion := 1, StaleIfError := none, StaleIfErrorTTL := none }) =
      ["general.default_host", "general.default_ttl", "general.stale_if_error",
       "general.stale_if_error_ttl"] ∧
    ¬ bodyKeys (UpdateSettingsInput.urlFields
      { Context := some 7, DefaultHost := some "h", DefaultTTL := some 5, ServiceID := "svc",
        ServiceVersion := 1, StaleIfError := none, StaleIfErrorTTL := none }) ⊆
      attributeKeys (UpdateSettingsInput.urlFields
      { Context := some 7, DefaultHost := some "h", DefaultTTL := some 5, ServiceID := "svc",
        ServiceVersion := 1, StaleIfError := none, StaleIfErrorTTL := none }) ∧
    calls (okClient.UpdateSettings
      { Context := some 7, DefaultHost := some "h", DefaultTTL := some 5, ServiceID := "svc",
        ServiceVersion := 1, StaleIfError := none, StaleIfErrorTTL := none } []).2 =
      [{ Method := .PUT, Path := "service/svc/version/1/settings", Params := [], Header := [],
         Form := some [("general.default_host", "h"), ("general.default_ttl", "5"),
                       ("ServiceID", "svc"), ("ServiceVersion", "1")],
         Context := some 7, Parallel := false }] := by
  refine ⟨by decide, by decide, by decide, by decide⟩

end fastly
